import Mathlib

/-!
# Insanity test harness: lifecycle engine of `lib/insanity/insanitytest.c`

A shallow embedding of the `InsanityTest` object of the Insanity QA system:
its private data, the GLib hash tables it owns, the four lifecycle entry
points `on_setup`, `on_start`, `on_stop`, `on_teardown`, the public calls a
test body makes back into the library, the standalone runner, the decoding
of the dictionaries received over the bus, the handlers of the remote
calls, the names the test takes on the bus and the loading of the command
line of a standalone run.

Conventions of the embedding.

* A C function that mutates `test->priv` becomes a function from `Test` to
  `Test` (paired with its return value when it has one).
* Everything the library writes to the outside (callback invocations, bus
  signals, method returns, lines on standard output) is appended to
  `Test.events`, so that "nothing was emitted" is an equation between states.
* `LOCK`/`UNLOCK` bracket code that the embedding runs atomically; they have
  no counterpart here.  Diagnostics on standard error are not recorded.
* GLib, libdbus and the C library are external; the few functions of
  theirs that the library relies on (`strtol` and its relatives among them)
  are modelled from their documented behaviour.  Their allocation failures
  (the `Out Of Memory!` branches) are not modelled.
-/

namespace Insanity

/-! ## GLib hash tables with string keys -/

/-- A `GHashTable` keyed by strings (`g_str_hash`, `g_str_equal`): a finite
map, kept as an association list. -/
abbrev GHashTable (α : Type) := List (String × α)

/-- The C call `g_hash_table_lookup`: the value stored under `key`, if any. -/
def g_hash_table_lookup {α : Type} : GHashTable α → String → Option α
  | [], _ => none
  | (k, v) :: rest, key => if k = key then some v else g_hash_table_lookup rest key

/-- The C call `g_hash_table_lookup_extended`, used only to test presence. -/
def g_hash_table_lookup_extended {α : Type} (table : GHashTable α) (key : String) : Bool :=
  (g_hash_table_lookup table key).isSome

/-- The C call `g_hash_table_insert`: a value already stored under `key` is
replaced, otherwise a new entry is added. -/
def g_hash_table_insert {α : Type} (table : GHashTable α) (key : String) (value : α) :
    GHashTable α :=
  (key, value) :: table.filter (fun e => !(e.1 == key))

/-- The C call `g_hash_table_size`. -/
def g_hash_table_size {α : Type} (table : GHashTable α) : Nat := table.length

/-- The C call `g_hash_table_remove_all`. -/
def g_hash_table_remove_all {α : Type} (_table : GHashTable α) : GHashTable α := []

/-- The keys of a table, in iteration order. -/
def g_hash_table_get_keys {α : Type} (table : GHashTable α) : List String :=
  table.map Prod.fst

/-! ## Values -/

/-- The fundamental `GType`s the library handles. -/
inductive GType where
  | G_TYPE_STRING
  | G_TYPE_INT
  | G_TYPE_UINT
  | G_TYPE_INT64
  | G_TYPE_UINT64
  | G_TYPE_DOUBLE
  | G_TYPE_BOOLEAN
  | G_TYPE_POINTER
  deriving DecidableEq, Repr

/-- An initialised `GValue`.  A double is carried by its bit pattern and a
pointer by its address; the library never looks inside either. -/
inductive GValue where
  | string (s : String)
  | int (n : Int)
  | uint (n : Nat)
  | int64 (n : Int)
  | uint64 (n : Nat)
  | double (bits : Nat)
  | boolean (b : Bool)
  | pointer (addr : Nat)
  deriving DecidableEq, Repr

/-- The C macro `G_VALUE_TYPE`. -/
def G_VALUE_TYPE : GValue → GType
  | .string _ => .G_TYPE_STRING
  | .int _ => .G_TYPE_INT
  | .uint _ => .G_TYPE_UINT
  | .int64 _ => .G_TYPE_INT64
  | .uint64 _ => .G_TYPE_UINT64
  | .double _ => .G_TYPE_DOUBLE
  | .boolean _ => .G_TYPE_BOOLEAN
  | .pointer _ => .G_TYPE_POINTER

/-! ## Private data of a test -/

/-- The C enum `RunLevel`. -/
inductive RunLevel where
  | rl_idle
  | rl_setup
  | rl_started
  deriving DecidableEq, Repr

/-- The C struct `Argument`. -/
structure Argument where
  global : Bool
  description : String
  default_value : GValue
  full_description : Option String
  deriving DecidableEq, Repr

/-- The C struct `ChecklistItem`. -/
structure ChecklistItem where
  description : String
  likely_error : Option String
  deriving DecidableEq, Repr

/-- The four GObject signals through which the lifecycle callbacks run
(`setup_signal`, `start_signal`, `stop_signal`, `teardown_signal`). -/
inductive LifecycleSignal where
  | setup
  | start
  | stop
  | teardown
  deriving DecidableEq, Repr

/-- One argument appended to a bus signal by `send_signal`: a basic value
with its D-Bus type code, or a variant with its signature string. -/
inductive SignalArg where
  | basic (code : Char) (value : GValue)
  | variant (signature : String) (value : GValue)
  deriving DecidableEq, Repr

/-- What the library makes visible outside of the test object. -/
inductive Event where
  /-- a handler of a lifecycle signal was invoked -/
  | callback (signal : LifecycleSignal)
  /-- `send_signal` put a signal on the bus -/
  | send_signal (signal_name : String) (path_name : String) (args : List SignalArg)
  /-- a line printed on standard output -/
  | printf (text : String)
  /-- the line `Extra info: name: contents` printed on standard output -/
  | print_extra_info (name : String) (data : GValue)
  /-- the method return sent in answer to a call of `member`, with the
  values appended to it -/
  | method_return (member : String) (args : List GValue)
  deriving DecidableEq, Repr

/-- The C struct `_InsanityTestPrivateData`, with the record of emitted
events added.  `conn` holds the address of the bus connection. -/
structure Test where
  conn : Option String
  name : Option String
  args : Option (GHashTable GValue)
  cpu_load : Int
  exit : Bool
  filename_cache : GHashTable String
  tmpdir : Option String
  standalone : Bool
  checklist_results : GHashTable Bool
  runlevel : RunLevel
  test_name : Option String
  test_desc : Option String
  test_full_desc : Option String
  test_checklist : GHashTable ChecklistItem
  test_arguments : GHashTable Argument
  test_extra_infos : GHashTable String
  test_output_files : GHashTable String
  timeout : Int
  timeout_end_time : Int
  events : List Event
  deriving DecidableEq, Repr

/-- The C constant `TEST_TIMEOUT`. -/
def TEST_TIMEOUT : Int := 15

/-- The GLib constant `G_TIME_SPAN_SECOND`, in microseconds. -/
def G_TIME_SPAN_SECOND : Int := 1000000

/-- The instance initialiser `insanity_test_init`, followed by the three
construct-only properties set by `insanity_test_new`. -/
def insanity_test_init (name description : String) (full_description : Option String) : Test :=
  { conn := none
    name := none
    args := none
    cpu_load := -1
    exit := false
    filename_cache := []
    tmpdir := none
    standalone := true
    checklist_results := []
    runlevel := .rl_idle
    test_name := some name
    test_desc := some description
    test_full_desc := full_description
    test_checklist := []
    test_arguments := []
    test_extra_infos := []
    test_output_files := []
    timeout := TEST_TIMEOUT
    timeout_end_time := 0
    events := [] }

/-- Append one event to the record. -/
def Test.emit (t : Test) (e : Event) : Test :=
  { t with events := t.events ++ [e] }

/-! ## Labels -/

/-- The C function `check_valid_label`: a null label is refused, the first
character must be a letter, and every character must be a letter, a digit,
a dash or a dot. -/
def check_valid_label (label : Option String) : Bool :=
  match label with
  | none => false
  | some s =>
    let first : Char := s.data.headD (Char.ofNat 0)
    if (first < 'A' || first > 'Z') && (first < 'a' || first > 'z') then false
    else s.data.all (fun c =>
      !(c != '-' && c != '.' &&
        (c < '0' || c > '9') &&
        (c < 'A' || c > 'Z') &&
        (c < 'a' || c > 'z')))

/-! ## Bus signals -/

/-- The libdbus function `dbus_type_is_basic`, on type codes. -/
def dbus_type_is_basic (code : Char) : Bool :=
  code ∈ ['y', 'b', 'n', 'q', 'i', 'u', 'x', 't', 'd', 's', 'o', 'g', 'h']

/-- Whether `send_signal` can append one argument.  A basic argument needs a
basic type code.  A variant needs a signature that
`dbus_signature_validate_single` accepts and whose type is basic, which
leaves exactly the one-character signatures of basic types. -/
def send_signal_arg_ok : SignalArg → Bool
  | .basic code _ => dbus_type_is_basic code
  | .variant signature _ =>
    match signature.data with
    | [c] => dbus_type_is_basic c
    | _ => false

/-- The C function `send_signal`: build the signal message for the object
path `test->priv->name` and send it.  It fails, sending nothing, when the
path is missing or an argument cannot be appended. -/
def send_signal (t : Test) (signal_name : String) (args : List SignalArg) : Bool × Test :=
  match t.name with
  | none => (false, t)
  | some path_name =>
    if args.all send_signal_arg_ok then
      (true, t.emit (.send_signal signal_name path_name args))
    else (false, t)

/-! ## Calls a test body makes into the library -/

/-- The C function `insanity_test_validate_step`.  The `g_return_if_fail`
guards leave the test untouched when the label is malformed or is not a
declared checklist item. -/
def insanity_test_validate_step (t : Test) (name : String) (success : Bool)
    (description : Option String) : Test :=
  if !check_valid_label (some name) then t
  else if (g_hash_table_lookup t.test_checklist name).isNone then t
  else
    let t1 :=
      if t.standalone then
        match description with
        | some d =>
          t.emit (.printf ("step: " ++ name ++ ": " ++ (if success then "PASS" else "FAIL")
            ++ " (" ++ d ++ ")\n"))
        | none =>
          t.emit (.printf ("step: " ++ name ++ ": " ++ (if success then "PASS" else "FAIL")
            ++ "\n"))
      else
        let desc := description.getD ""
        (send_signal t "remoteValidateStepSignal"
          [.basic 's' (.string name), .basic 'b' (.boolean success), .basic 's' (.string desc)]).2
    { t1 with checklist_results := g_hash_table_insert t1.checklist_results name success }

/-- The C function `insanity_test_set_extra_info_internal`.  Standalone, the
value is printed; otherwise it is sent as a variant whose signature is
chosen from the value's type, and a value of any other type is dropped. -/
def insanity_test_set_extra_info_internal (t : Test) (name : String) (data : GValue)
    (_locked : Bool) : Test :=
  if t.standalone then t.emit (.print_extra_info name data)
  else
    let dbus_type : Option String :=
      if G_VALUE_TYPE data = .G_TYPE_INT then some "i"
      else if G_VALUE_TYPE data = .G_TYPE_INT64 then some "l"
      else if G_VALUE_TYPE data = .G_TYPE_STRING then some "s"
      else none
    match dbus_type with
    | some ty =>
      (send_signal t "remoteExtraInfoSignal" [.basic 's' (.string name), .variant ty data]).2
    | none => t

/-- The C function `insanity_test_set_extra_info`. -/
def insanity_test_set_extra_info (t : Test) (name : String) (data : GValue) : Test :=
  if !check_valid_label (some name) then t
  else insanity_test_set_extra_info_internal t name data false

/-- The C function `insanity_test_ping`; `now` is the value read from
`g_get_monotonic_time`. -/
def insanity_test_ping (t : Test) (now : Int) : Test :=
  let t1 := t.emit (.printf "insanity_test_ping\n")
  if !t1.standalone then (send_signal t1 "remotePingSignal" []).2
  else { t1 with timeout_end_time := now + t1.timeout * G_TIME_SPAN_SECOND }

/-- The C function `insanity_test_record_start_time`.  The samples it takes
under `USE_CPU_LOAD` are read back only by `insanity_test_record_stop_time`,
whose outcome is a parameter here, so nothing is stored. -/
def insanity_test_record_start_time (t : Test) : Test := t

/-- The C function `insanity_test_record_stop_time`.  `load` is the
percentage it computes when built with `USE_CPU_LOAD`, and `none` when built
without, in which case `cpu_load` keeps its value. -/
def insanity_test_record_stop_time (t : Test) (load : Option Int) : Test :=
  match load with
  | some l => { t with cpu_load := l }
  | none => t

/-- The C function `gather_end_of_test_info`. -/
def gather_end_of_test_info (t : Test) (load : Option Int) : Test :=
  if t.cpu_load ≥ 0 then t
  else
    let t1 := insanity_test_record_stop_time t load
    insanity_test_set_extra_info_internal t1 "cpu-load" (.int t1.cpu_load) true

/-- The C function `insanity_test_done`.  `SIGNAL` wakes a thread that is
waiting on the condition at that moment and leaves no mark in the test. -/
def insanity_test_done (t : Test) : Test :=
  if !t.standalone then (send_signal t "remoteStopSignal" []).2
  else t

/-- The value bound to `key` in `test->priv->args`, when that table exists
and holds one: the lookup `insanity_test_get_argument` makes first. -/
def bound_argument (t : Test) (key : String) : Option GValue :=
  match t.args with
  | some args => g_hash_table_lookup args key
  | none => none

/-- The C function `insanity_test_get_argument`.  `some v` stands for a
`TRUE` return with `v` copied into the out value, `none` for a `FALSE`
return with the out value left untouched. -/
def insanity_test_get_argument (t : Test) (key : String) : Option GValue :=
  if !check_valid_label (some key) then none
  else
    let arg := g_hash_table_lookup t.test_arguments key
    let blocked : Bool :=
      match arg with
      | some a => !a.global && t.runlevel != .rl_started && t.runlevel != .rl_setup
      | none => false
    if blocked then none
    else
      match bound_argument t key with
      | some v => some v
      | none =>
        match arg with
        | some a => some a.default_value
        | none => none

/-- The C function `insanity_test_get_output_filename`.  `mkdir` is the
directory `g_dir_make_tmp` would create and `mkstemp` the file `g_mkstemp`
would create; either is `none` when the call fails. -/
def insanity_test_get_output_filename (t : Test) (key : String)
    (mkdir mkstemp : Option String) : Option String × Test :=
  if !check_valid_label (some key) then (none, t)
  else
    match g_hash_table_lookup t.filename_cache key with
    | some fn => (some fn, t)
    | none =>
      if t.standalone then
        let t1 := if t.tmpdir.isNone then { t with tmpdir := mkdir } else t
        if t1.tmpdir.isNone then (none, t1)
        else
          match mkstemp with
          | none => (none, t1)
          | some fn =>
            (some fn, { t1 with filename_cache := g_hash_table_insert t1.filename_cache key fn })
      else (none, t)

/-- The C function `insanity_add_metadata_entry`. -/
def insanity_add_metadata_entry (hash : GHashTable String) (label description : String) :
    GHashTable String :=
  g_hash_table_insert hash label description

/-- The C function `insanity_test_add_checklist_item`. -/
def insanity_test_add_checklist_item (t : Test) (label description : String)
    (error_hint : Option String) : Test :=
  if !check_valid_label (some label) then t
  else
    let i : ChecklistItem := { description := description, likely_error := error_hint }
    { t with test_checklist := g_hash_table_insert t.test_checklist label i }

/-- The C function `insanity_test_add_argument`. -/
def insanity_test_add_argument (t : Test) (label description : String)
    (full_description : Option String) (global : Bool) (default_value : GValue) : Test :=
  if !check_valid_label (some label) then t
  else
    let arg : Argument :=
      { global := global, description := description, default_value := default_value,
        full_description := full_description }
    { t with test_arguments := g_hash_table_insert t.test_arguments label arg }

/-- The C function `insanity_test_add_extra_info`. -/
def insanity_test_add_extra_info (t : Test) (label description : String) : Test :=
  if !check_valid_label (some label) then t
  else { t with test_extra_infos := insanity_add_metadata_entry t.test_extra_infos label description }

/-- The C function `insanity_test_add_output_file`. -/
def insanity_test_add_output_file (t : Test) (label description : String) : Test :=
  if !check_valid_label (some label) then t
  else
    { t with test_output_files :=
        insanity_add_metadata_entry t.test_output_files label description }

/-- The C function `insanity_test_check`; `msg` is the message already
formatted. -/
def insanity_test_check (t : Test) (step : String) (expr : Bool) (msg : String) : Bool × Test :=
  if !check_valid_label (some step) then (false, t)
  else if (g_hash_table_lookup t.test_checklist step).isNone then (false, t)
  else if !expr then (expr, insanity_test_validate_step t step false (some msg))
  else (expr, t)

/-- One step of a test body: a call into the library, with the values the
environment supplies to it (clock reading, temporary names), or a line it
prints itself. -/
inductive Action where
  | printf (text : String)
  | validate_step (name : String) (success : Bool) (description : Option String)
  | check (step : String) (expr : Bool) (msg : String)
  | set_extra_info (name : String) (data : GValue)
  | ping (now : Int)
  | done
  | get_argument (key : String)
  | get_output_filename (key : String) (mkdir mkstemp : Option String)
  | add_checklist_item (label description : String) (error_hint : Option String)
  | add_argument (label description : String) (full_description : Option String)
      (global : Bool) (default_value : GValue)
  | add_extra_info (label description : String)
  | add_output_file (label description : String)
  deriving DecidableEq, Repr

/-- Perform one step on the test. -/
def run_action (t : Test) : Action → Test
  | .printf text => t.emit (.printf text)
  | .validate_step name success description =>
    insanity_test_validate_step t name success description
  | .check step expr msg => (insanity_test_check t step expr msg).2
  | .set_extra_info name data => insanity_test_set_extra_info t name data
  | .ping now => insanity_test_ping t now
  | .done => insanity_test_done t
  | .get_argument _ => t
  | .get_output_filename key mkdir mkstemp =>
    (insanity_test_get_output_filename t key mkdir mkstemp).2
  | .add_checklist_item label description error_hint =>
    insanity_test_add_checklist_item t label description error_hint
  | .add_argument label description full_description global default_value =>
    insanity_test_add_argument t label description full_description global default_value
  | .add_extra_info label description => insanity_test_add_extra_info t label description
  | .add_output_file label description => insanity_test_add_output_file t label description

/-- Perform a sequence of steps, in order. -/
def run_actions (t : Test) (actions : List Action) : Test :=
  actions.foldl run_action t

/-! ## Lifecycle callbacks and their signals -/

/-- A handler connected to the `setup` or `start` signal.  From the state of
the test on entry it yields the calls it makes into the library, in order,
and the boolean it returns. -/
abbrev Handler := Test → List Action × Bool

/-- A handler connected to the `stop` or `teardown` signal. -/
abbrev VoidHandler := Test → List Action

/-- The handlers of the four lifecycle signals, each list in the order in
which GLib invokes them (the class closure `klass->setup` and so on, and
the handlers connected by the test). -/
structure Callbacks where
  setup : List Handler
  start : List Handler
  stop : List VoidHandler
  teardown : List VoidHandler

/-- The C function `insanity_signal_stop_accumulator`: the handler's return
value is stored in the accumulator and is also what the function returns,
so that the emission goes on only after a `TRUE`.  The pair is the
accumulator followed by the function's return. -/
def insanity_signal_stop_accumulator (_return_accu : Bool) (handler_return : Bool) :
    Bool × Bool :=
  let v := handler_return
  (v, v)

/-- The handlers of a boolean signal run under
`insanity_signal_stop_accumulator`, starting from the accumulator `accu`. -/
def g_signal_emit_accumulate (signal : LifecycleSignal) :
    List Handler → Bool → Test → Bool × Test
  | [], accu, t => (accu, t)
  | h :: rest, accu, t =>
    let r := h t
    let t1 := run_actions (t.emit (.callback signal)) r.1
    let a := insanity_signal_stop_accumulator accu r.2
    if a.2 then g_signal_emit_accumulate signal rest a.1 t1 else (a.1, t1)

/-- The call `g_signal_emit (test, setup_signal, 0, &ret)`, and the same for
`start_signal`.  GLib starts the accumulator of a boolean signal at `FALSE`
and always writes the outcome to the return location. -/
def g_signal_emit_boolean (signal : LifecycleSignal) (handlers : List Handler) (t : Test) :
    Bool × Test :=
  g_signal_emit_accumulate signal handlers false t

/-- The call `g_signal_emit (test, stop_signal, 0, NULL)`, and the same for
`teardown_signal`: every handler runs. -/
def g_signal_emit_void (signal : LifecycleSignal) : List VoidHandler → Test → Test
  | [], t => t
  | h :: rest, t =>
    g_signal_emit_void signal rest (run_actions (t.emit (.callback signal)) (h t))

/-- The C function `insanity_test_connect`. -/
def insanity_test_connect (t : Test) (conn : String) (uuid : String) : Test :=
  { t with
    standalone := false
    conn := some conn
    name := some ("/net/gstreamer/Insanity/Test/Test" ++ uuid) }

/-- The C function `on_setup`. -/
def on_setup (cb : Callbacks) (t : Test) : Bool × Test :=
  if t.runlevel != .rl_idle then (false, t)
  else
    let e := g_signal_emit_boolean .setup cb.setup t
    let ret := e.1
    let t1 := insanity_test_record_start_time e.2
    let t2 :=
      if !t1.standalone then
        if !ret then (send_signal t1 "remoteStopSignal" []).2
        else (send_signal t1 "remoteReadySignal" []).2
      else t1
    (ret, { t2 with runlevel := .rl_setup })

/-- The C function `on_start`. -/
def on_start (cb : Callbacks) (t : Test) : Bool × Test :=
  if t.runlevel != .rl_setup then (false, t)
  else
    let e := g_signal_emit_boolean .start cb.start t
    (e.1, { e.2 with runlevel := .rl_started })

/-- The C function `on_stop`. -/
def on_stop (cb : Callbacks) (t : Test) : Test :=
  if t.runlevel != .rl_started then t
  else
    let t1 := g_signal_emit_void .stop cb.stop t
    let t2 := if !t1.standalone then (send_signal t1 "remoteReadySignal" []).2 else t1
    { t2 with runlevel := .rl_setup }

/-- The C function `on_teardown`; `load` is passed on to
`insanity_test_record_stop_time`. -/
def on_teardown (cb : Callbacks) (load : Option Int) (t : Test) : Test :=
  if t.runlevel != .rl_setup then t
  else
    let t1 := gather_end_of_test_info t load
    let t2 := g_signal_emit_void .teardown cb.teardown t1
    { t2 with runlevel := .rl_idle, exit := true }

/-! ## Standalone runner -/

/-- One pass through the body of the loop of `WAIT_TIMEOUT`, as the waiting
thread sees it: the clock read when the deadline is armed, the calls other
threads make into the library while the condition wait has released the
lock, what the condition wait returns, and the clock read afterwards. -/
structure WaitRound where
  now : Int
  during : List Action
  signalled : Bool
  current_time : Int
  deriving DecidableEq, Repr

/-- The loop of `WAIT_TIMEOUT` over the rounds the environment provides.
`none` means that the thread is still waiting when the rounds are used up.
No 64-bit overflow arises for a 32-bit `timeout` and a clock in
microseconds. -/
def WAIT_TIMEOUT_loop : List WaitRound → Test → Option (Bool × Test)
  | [], _ => none
  | r :: rest, t =>
    let t1 := { t with timeout_end_time := r.now + t.timeout * G_TIME_SPAN_SECOND }
    let t2 := run_actions t1 r.during
    if !r.signalled && decide (r.current_time < t2.timeout_end_time) then
      WAIT_TIMEOUT_loop rest t2
    else some (!r.signalled, t2)

/-- The C function `WAIT_TIMEOUT`.  Without a positive timeout it is a plain
`g_cond_wait`, which returns at the wakeup that ends the first round. -/
def WAIT_TIMEOUT (sched : List WaitRound) (t : Test) : Option (Bool × Test) :=
  if t.timeout > 0 then WAIT_TIMEOUT_loop sched t
  else
    match sched with
    | [] => none
    | r :: _ => some (false, run_actions t r.during)

/-- The lines `insanity_report_failed_tests` prints when `verbose`. -/
def insanity_report_lines (t : Test) (failed : Nat) : List Event :=
  t.checklist_results.map
      (fun e => Event.printf (e.1 ++ ": " ++ (if e.2 then "PASS" else "FAIL") ++ "\n"))
    ++ (t.test_checklist.filter
          (fun e => !g_hash_table_lookup_extended t.checklist_results e.1)).map
        (fun e => Event.printf (e.1 ++ ": SKIP\n"))
    ++ [Event.printf (toString failed ++ "/" ++ toString (g_hash_table_size t.test_checklist)
          ++ " failed tests\n")]

/-- The C function `insanity_report_failed_tests`: the recorded results
that are failures, plus the declared items with no recorded result.  A hash
table holds fewer than `2 ^ 32` entries, so the `unsigned int` counter is
kept as a natural number. -/
def insanity_report_failed_tests (t : Test) (verbose : Bool) : Nat × Test :=
  let failed :=
    (t.checklist_results.filter (fun e => !e.2)).length
      + (t.test_checklist.filter
          (fun e => !g_hash_table_lookup_extended t.checklist_results e.1)).length
  (failed, if verbose then { t with events := t.events ++ insanity_report_lines t failed } else t)

/-- The part of `insanity_test_run_standalone` before its `return`: the
value of the local variable `timeout` and the test as the lifecycle calls
leave it.  `none` when `WAIT_TIMEOUT` does not return. -/
def insanity_test_run_standalone_lifecycle (cb : Callbacks) (load : Option Int)
    (sched : List WaitRound) (t : Test) : Option (Bool × Test) :=
  let s := on_setup cb t
  if s.1 then
    let r := on_start cb s.2
    if r.1 then
      match WAIT_TIMEOUT sched r.2 with
      | none => none
      | some w => some (w.1, on_teardown cb load (on_stop cb w.2))
    else some (false, on_teardown cb load (on_stop cb r.2))
  else some (false, s.2)

/-- The C function `insanity_test_run_standalone`. -/
def insanity_test_run_standalone (cb : Callbacks) (load : Option Int)
    (sched : List WaitRound) (t : Test) : Option (Bool × Test) :=
  match insanity_test_run_standalone_lifecycle cb load sched t with
  | none => none
  | some (timeout, t1) =>
    if !timeout then
      let rep := insanity_report_failed_tests t1 true
      some (rep.1 == 0, rep.2)
    else some (false, t1)

/-- The callback invocations in a record of events, in order. -/
def callbacks_of (events : List Event) : List LifecycleSignal :=
  events.filterMap (fun e =>
    match e with
    | .callback s => some s
    | _ => none)

/-- Every recorded result belongs to a declared checklist item, and no item
has two recorded results.  It holds of a new test and every library call
keeps it. -/
def ResultsWellFormed (t : Test) : Prop :=
  (g_hash_table_get_keys t.checklist_results).Nodup ∧
    ∀ k, k ∈ g_hash_table_get_keys t.checklist_results →
      k ∈ g_hash_table_get_keys t.test_checklist

/-- What no call of a test body into the library changes. -/
structure ActionFrame (t t' : Test) : Prop where
  runlevel : t'.runlevel = t.runlevel
  exit : t'.exit = t.exit
  standalone : t'.standalone = t.standalone
  name : t'.name = t.name
  conn : t'.conn = t.conn
  args : t'.args = t.args
  cpu_load : t'.cpu_load = t.cpu_load
  timeout : t'.timeout = t.timeout
  callbacks : callbacks_of t'.events = callbacks_of t.events
  wf : ResultsWellFormed t → ResultsWellFormed t'

/-- What neither a call into the library nor the emission of a lifecycle
signal changes. -/
structure Frame (t t' : Test) : Prop where
  runlevel : t'.runlevel = t.runlevel
  exit : t'.exit = t.exit
  standalone : t'.standalone = t.standalone
  name : t'.name = t.name
  conn : t'.conn = t.conn
  args : t'.args = t.args
  cpu_load : t'.cpu_load = t.cpu_load
  timeout : t'.timeout = t.timeout
  wf : ResultsWellFormed t → ResultsWellFormed t'

/-! ## Wire format of the bus -/

/-- A value carried by a D-Bus message, one constructor per D-Bus type.  A
dict entry lists its fields, so that an entry without a value can be
written down. -/
inductive DBusValue where
  | byte (n : Nat)
  | boolean (b : Bool)
  | int16 (n : Int)
  | uint16 (n : Nat)
  | int32 (n : Int)
  | uint32 (n : Nat)
  | int64 (n : Int)
  | uint64 (n : Nat)
  | double (bits : Nat)
  | string (s : String)
  | object_path (s : String)
  | signature (s : String)
  | unix_fd (n : Nat)
  | variant (v : DBusValue)
  | array (items : List DBusValue)
  | struct (fields : List DBusValue)
  | dict_entry (fields : List DBusValue)

/-- A `DBusMessage`: the interface and member it names and its arguments.
A `DBusMessageIter` is the list of the values from its position on. -/
structure DBusMessage where
  interface : Option String
  member : String
  args : List DBusValue

/-- The address of the local iterator `subsubsubiter` that
`foreach_dbus_array` hands over for a nested array. -/
def subsubsubiter : Nat := 0

/-- The part of the loop body of `foreach_dbus_array` that turns the value
of an entry into a `GValue`: a plain string, or a variant wrapping a string,
a 32 or 64 bit integer, a double, a boolean or an array.  `none` stands for
the error returns. -/
def foreach_dbus_array_value : DBusValue → Option GValue
  | .string s => some (.string s)
  | .variant (.string s) => some (.string s)
  | .variant (.int32 n) => some (.int n)
  | .variant (.uint32 n) => some (.uint n)
  | .variant (.int64 n) => some (.int64 n)
  | .variant (.uint64 n) => some (.uint64 n)
  | .variant (.double bits) => some (.double bits)
  | .variant (.boolean b) => some (.boolean b)
  | .variant (.array _) => some (.pointer subsubsubiter)
  | _ => none

/-- The loop body of `foreach_dbus_array` up to the call of the callback:
the element must be a dict entry, its first field a string, a second field
must follow, and that field must convert.  `none` stands for the error
returns. -/
def foreach_dbus_array_entry : DBusValue → Option (String × GValue)
  | .dict_entry (.string key :: value :: _) =>
    match foreach_dbus_array_value value with
    | some v => some (key, v)
    | none => none
  | _ => none

/-- The `do ... while` loop of `foreach_dbus_array` over the elements of the
array.  The body runs before the first test for a next element, so on an
array without elements it finds no dict entry and returns `-1`. -/
def foreach_dbus_array_loop {σ : Type} (f : String → GValue → σ → Int × σ) :
    List DBusValue → σ → Int × σ
  | [], userdata => (-1, userdata)
  | entry :: rest, userdata =>
    match foreach_dbus_array_entry entry with
    | none => (-1, userdata)
    | some (key, value) =>
      let r := f key value userdata
      if r.1 ≠ 0 then r
      else
        match rest with
        | [] => (0, r.2)
        | _ :: _ => foreach_dbus_array_loop f rest r.2

/-- The C function `foreach_dbus_array`: `iter` must stand on an array, whose
entries are handed to the callback `f` one by one.  The result is `-1` on a
malformed message, the callback's return when that is not `0`, and `0` at
the end of the array. -/
def foreach_dbus_array {σ : Type} (iter : List DBusValue)
    (f : String → GValue → σ → Int × σ) (userdata : σ) : Int × σ :=
  match iter with
  | .array items :: _ => foreach_dbus_array_loop f items userdata
  | _ => (-1, userdata)

/-- The C function `output_filename_converter`. -/
def output_filename_converter (key : String) (value : GValue) (t : Test) : Int × Test :=
  match value with
  | .string fn => (0, { t with filename_cache := g_hash_table_insert t.filename_cache key fn })
  | _ => (0, t)

/-- The C function `arg_converter`. -/
def arg_converter (key : String) (value : GValue) (t : Test) : Int × Test :=
  match g_hash_table_lookup t.test_arguments key with
  | none => (0, t)
  | some arg =>
    if G_VALUE_TYPE value ≠ G_VALUE_TYPE arg.default_value then (-1, t)
    else
      match t.args with
      | some args => (0, { t with args := some (g_hash_table_insert args key value) })
      | none => (0, t)

/-- The C function `insanity_test_set_args`. -/
def insanity_test_set_args (t : Test) (msg : Option DBusMessage) : Test :=
  let t1 := { t with args := none, filename_cache := g_hash_table_remove_all t.filename_cache }
  match msg with
  | none => t1
  | some m =>
    let iter := m.args
    let r := foreach_dbus_array iter arg_converter { t1 with args := some [] }
    if r.1 < 0 then r.2
    else
      match iter with
      | _ :: next :: rest => (foreach_dbus_array (next :: rest) output_filename_converter r.2).2
      | _ => r.2

/-! ## The remote control endpoint -/

/-- The C function `insanity_test_dbus_handler_remoteSetup`: the values
appended to the reply, and the test. -/
def insanity_test_dbus_handler_remoteSetup (cb : Callbacks) (_load : Option Int) (t : Test)
    (msg : DBusMessage) : List GValue × Test :=
  let t1 := insanity_test_set_args t (some msg)
  let r := on_setup cb t1
  ([.boolean r.1], r.2)

/-- The C function `insanity_test_dbus_handler_remoteStart`. -/
def insanity_test_dbus_handler_remoteStart (cb : Callbacks) (_load : Option Int) (t : Test)
    (msg : DBusMessage) : List GValue × Test :=
  let t1 := insanity_test_set_args t (some msg)
  let r := on_start cb t1
  ([.boolean r.1], r.2)

/-- The C function `insanity_test_dbus_handler_remoteStop`. -/
def insanity_test_dbus_handler_remoteStop (cb : Callbacks) (_load : Option Int) (t : Test)
    (_msg : DBusMessage) : List GValue × Test :=
  ([], on_stop cb t)

/-- The C function `insanity_test_dbus_handler_remoteTearDown`. -/
def insanity_test_dbus_handler_remoteTearDown (cb : Callbacks) (load : Option Int) (t : Test)
    (_msg : DBusMessage) : List GValue × Test :=
  ([], on_teardown cb load t)

/-- The C table `dbus_test_handlers`. -/
def dbus_test_handlers :
    List (String × (Callbacks → Option Int → Test → DBusMessage → List GValue × Test)) :=
  [("remoteSetUp", insanity_test_dbus_handler_remoteSetup),
    ("remoteStart", insanity_test_dbus_handler_remoteStart),
    ("remoteStop", insanity_test_dbus_handler_remoteStop),
    ("remoteTearDown", insanity_test_dbus_handler_remoteTearDown)]

/-- The C function `insanity_call_interface`: the first entry of the table
whose method is the member of the message runs, and the method return is
sent after it. -/
def insanity_call_interface (cb : Callbacks) (load : Option Int) (t : Test)
    (msg : DBusMessage) : Bool × Test :=
  match dbus_test_handlers.find? (fun h => h.1 == msg.member) with
  | some h =>
    let r := h.2 cb load t msg
    (true, r.2.emit (.method_return msg.member r.1))
  | none => (false, t)

/-- The callback of `foreach_dbus_array` applied in turn to entries already
decoded, until it returns something other than `0`. -/
def callback_run {σ : Type} (f : String → GValue → σ → Int × σ) :
    List (String × GValue) → σ → Int × σ
  | [], userdata => (0, userdata)
  | (key, value) :: rest, userdata =>
    let r := f key value userdata
    if r.1 ≠ 0 then r else callback_run f rest r.2

/-- A callback for `foreach_dbus_array` that keeps what it is handed. -/
def collect (key : String) (value : GValue) (seen : List (String × GValue)) :
    Int × List (String × GValue) :=
  (0, seen ++ [(key, value)])

/-- The values the decoder supports, in the words of the specification: a
plain string, or a variant wrapping a string, int32, uint32, int64, uint64,
double, boolean or a nested array. -/
def supported_wire_value : DBusValue → Bool
  | .string _ => true
  | .variant (.string _) => true
  | .variant (.int32 _) => true
  | .variant (.uint32 _) => true
  | .variant (.int64 _) => true
  | .variant (.uint64 _) => true
  | .variant (.double _) => true
  | .variant (.boolean _) => true
  | .variant (.array _) => true
  | _ => false

/-- The malformed entries, in the words of the specification: an entry that
is not a dict entry, a key that is not a string (or is absent), a value that
is missing, a value of an unsupported kind. -/
inductive OffendingEntry : DBusValue → Prop where
  | not_dict_entry (e : DBusValue) (h : ∀ fields, e ≠ .dict_entry fields) : OffendingEntry e
  | no_key : OffendingEntry (.dict_entry [])
  | key_not_string (k : DBusValue) (rest : List DBusValue) (h : ∀ s, k ≠ .string s) :
      OffendingEntry (.dict_entry (k :: rest))
  | value_missing (key : String) : OffendingEntry (.dict_entry [.string key])
  | value_unsupported (key : String) (value : DBusValue) (rest : List DBusValue)
      (h : supported_wire_value value = false) :
      OffendingEntry (.dict_entry (.string key :: value :: rest))

/-- The libdbus function `dbus_message_iter_append_basic`: the wire value
written for a basic type code and the datum it is handed, when the two
agree. -/
def dbus_message_iter_append_basic (code : Char) (value : GValue) : Option DBusValue :=
  match value with
  | .string s => if code = 's' then some (.string s) else none
  | .int n => if code = 'i' then some (.int32 n) else none
  | .uint n => if code = 'u' then some (.uint32 n) else none
  | .int64 n => if code = 'x' then some (.int64 n) else none
  | .uint64 n => if code = 't' then some (.uint64 n) else none
  | .double bits => if code = 'd' then some (.double bits) else none
  | .boolean b => if code = 'b' then some (.boolean b) else none
  | .pointer _ => none

/-- The wire value `send_signal` writes for one argument: a basic value, or
a variant container opened with the signature and holding the basic value
of that type. -/
def send_signal_arg_wire : SignalArg → Option DBusValue
  | .basic code value => dbus_message_iter_append_basic code value
  | .variant signature value =>
    match signature.data with
    | [c] =>
      match dbus_message_iter_append_basic c value with
      | some w => some (.variant w)
      | none => none
    | _ => none

/-- An ASCII letter, `A` to `Z` or `a` to `z`. -/
def is_ascii_letter (c : Char) : Prop := ('A' ≤ c ∧ c ≤ 'Z') ∨ ('a' ≤ c ∧ c ≤ 'z')

/-- An ASCII digit. -/
def is_ascii_digit (c : Char) : Prop := '0' ≤ c ∧ c ≤ '9'

/-- A character allowed in a label, in the words of the specification: a
letter, a digit, a dash or a dot. -/
def is_label_char (c : Char) : Prop :=
  is_ascii_letter c ∨ is_ascii_digit c ∨ c = '-' ∨ c = '.'

/-- A valid label, in the words of the specification: a string that is not
empty, starts with a letter and holds label characters only. -/
def ValidLabel (s : String) : Prop :=
  s ≠ "" ∧ (∃ c rest, s.data = c :: rest ∧ is_ascii_letter c) ∧ ∀ c, c ∈ s.data → is_label_char c

/-- The method returns in a record of events, in order. -/
def replies_of (events : List Event) : List Event :=
  events.filter (fun e =>
    match e with
    | .method_return _ _ => true
    | _ => false)

/-! ## Names on the bus -/

/-- The C macro `INSANITY_TEST_INTERFACE`. -/
def INSANITY_TEST_INTERFACE : String := "net.gstreamer.Insanity.Test"

/-- The well-known name `object_name` that `listen` requests on the bus:
`g_strdup_printf (INSANITY_TEST_INTERFACE ".Test%s", uuid)`. -/
def listen_object_name (uuid : String) : String :=
  INSANITY_TEST_INTERFACE ++ ".Test" ++ uuid

/-- The C string `introspect_response_template`, as the text before its one
`%s` directive and the text after it. -/
def introspect_response_template : String × String :=
  ("<!DOCTYPE node PUBLIC \"-//freedesktop//DTD D-BUS Object Introspection 1.0//EN\" "
      ++ "\"http://www.freedesktop.org/standards/dbus/1.0/introspect.dtd\">\n"
      ++ "<node name=\"/net/gstreamer/Insanity/Test/Test",
    "\">\n"
      ++ "  <interface name=\"org.freedesktop.DBus.Introspectable\">\n"
      ++ "    <method name=\"Introspect\">\n"
      ++ "      <arg name=\"xml_data\" direction=\"out\" type=\"s\" />\n"
      ++ "    </method>\n"
      ++ "  </interface>\n"
      ++ "  <interface name=\"" ++ INSANITY_TEST_INTERFACE ++ "\">\n"
      ++ "    <method name=\"remoteSetUp\">\n"
      ++ "      <arg name=\"success\" direction=\"out\" type=\"b\" />\n"
      ++ "      <arg name=\"arguments\" direction=\"in\" type=\"a\x7bsv\x7d\" />\n"
      ++ "      <arg name=\"outputfiles\" direction=\"in\" type=\"a\x7bss\x7d\" />\n"
      ++ "    </method>\n"
      ++ "    <method name=\"remoteStart\">\n"
      ++ "      <arg name=\"success\" direction=\"out\" type=\"b\" />\n"
      ++ "      <arg name=\"arguments\" direction=\"in\" type=\"a\x7bsv\x7d\" />\n"
      ++ "      <arg name=\"outputfiles\" direction=\"in\" type=\"a\x7bss\x7d\" />\n"
      ++ "    </method>\n"
      ++ "    <method name=\"remoteStop\">\n"
      ++ "    </method>\n"
      ++ "    <method name=\"remoteTearDown\">\n"
      ++ "    </method>\n"
      ++ "    <signal name=\"remoteReadySignal\">\n"
      ++ "    </signal>\n"
      ++ "    <signal name=\"remoteStopSignal\">\n"
      ++ "    </signal>\n"
      ++ "    <signal name=\"remoteValidateStepSignal\">\n"
      ++ "      <arg name=\"name\" type=\"s\" />\n"
      ++ "      <arg name=\"success\" type=\"b\" />\n"
      ++ "      <arg name=\"description\" type=\"s\" />\n"
      ++ "    </signal>\n"
      ++ "    <signal name=\"remoteExtraInfoSignal\">\n"
      ++ "      <arg name=\"name\" type=\"s\" />\n"
      ++ "      <arg name=\"value\" type=\"v\" />\n"
      ++ "    </signal>\n"
      ++ "    <signal name=\"remotePingSignal\">\n"
      ++ "    </signal>\n"
      ++ "  </interface>\n"
      ++ "</node>\n")

/-- The string `introspect_response` that `listen` returns for `Introspect`:
`sprintf (introspect_response, introspect_response_template, uuid)`. -/
def listen_introspect_response (uuid : String) : String :=
  introspect_response_template.1 ++ uuid ++ introspect_response_template.2

/-! ## Command line of a standalone run -/

/-- The C function `isspace`, in the C locale. -/
def isspace (c : Char) : Bool :=
  c ∈ [' ', '\t', '\n', Char.ofNat 11, Char.ofNat 12, '\r']

/-- The value of a decimal digit, `none` for any other character. -/
def digit_value (c : Char) : Option Nat :=
  if c ∈ ['0', '1', '2', '3', '4', '5', '6', '7', '8', '9'] then some (c.toNat - 48) else none

/-- The digits at the front of a text, read in base 10 onto `acc`, and the
text that follows them. -/
def read_digits : List Char → Nat → Nat × List Char
  | [], acc => (acc, [])
  | c :: rest, acc =>
    match digit_value c with
    | some d => read_digits rest (acc * 10 + d)
    | none => (acc, c :: rest)

/-- The subject sequence that `strtol` and its relatives look for in base
10: white space is skipped, a sign may follow, then digits.  The result is
whether a minus sign was read, the magnitude, and the text from the end
pointer on; without a digit nothing is converted and the end pointer is the
start of the text. -/
def scan_integer (nptr : String) : Bool × Nat × List Char :=
  let s := nptr.data.dropWhile isspace
  let signed : Bool × List Char :=
    match s with
    | '-' :: rest => (true, rest)
    | '+' :: rest => (false, rest)
    | _ => (false, s)
  match signed.2 with
  | [] => (false, 0, nptr.data)
  | c :: _ =>
    if (digit_value c).isSome then
      let r := read_digits signed.2 0
      (signed.1, r.1, r.2)
    else (false, 0, nptr.data)

/-- The number of bits of the C type `long`, here that of the LP64
platforms. -/
def LONG_BITS : Nat := 64

/-- A signed conversion in `bits` bits, as `strtol` (for `long`) and
`g_ascii_strtoll` (for 64 bits) make it in base 10: the value is clamped to
the range of the type.  The result is the value and the text from the end
pointer on. -/
def strto_signed (bits : Nat) (nptr : String) : Int × List Char :=
  let r := scan_integer nptr
  let v : Int := if r.1 then -(r.2.1 : Int) else (r.2.1 : Int)
  (max (-(2 ^ (bits - 1) : Int)) (min v (2 ^ (bits - 1) - 1)), r.2.2)

/-- An unsigned conversion in `bits` bits, as `strtoul` and
`g_ascii_strtoull` make it in base 10: a magnitude beyond the type gives
the largest value, and a minus sign negates within the type. -/
def strto_unsigned (bits : Nat) (nptr : String) : Nat × List Char :=
  let r := scan_integer nptr
  let v : Nat :=
    if r.2.1 ≥ 2 ^ bits then 2 ^ bits - 1
    else if r.1 then (2 ^ bits - r.2.1) % 2 ^ bits
    else r.2.1
  (v, r.2.2)

/-- The C function `strtol` in base 10. -/
def strtol (nptr : String) : Int × List Char := strto_signed LONG_BITS nptr

/-- The C function `strtoul` in base 10. -/
def strtoul (nptr : String) : Nat × List Char := strto_unsigned LONG_BITS nptr

/-- The GLib function `g_ascii_strtoll` in base 10. -/
def g_ascii_strtoll (nptr : String) : Int × List Char := strto_signed 64 nptr

/-- The GLib function `g_ascii_strtoull` in base 10. -/
def g_ascii_strtoull (nptr : String) : Nat × List Char := strto_unsigned 64 nptr

/-- The conversion of a `long` to the 32 bit `gint` parameter of
`g_value_set_int`. -/
def long_to_gint (n : Int) : Int :=
  (n + 2 ^ 31) % 2 ^ 32 - 2 ^ 31

/-- The conversion of an `unsigned long` to the 32 bit `guint` parameter of
`g_value_set_uint`. -/
def ulong_to_guint (n : Nat) : Nat := n % 2 ^ 32

/-- The GLib function `g_ascii_strcasecmp`, as a test for equality. -/
def g_ascii_strcasecmp_eq (s1 s2 : String) : Bool :=
  s1.data.map Char.toLower == s2.data.map Char.toLower

/-- The C function `find_string`. -/
def find_string (string_value : String) (values : List String) : Bool :=
  values.any (fun v => g_ascii_strcasecmp_eq string_value v)

/-- The C function `is_true`. -/
def is_true (string_value : String) : Bool := find_string string_value ["1", "true"]

/-- The C function `is_false`. -/
def is_false (string_value : String) : Bool := find_string string_value ["0", "false"]

/-- The C function `parse_value`; `some v` stands for a `TRUE` return with
`v` stored in the out value.  `strtof_end` is the text the C function
`strtof` leaves from its end pointer on.  For a double the value is
initialised as `G_TYPE_DOUBLE` and then passed to `g_value_set_float`,
whose type check fails, so it keeps the zero it was initialised with. -/
def parse_value (strtof_end : String → List Char) (t : Test) (key string_value : String) :
    Option GValue :=
  match g_hash_table_lookup t.test_arguments key with
  | none => none
  | some arg =>
    match G_VALUE_TYPE arg.default_value with
    | .G_TYPE_STRING => some (.string string_value)
    | .G_TYPE_INT =>
      let r := strtol string_value
      if r.2.isEmpty then some (.int (long_to_gint r.1)) else none
    | .G_TYPE_UINT =>
      let r := strtoul string_value
      if r.2.isEmpty then some (.uint (ulong_to_guint r.1)) else none
    | .G_TYPE_INT64 =>
      let r := g_ascii_strtoll string_value
      if r.2.isEmpty then some (.int64 r.1) else none
    | .G_TYPE_UINT64 =>
      let r := g_ascii_strtoull string_value
      if r.2.isEmpty then some (.uint64 r.1) else none
    | .G_TYPE_DOUBLE =>
      if (strtof_end string_value).isEmpty then some (.double 0) else none
    | .G_TYPE_BOOLEAN =>
      if is_true string_value then some (.boolean true)
      else if is_false string_value then some (.boolean false)
      else none
    | .G_TYPE_POINTER => none

/-- The C call `strchr (arg, '=')` followed by the split that
`insanity_test_run` makes at it: the key before the first `=` and the text
after it, `none` when there is no `=`. -/
def split_at_equals (arg : String) : Option (String × String) :=
  match arg.data.span (fun c => c != '=') with
  | (key, _ :: value) => some (String.mk key, String.mk value)
  | (_, []) => none

/-- The body of the loop of `insanity_test_run` that loads one `key=value`
from the command line: the key of a declared output file names that file, a
key and text that `parse_value` accepts bind the argument, anything else is
dropped.  `none` stands for the `return FALSE` on a word without `=`. -/
def insanity_test_run_load_one (strtof_end : String → List Char) (t : Test) (word : String) :
    Option Test :=
  match split_at_equals word with
  | none => none
  | some (key, text) =>
    if (g_hash_table_lookup t.test_output_files key).isSome then
      some { t with filename_cache := g_hash_table_insert t.filename_cache key text }
    else
      match parse_value strtof_end t key text with
      | some value =>
        match t.args with
        | some args => some { t with args := some (g_hash_table_insert args key value) }
        | none => some t
      | none => some t

/-- The loop of `insanity_test_run` over the words left on the command line
after the options. -/
def insanity_test_run_load_words (strtof_end : String → List Char) :
    List String → Test → Option Test
  | [], t => some t
  | word :: rest, t =>
    match insanity_test_run_load_one strtof_end t word with
    | none => none
    | some t1 => insanity_test_run_load_words strtof_end rest t1

/-- The branch of `insanity_test_run` taken for `--run` without
`--dbus-uuid`, up to the call of `insanity_test_run_standalone`: the timeout
is stored, a new table of bindings is made and the command line is loaded
into it.  `argv` is the command line without the name of the program. -/
def insanity_test_run_load_arguments (strtof_end : String → List Char) (t : Test)
    (opt_timeout : Int) (argv : List String) : Option Test :=
  insanity_test_run_load_words strtof_end argv
    { t with timeout := opt_timeout, args := some [] }

/-- The number written by a text of decimal digits. -/
def decimal_value (digits : List Char) : Nat :=
  digits.foldl (fun acc c => acc * 10 + (c.toNat - 48)) 0

/-- A decimal digit. -/
def is_decimal_digit (c : Char) : Prop :=
  c ∈ ['0', '1', '2', '3', '4', '5', '6', '7', '8', '9']

/-- Every binding is for a declared argument and has the type of its
declared default. -/
def BindingsTyped (t : Test) : Prop :=
  ∀ key v, bound_argument t key = some v →
    ∃ arg, g_hash_table_lookup t.test_arguments key = some arg ∧
      G_VALUE_TYPE v = G_VALUE_TYPE arg.default_value

/-- The reports of the extra info `cpu-load` in a record of events, printed
or sent on the bus. -/
def cpu_load_reports (events : List Event) : List Event :=
  events.filter (fun e =>
    match e with
    | .print_extra_info name _ => name == "cpu-load"
    | .send_signal signal_name _ (.basic _ (.string name) :: _) =>
      signal_name == "remoteExtraInfoSignal" && name == "cpu-load"
    | _ => false)

/-! ## Sample tests -/

/-- The default handler `insanity_test_setup` of the class: it prints its
name and returns `TRUE`. -/
def insanity_test_setup : Handler := fun _ => ([.printf "insanity_test_setup\n"], true)

/-- The default handler `insanity_test_start` of the class. -/
def insanity_test_start : Handler := fun _ => ([.printf "insanity_test_start\n"], true)

/-- The default handler `insanity_test_stop` of the class. -/
def insanity_test_stop : VoidHandler := fun _ => [.printf "insanity_test_stop\n"]

/-- The default handler `insanity_test_teardown` of the class. -/
def insanity_test_teardown : VoidHandler := fun _ => [.printf "insanity_test_teardown\n"]

/-- The class closures installed by `insanity_test_class_init`, with no
further handler connected. -/
def insanity_test_class_init : Callbacks :=
  { setup := [insanity_test_setup]
    start := [insanity_test_start]
    stop := [insanity_test_stop]
    teardown := [insanity_test_teardown] }

/-- The test declared by `main` of `tests/insanity-test-blank.c`, with a
per-run argument `test-argument` added. -/
def blank_test : Test :=
  insanity_test_add_argument
    (insanity_test_add_output_file
      (insanity_test_add_argument
        (insanity_test_add_checklist_item
          (insanity_test_add_checklist_item
            (insanity_test_init "blank-c-test" "Sample test that does nothing" none)
            "random-step" "Some random step, nothing much" none)
          "other-random-step" "Some random step, nothing much either" (some "error blah"))
        "uri" "URI description" (some "URI full description") true
        (.string "http://127.0.0.1/"))
      "dummy-output-file" "dummy output file")
    "test-argument" "Per-run argument" none false (.string "none")

/-- Handlers whose `setup` reports failure. -/
def failing_setup_callbacks : Callbacks :=
  { insanity_test_class_init with setup := [fun _ => ([.printf "setup failed\n"], false)] }

/-- Handlers whose `start` validates both checklist items of `blank_test`
as passed. -/
def passing_callbacks : Callbacks :=
  { insanity_test_class_init with
    start := [fun _ =>
      ([.validate_step "random-step" true none,
        .validate_step "other-random-step" true (some "fine")], true)] }

/-- A wait during which another thread calls `insanity_test_done`, which
wakes the waiting thread one millisecond after it began to wait. -/
def signalled_wait : List WaitRound :=
  [{ now := 0, during := [.done], signalled := true, current_time := 1000 }]

/-- The test `blank_test` connected to a bus, as `listen` leaves it. -/
def remote_blank_test : Test :=
  insanity_test_connect blank_test "unix:path=/tmp/insanity" "0001"

/-- The test `blank_test` with a value bound to `uri`. -/
def bound_blank_test : Test :=
  { blank_test with args := some (g_hash_table_insert [] "uri" (.string "file:///tmp/a.ogg")) }

/-- The dictionary `a{sv}` with the single entry `key`, a string. -/
def string_argument (key value : String) : DBusValue :=
  .array [.dict_entry [.string key, .variant (.string value)]]

/-- The dictionary `a{ss}` naming the file of `dummy-output-file`. -/
def output_files : DBusValue :=
  .array [.dict_entry [.string "dummy-output-file", .string "/tmp/out.log"]]

/-- A call of `remoteSetUp` that binds `uri` and names the output file. -/
def setup_message : DBusMessage :=
  { interface := some "net.gstreamer.Insanity.Test"
    member := "remoteSetUp"
    args := [string_argument "uri" "file:///tmp/a.ogg", output_files] }

/-- A call of `remoteStart` with the same dictionaries as `setup_message`. -/
def start_message : DBusMessage :=
  { setup_message with member := "remoteStart" }

/-- A call of `remoteStart` that binds `uri` to another value and names no
output file. -/
def other_start_message : DBusMessage :=
  { interface := some "net.gstreamer.Insanity.Test"
    member := "remoteStart"
    args := [string_argument "uri" "file:///tmp/b.ogg",
      .array [.dict_entry [.string "other-file", .string "/tmp/other.log"]]] }

/-- A call of `remoteSetUp` whose arguments dictionary is empty. -/
def empty_arguments_message : DBusMessage :=
  { setup_message with args := [.array [], output_files] }

/-- A call of `remoteSetUp` that hands an int32 for `uri`, declared with a
string default. -/
def mistyped_message : DBusMessage :=
  { setup_message with
    args := [.array [.dict_entry [.string "uri", .variant (.int32 5)]], output_files] }

/-- A call of a member that is not in `dbus_test_handlers`. -/
def unknown_member_message : DBusMessage :=
  { interface := some "net.gstreamer.Insanity.Test", member := "remoteInfo", args := [] }

/-- The blank test connected to the bus, set up by `setup_message` and
started by `start_message`. -/
def started_remote_test : Test :=
  (insanity_test_dbus_handler_remoteStart insanity_test_class_init none
    (insanity_test_dbus_handler_remoteSetup insanity_test_class_init none remote_blank_test
      setup_message).2 start_message).2

/-- The blank test run with `--timeout 2`. -/
def two_second_test : Test := { blank_test with timeout := 2 }

/-- A wait armed at time zero during which no other thread calls into the
library: the condition wait returns at the deadline, two seconds later. -/
def quiet_wait : List WaitRound :=
  [{ now := 0, during := [], signalled := false, current_time := 2000000 }]

/-- The first round of a wait armed at time zero, during which another
thread calls `insanity_test_ping` at 1.5 seconds; the condition wait returns
at the end time it was given, at 2 seconds. -/
def pinged_round : WaitRound :=
  { now := 0, during := [.ping 1500000], signalled := false, current_time := 2000000 }

/-- The round that follows `pinged_round`: armed at 2 seconds, it returns at
the end time it was given, at 4 seconds. -/
def rearmed_round : WaitRound :=
  { now := 2000000, during := [], signalled := false, current_time := 4000000 }

/-- The round that follows `pinged_round`, looked at when the deadline the
ping had stored, 3.5 seconds, passes. -/
def early_round : WaitRound :=
  { now := 2000000, during := [], signalled := false, current_time := 3500000 }

/-- Handlers whose `start` validates both checklist items of `blank_test`
as passed and then calls `insanity_test_done`, on the thread of the
runner. -/
def done_in_start_callbacks : Callbacks :=
  { insanity_test_class_init with
    start := [fun _ =>
      ([.validate_step "random-step" true none,
        .validate_step "other-random-step" true none,
        .done], true)] }

/-- A wait armed at time zero with the default timeout during which no other
thread calls into the library: it returns at the deadline, fifteen seconds
later. -/
def unwoken_wait : List WaitRound :=
  [{ now := 0, during := [], signalled := false, current_time := 15000000 }]

/-- Handlers of `setup`: one connected by the test, which reports failure,
and after it the class handler, which reports success. -/
def failing_then_passing_callbacks : Callbacks :=
  { insanity_test_class_init with
    setup := [fun _ => ([.printf "setup failed\n"], false), insanity_test_setup] }

/-- The blank test with an int32 argument `count` and a uint32 argument
`size` declared. -/
def counting_test : Test :=
  insanity_test_add_argument
    (insanity_test_add_argument blank_test "count" "Number of rounds" none true (.int 1))
    "size" "Size of a buffer" none true (.uint 16)

/-- A `strtof` that converts nothing: its end pointer is the start of the
text. -/
def strtof_no_conversion : String → List Char := fun nptr => nptr.data

/-- The blank test in Started, after `on_setup` and `on_start` with the
class handlers. -/
def started_blank_test : Test :=
  (on_start insanity_test_class_init (on_setup insanity_test_class_init blank_test).2).2

/-- A round armed at time zero in which the condition wait returns `TRUE`
one millisecond later although no other thread has called into the library:
a spurious wakeup. -/
def spurious_round : WaitRound :=
  { now := 0, during := [], signalled := true, current_time := 1000 }

/-! ## Auxiliary facts -/

/-! ### Hash tables -/

theorem lookup_filter_ne {α : Type} (table : GHashTable α) (key k : String) (h : k ≠ key) :
    g_hash_table_lookup (table.filter (fun e => !(e.1 == key))) k = g_hash_table_lookup table k := by
  induction table with
  | nil => rfl
  | cons e rest ih =>
    obtain ⟨a, b⟩ := e
    by_cases hk : a = key
    · subst hk
      have : a ≠ k := fun h1 => h h1.symm
      simp [List.filter_cons, g_hash_table_lookup, this, ih]
    · simp [List.filter_cons, g_hash_table_lookup, hk, ih]

theorem lookup_insert_self {α : Type} (table : GHashTable α) (key : String) (v : α) :
    g_hash_table_lookup (g_hash_table_insert table key v) key = some v := by
  simp [g_hash_table_insert, g_hash_table_lookup]

theorem lookup_insert_ne {α : Type} (table : GHashTable α) (key k : String) (v : α) (h : k ≠ key) :
    g_hash_table_lookup (g_hash_table_insert table key v) k = g_hash_table_lookup table k := by
  have : key ≠ k := fun h1 => h h1.symm
  simp [g_hash_table_insert, g_hash_table_lookup, this, lookup_filter_ne table key k h]

theorem insert_insert {α : Type} (table : GHashTable α) (key : String) (v w : α) :
    g_hash_table_insert (g_hash_table_insert table key v) key w = g_hash_table_insert table key w := by
  simp [g_hash_table_insert, List.filter_filter]

theorem filter_key_insert {α : Type} (table : GHashTable α) (key : String) (v : α) :
    (g_hash_table_insert table key v).filter (fun e => e.1 == key) = [(key, v)] := by
  simp [g_hash_table_insert, List.filter_filter]

theorem keys_insert {α : Type} (table : GHashTable α) (key : String) (v : α) :
    g_hash_table_get_keys (g_hash_table_insert table key v)
      = key :: (g_hash_table_get_keys table).filter (fun k => !(k == key)) := by
  simp [g_hash_table_insert, g_hash_table_get_keys, List.filter_map, Function.comp_def]

theorem mem_keys_insert {α : Type} (table : GHashTable α) (key k : String) (v : α) :
    k ∈ g_hash_table_get_keys (g_hash_table_insert table key v)
      ↔ k = key ∨ k ∈ g_hash_table_get_keys table := by
  simp only [g_hash_table_get_keys, g_hash_table_insert, List.map_cons, List.mem_cons, List.mem_map,
    List.mem_filter]
  constructor
  · rintro (h | ⟨e, ⟨he, _⟩, rfl⟩)
    · exact Or.inl h
    · exact Or.inr ⟨e, he, rfl⟩
  · rintro (h | ⟨e, he, rfl⟩)
    · exact Or.inl h
    · by_cases hk : e.1 = key
      · exact Or.inl hk
      · exact Or.inr ⟨e, ⟨he, by simpa using hk⟩, rfl⟩

theorem nodup_keys_insert {α : Type} (table : GHashTable α) (key : String) (v : α)
    (h : (g_hash_table_get_keys table).Nodup) :
    (g_hash_table_get_keys (g_hash_table_insert table key v)).Nodup := by
  simp only [g_hash_table_get_keys, g_hash_table_insert, List.map_cons, List.nodup_cons]
  constructor
  · simp
  · exact (List.Nodup.sublist (List.Sublist.map _ (List.filter_sublist _)) h)

theorem lookup_isSome_iff {α : Type} (table : GHashTable α) (k : String) :
    (g_hash_table_lookup table k).isSome = true ↔ k ∈ g_hash_table_get_keys table := by
  induction table with
  | nil => simp [g_hash_table_lookup, g_hash_table_get_keys]
  | cons e rest ih =>
    obtain ⟨a, b⟩ := e
    by_cases hk : a = k
    · simp [g_hash_table_lookup, g_hash_table_get_keys, hk]
    · have : ¬ k = a := fun h => hk h.symm
      simp [g_hash_table_lookup, g_hash_table_get_keys, hk, this] at ih ⊢
      exact ih

theorem mem_of_lookup {α : Type} (table : GHashTable α) (k : String) (v : α)
    (h : g_hash_table_lookup table k = some v) : (k, v) ∈ table := by
  induction table with
  | nil => simp [g_hash_table_lookup] at h
  | cons e rest ih =>
    obtain ⟨a, b⟩ := e
    by_cases hk : a = k
    · simp [g_hash_table_lookup, hk] at h
      simp [hk, h]
    · simp [g_hash_table_lookup, hk] at h
      exact List.mem_cons_of_mem _ (ih h)

theorem lookup_of_mem {α : Type} (table : GHashTable α) (k : String) (v : α)
    (hn : (g_hash_table_get_keys table).Nodup) (h : (k, v) ∈ table) :
    g_hash_table_lookup table k = some v := by
  induction table with
  | nil => simp at h
  | cons e rest ih =>
    obtain ⟨a, b⟩ := e
    simp only [g_hash_table_get_keys, List.map_cons, List.nodup_cons] at hn
    rcases List.mem_cons.1 h with h1 | h1
    · cases h1
      simp [g_hash_table_lookup]
    · have hne : a ≠ k := by
        intro hak
        apply hn.1
        rw [hak]
        exact List.mem_map.2 ⟨(k, v), h1, rfl⟩
      simp [g_hash_table_lookup, hne]
      exact ih hn.2 h1

/-! ### What a call into the library leaves alone -/

theorem ActionFrame.unchanged (t : Test) : ActionFrame t t :=
  ⟨rfl, rfl, rfl, rfl, rfl, rfl, rfl, rfl, rfl, id⟩

theorem ActionFrame.andThen {a b c : Test} (h1 : ActionFrame a b) (h2 : ActionFrame b c) :
    ActionFrame a c :=
  ⟨h2.runlevel.trans h1.runlevel, h2.exit.trans h1.exit, h2.standalone.trans h1.standalone,
    h2.name.trans h1.name, h2.conn.trans h1.conn, h2.args.trans h1.args,
    h2.cpu_load.trans h1.cpu_load, h2.timeout.trans h1.timeout,
    h2.callbacks.trans h1.callbacks, fun h => h2.wf (h1.wf h)⟩

theorem callbacks_of_append (xs ys : List Event) :
    callbacks_of (xs ++ ys) = callbacks_of xs ++ callbacks_of ys := by
  simp [callbacks_of, List.filterMap_append]

theorem frame_events (t : Test) (es : List Event) (h : callbacks_of es = []) :
    ActionFrame t { t with events := t.events ++ es } :=
  ⟨rfl, rfl, rfl, rfl, rfl, rfl, rfl, rfl, by simp [callbacks_of_append, h], id⟩

theorem frame_emit (t : Test) (e : Event) (h : callbacks_of [e] = []) :
    ActionFrame t (t.emit e) :=
  frame_events t [e] h

theorem frame_send_signal (t : Test) (signal_name : String) (args : List SignalArg) :
    ActionFrame t (send_signal t signal_name args).2 := by
  unfold send_signal
  split
  · exact ActionFrame.unchanged t
  · split
    · exact frame_emit t _ rfl
    · exact ActionFrame.unchanged t

theorem send_signal_events (t : Test) (signal_name : String) (args : List SignalArg) :
    ∃ es, callbacks_of es = [] ∧
      (send_signal t signal_name args).2 = { t with events := t.events ++ es } := by
  unfold send_signal
  split
  · exact ⟨[], rfl, by simp⟩
  · rename_i path_name _
    split
    · exact ⟨[.send_signal signal_name path_name args], rfl, rfl⟩
    · exact ⟨[], rfl, by simp⟩

theorem validate_step_eq (t : Test) (name : String) (success : Bool)
    (description : Option String) (hv : check_valid_label (some name) = true)
    (hreg : (g_hash_table_lookup t.test_checklist name).isSome = true) :
    ∃ es, callbacks_of es = [] ∧
      insanity_test_validate_step t name success description =
        { t with
          events := t.events ++ es
          checklist_results := g_hash_table_insert t.checklist_results name success } := by
  have hreg2 : (g_hash_table_lookup t.test_checklist name).isNone = false := by
    cases h : g_hash_table_lookup t.test_checklist name <;> simp [h] at hreg ⊢
  unfold insanity_test_validate_step
  rw [if_neg (by simp [hv]), if_neg (by simp [hreg2])]
  split
  · cases description with
    | none =>
      exact ⟨[.printf ("step: " ++ name ++ ": " ++ (if success then "PASS" else "FAIL") ++ "\n")],
        rfl, rfl⟩
    | some d =>
      exact ⟨[.printf ("step: " ++ name ++ ": " ++ (if success then "PASS" else "FAIL")
        ++ " (" ++ d ++ ")\n")], rfl, rfl⟩
  · obtain ⟨es, hes, heq⟩ := send_signal_events t "remoteValidateStepSignal"
      [.basic 's' (.string name), .basic 'b' (.boolean success),
        .basic 's' (.string (description.getD ""))]
    refine ⟨es, hes, ?_⟩
    dsimp only
    rw [heq]

theorem frame_events_results (t : Test) (es : List Event) (name : String) (success : Bool)
    (hcb : callbacks_of es = [])
    (h : (g_hash_table_lookup t.test_checklist name).isSome = true) :
    ActionFrame t
      { t with
        events := t.events ++ es
        checklist_results := g_hash_table_insert t.checklist_results name success } := by
  refine ⟨rfl, rfl, rfl, rfl, rfl, rfl, rfl, rfl, by simp [callbacks_of_append, hcb], ?_⟩
  rintro ⟨hn, hs⟩
  refine ⟨nodup_keys_insert _ _ _ hn, ?_⟩
  intro k hk
  rcases (mem_keys_insert _ _ _ _).1 hk with h1 | h1
  · subst h1
    exact (lookup_isSome_iff _ _).1 h
  · exact hs k h1

theorem frame_validate_step (t : Test) (name : String) (success : Bool)
    (description : Option String) :
    ActionFrame t (insanity_test_validate_step t name success description) := by
  by_cases hv : check_valid_label (some name) = true
  · by_cases hreg : (g_hash_table_lookup t.test_checklist name).isSome = true
    · obtain ⟨es, hes, heq⟩ := validate_step_eq t name success description hv hreg
      rw [heq]
      exact frame_events_results t es name success hes hreg
    · have : (g_hash_table_lookup t.test_checklist name).isNone = true := by
        cases h : g_hash_table_lookup t.test_checklist name <;> simp [h] at hreg ⊢
      simp only [insanity_test_validate_step, hv, this, Bool.not_true, Bool.false_eq_true,
        if_false, if_true]
      exact ActionFrame.unchanged t
  · simp only [Bool.not_eq_true] at hv
    simp only [insanity_test_validate_step, hv, Bool.not_false, if_true]
    exact ActionFrame.unchanged t

theorem frame_set_extra_info_internal (t : Test) (name : String) (data : GValue)
    (locked : Bool) :
    ActionFrame t (insanity_test_set_extra_info_internal t name data locked) := by
  unfold insanity_test_set_extra_info_internal
  split
  · exact frame_emit t (.print_extra_info name data) rfl
  · dsimp only
    split
    · exact frame_send_signal t _ _
    · exact ActionFrame.unchanged t

theorem frame_set_extra_info (t : Test) (name : String) (data : GValue) :
    ActionFrame t (insanity_test_set_extra_info t name data) := by
  unfold insanity_test_set_extra_info
  split
  · exact ActionFrame.unchanged t
  · exact frame_set_extra_info_internal t name data false

theorem frame_ping (t : Test) (now : Int) : ActionFrame t (insanity_test_ping t now) := by
  unfold insanity_test_ping
  dsimp only
  split
  · exact (frame_emit t (.printf "insanity_test_ping\n") rfl).andThen (frame_send_signal _ _ _)
  · exact (frame_emit t (.printf "insanity_test_ping\n") rfl).andThen
      ⟨rfl, rfl, rfl, rfl, rfl, rfl, rfl, rfl, rfl, id⟩

theorem frame_done (t : Test) : ActionFrame t (insanity_test_done t) := by
  unfold insanity_test_done
  split
  · exact frame_send_signal t _ _
  · exact ActionFrame.unchanged t

theorem frame_get_output_filename (t : Test) (key : String) (mkdir mkstemp : Option String) :
    ActionFrame t (insanity_test_get_output_filename t key mkdir mkstemp).2 := by
  have h1 : ActionFrame t (if t.tmpdir.isNone = true then { t with tmpdir := mkdir } else t) := by
    split
    · exact ⟨rfl, rfl, rfl, rfl, rfl, rfl, rfl, rfl, rfl, id⟩
    · exact ActionFrame.unchanged t
  unfold insanity_test_get_output_filename
  dsimp only
  generalize (if t.tmpdir.isNone = true then { t with tmpdir := mkdir } else t) = t1 at h1
  split
  · exact ActionFrame.unchanged t
  · split
    · exact ActionFrame.unchanged t
    · split
      · split
        · exact h1
        · split
          · exact h1
          · exact h1.andThen ⟨rfl, rfl, rfl, rfl, rfl, rfl, rfl, rfl, rfl, id⟩
      · exact ActionFrame.unchanged t

theorem frame_add_checklist_item (t : Test) (label description : String)
    (error_hint : Option String) :
    ActionFrame t (insanity_test_add_checklist_item t label description error_hint) := by
  unfold insanity_test_add_checklist_item
  split
  · exact ActionFrame.unchanged t
  · refine ⟨rfl, rfl, rfl, rfl, rfl, rfl, rfl, rfl, rfl, ?_⟩
    rintro ⟨hn, hs⟩
    exact ⟨hn, fun k hk => (mem_keys_insert _ _ _ _).2 (Or.inr (hs k hk))⟩

theorem frame_add_argument (t : Test) (label description : String)
    (full_description : Option String) (global : Bool) (default_value : GValue) :
    ActionFrame t
      (insanity_test_add_argument t label description full_description global default_value) := by
  unfold insanity_test_add_argument
  split
  · exact ActionFrame.unchanged t
  · exact ⟨rfl, rfl, rfl, rfl, rfl, rfl, rfl, rfl, rfl, id⟩

theorem frame_add_extra_info (t : Test) (label description : String) :
    ActionFrame t (insanity_test_add_extra_info t label description) := by
  unfold insanity_test_add_extra_info
  split
  · exact ActionFrame.unchanged t
  · exact ⟨rfl, rfl, rfl, rfl, rfl, rfl, rfl, rfl, rfl, id⟩

theorem frame_add_output_file (t : Test) (label description : String) :
    ActionFrame t (insanity_test_add_output_file t label description) := by
  unfold insanity_test_add_output_file
  split
  · exact ActionFrame.unchanged t
  · exact ⟨rfl, rfl, rfl, rfl, rfl, rfl, rfl, rfl, rfl, id⟩

theorem frame_check (t : Test) (step : String) (expr : Bool) (msg : String) :
    ActionFrame t (insanity_test_check t step expr msg).2 := by
  unfold insanity_test_check
  split
  · exact ActionFrame.unchanged t
  · split
    · exact ActionFrame.unchanged t
    · split
      · exact frame_validate_step t step false (some msg)
      · exact ActionFrame.unchanged t

theorem frame_run_action (t : Test) (a : Action) : ActionFrame t (run_action t a) := by
  cases a with
  | printf text => exact frame_emit t (.printf text) rfl
  | validate_step name success description => exact frame_validate_step t name success description
  | check step expr msg => exact frame_check t step expr msg
  | set_extra_info name data => exact frame_set_extra_info t name data
  | ping now => exact frame_ping t now
  | done => exact frame_done t
  | get_argument key => exact ActionFrame.unchanged t
  | get_output_filename key mkdir mkstemp => exact frame_get_output_filename t key mkdir mkstemp
  | add_checklist_item label description error_hint =>
    exact frame_add_checklist_item t label description error_hint
  | add_argument label description full_description global default_value =>
    exact frame_add_argument t label description full_description global default_value
  | add_extra_info label description => exact frame_add_extra_info t label description
  | add_output_file label description => exact frame_add_output_file t label description

theorem frame_run_actions (actions : List Action) (t : Test) :
    ActionFrame t (run_actions t actions) := by
  induction actions generalizing t with
  | nil => exact ActionFrame.unchanged t
  | cons a rest ih =>
    simp only [run_actions, List.foldl_cons]
    exact (frame_run_action t a).andThen (ih (run_action t a))

/-! ### What the emission of a signal leaves alone -/

theorem Frame.same (t : Test) : Frame t t :=
  ⟨rfl, rfl, rfl, rfl, rfl, rfl, rfl, rfl, id⟩

theorem Frame.followedBy {a b c : Test} (h1 : Frame a b) (h2 : Frame b c) : Frame a c :=
  ⟨h2.runlevel.trans h1.runlevel, h2.exit.trans h1.exit, h2.standalone.trans h1.standalone,
    h2.name.trans h1.name, h2.conn.trans h1.conn, h2.args.trans h1.args,
    h2.cpu_load.trans h1.cpu_load, h2.timeout.trans h1.timeout, fun h => h2.wf (h1.wf h)⟩

theorem ActionFrame.toFrame {t t' : Test} (h : ActionFrame t t') : Frame t t' :=
  ⟨h.runlevel, h.exit, h.standalone, h.name, h.conn, h.args, h.cpu_load, h.timeout, h.wf⟩

theorem frame_callback (t : Test) (e : Event) : Frame t (t.emit e) :=
  ⟨rfl, rfl, rfl, rfl, rfl, rfl, rfl, rfl, id⟩

theorem frame_emit_accumulate (signal : LifecycleSignal) (handlers : List Handler)
    (accu : Bool) (t : Test) :
    Frame t (g_signal_emit_accumulate signal handlers accu t).2 := by
  induction handlers generalizing accu t with
  | nil => exact Frame.same t
  | cons h rest ih =>
    have hstep : Frame t (run_actions (t.emit (.callback signal)) (h t).1) :=
      (frame_callback t _).followedBy (frame_run_actions _ _).toFrame
    simp only [g_signal_emit_accumulate]
    split
    · exact hstep.followedBy (ih _ _)
    · exact hstep

theorem frame_emit_boolean (signal : LifecycleSignal) (handlers : List Handler) (t : Test) :
    Frame t (g_signal_emit_boolean signal handlers t).2 :=
  frame_emit_accumulate signal handlers false t

theorem frame_emit_void (signal : LifecycleSignal) (handlers : List VoidHandler) (t : Test) :
    Frame t (g_signal_emit_void signal handlers t) := by
  induction handlers generalizing t with
  | nil => exact Frame.same t
  | cons h rest ih =>
    simp only [g_signal_emit_void]
    exact ((frame_callback t _).followedBy (frame_run_actions _ _).toFrame).followedBy (ih _)

theorem callbacks_emit_boolean_single (signal : LifecycleSignal) (h : Handler) (t : Test) :
    callbacks_of (g_signal_emit_boolean signal [h] t).2.events
      = callbacks_of t.events ++ [signal] := by
  have hc := (frame_run_actions (h t).1 (t.emit (.callback signal))).callbacks
  have he : callbacks_of (t.emit (.callback signal)).events = callbacks_of t.events ++ [signal] := by
    simp [Test.emit, callbacks_of_append, callbacks_of]
  simp only [g_signal_emit_boolean, g_signal_emit_accumulate]
  split
  · exact hc.trans he
  · exact hc.trans he

theorem callbacks_emit_void_single (signal : LifecycleSignal) (h : VoidHandler) (t : Test) :
    callbacks_of (g_signal_emit_void signal [h] t).events
      = callbacks_of t.events ++ [signal] := by
  have hc := (frame_run_actions (h t) (t.emit (.callback signal))).callbacks
  have he : callbacks_of (t.emit (.callback signal)).events = callbacks_of t.events ++ [signal] := by
    simp [Test.emit, callbacks_of_append, callbacks_of]
  simp only [g_signal_emit_void]
  exact hc.trans he

/-! ### The lifecycle calls in the states where they are legal -/

theorem on_setup_eq (cb : Callbacks) (t : Test) (h : t.runlevel = .rl_idle) :
    ∃ es, callbacks_of es = [] ∧
      on_setup cb t =
        ((g_signal_emit_boolean .setup cb.setup t).1,
          { (g_signal_emit_boolean .setup cb.setup t).2 with
            events := (g_signal_emit_boolean .setup cb.setup t).2.events ++ es
            runlevel := .rl_setup }) := by
  unfold on_setup
  rw [if_neg (by simp [h])]
  dsimp only [insanity_test_record_start_time]
  split
  · split
    · obtain ⟨es, hes, heq⟩ := send_signal_events (g_signal_emit_boolean .setup cb.setup t).2
        "remoteStopSignal" []
      exact ⟨es, hes, by rw [heq]⟩
    · obtain ⟨es, hes, heq⟩ := send_signal_events (g_signal_emit_boolean .setup cb.setup t).2
        "remoteReadySignal" []
      exact ⟨es, hes, by rw [heq]⟩
  · exact ⟨[], rfl, by simp⟩

theorem on_start_eq (cb : Callbacks) (t : Test) (h : t.runlevel = .rl_setup) :
    on_start cb t =
      ((g_signal_emit_boolean .start cb.start t).1,
        { (g_signal_emit_boolean .start cb.start t).2 with runlevel := .rl_started }) := by
  unfold on_start
  rw [if_neg (by simp [h])]

theorem on_stop_eq (cb : Callbacks) (t : Test) (h : t.runlevel = .rl_started) :
    ∃ es, callbacks_of es = [] ∧
      on_stop cb t =
        { g_signal_emit_void .stop cb.stop t with
          events := (g_signal_emit_void .stop cb.stop t).events ++ es
          runlevel := .rl_setup } := by
  unfold on_stop
  rw [if_neg (by simp [h])]
  dsimp only
  split
  · obtain ⟨es, hes, heq⟩ := send_signal_events (g_signal_emit_void .stop cb.stop t)
      "remoteReadySignal" []
    exact ⟨es, hes, by rw [heq]⟩
  · exact ⟨[], rfl, by simp⟩

theorem on_teardown_eq (cb : Callbacks) (load : Option Int) (t : Test)
    (h : t.runlevel = .rl_setup) :
    on_teardown cb load t =
      { g_signal_emit_void .teardown cb.teardown (gather_end_of_test_info t load) with
        runlevel := .rl_idle
        exit := true } := by
  unfold on_teardown
  rw [if_neg (by simp [h])]

/-- What `gather_end_of_test_info` keeps: everything but `cpu_load` and the
record of events, to which it adds no callback. -/
theorem gather_keeps (t : Test) (load : Option Int) :
    (gather_end_of_test_info t load).runlevel = t.runlevel ∧
      (gather_end_of_test_info t load).exit = t.exit ∧
      callbacks_of (gather_end_of_test_info t load).events = callbacks_of t.events ∧
      (ResultsWellFormed t → ResultsWellFormed (gather_end_of_test_info t load)) := by
  unfold gather_end_of_test_info
  split
  · exact ⟨rfl, rfl, rfl, id⟩
  · have h1 := frame_set_extra_info_internal (insanity_test_record_stop_time t load) "cpu-load"
      (.int (insanity_test_record_stop_time t load).cpu_load) true
    have h2 : (insanity_test_record_stop_time t load).runlevel = t.runlevel ∧
        (insanity_test_record_stop_time t load).exit = t.exit ∧
        (insanity_test_record_stop_time t load).events = t.events ∧
        (ResultsWellFormed t → ResultsWellFormed (insanity_test_record_stop_time t load)) := by
      unfold insanity_test_record_stop_time
      split
      · exact ⟨rfl, rfl, rfl, id⟩
      · exact ⟨rfl, rfl, rfl, id⟩
    exact ⟨h1.runlevel.trans h2.1, h1.exit.trans h2.2.1, h1.callbacks.trans (by rw [h2.2.2.1]),
      fun h => h1.wf (h2.2.2.2 h)⟩

/-- Lifecycle cycle, for any handlers: from Idle, the four calls in sequence
end in Idle with the exit flag set. -/
theorem cycle_returns_to_idle (cb : Callbacks) (load : Option Int) (t : Test)
    (h : t.runlevel = .rl_idle) :
    (on_teardown cb load (on_stop cb (on_start cb (on_setup cb t).2).2)).runlevel = .rl_idle ∧
      (on_teardown cb load (on_stop cb (on_start cb (on_setup cb t).2).2)).exit = true := by
  obtain ⟨es1, _, h1⟩ := on_setup_eq cb t h
  have r1 : (on_setup cb t).2.runlevel = .rl_setup := by rw [h1]
  have h2 := on_start_eq cb (on_setup cb t).2 r1
  have r2 : (on_start cb (on_setup cb t).2).2.runlevel = .rl_started := by rw [h2]
  obtain ⟨es3, _, h3⟩ := on_stop_eq cb (on_start cb (on_setup cb t).2).2 r2
  have r3 : (on_stop cb (on_start cb (on_setup cb t).2).2).runlevel = .rl_setup := by rw [h3]
  have h4 := on_teardown_eq cb load _ r3
  rw [h4]
  exact ⟨rfl, rfl⟩

/-! ### Recorded results stay well formed -/

theorem wf_on_setup (cb : Callbacks) (t : Test) (hwf : ResultsWellFormed t) :
    ResultsWellFormed (on_setup cb t).2 := by
  by_cases h : t.runlevel = .rl_idle
  · obtain ⟨es, _, heq⟩ := on_setup_eq cb t h
    rw [heq]
    exact (frame_emit_boolean .setup cb.setup t).wf hwf
  · unfold on_setup
    rw [if_pos (by simp [h])]
    exact hwf

theorem wf_on_start (cb : Callbacks) (t : Test) (hwf : ResultsWellFormed t) :
    ResultsWellFormed (on_start cb t).2 := by
  by_cases h : t.runlevel = .rl_setup
  · rw [on_start_eq cb t h]
    exact (frame_emit_boolean .start cb.start t).wf hwf
  · unfold on_start
    rw [if_pos (by simp [h])]
    exact hwf

theorem wf_on_stop (cb : Callbacks) (t : Test) (hwf : ResultsWellFormed t) :
    ResultsWellFormed (on_stop cb t) := by
  by_cases h : t.runlevel = .rl_started
  · obtain ⟨es, _, heq⟩ := on_stop_eq cb t h
    rw [heq]
    exact (frame_emit_void .stop cb.stop t).wf hwf
  · unfold on_stop
    rw [if_pos (by simp [h])]
    exact hwf

theorem wf_on_teardown (cb : Callbacks) (load : Option Int) (t : Test)
    (hwf : ResultsWellFormed t) : ResultsWellFormed (on_teardown cb load t) := by
  by_cases h : t.runlevel = .rl_setup
  · rw [on_teardown_eq cb load t h]
    exact (frame_emit_void .teardown cb.teardown _).wf ((gather_keeps t load).2.2.2 hwf)
  · unfold on_teardown
    rw [if_pos (by simp [h])]
    exact hwf

theorem wf_WAIT_TIMEOUT_loop (sched : List WaitRound) (t : Test) (w : Bool × Test)
    (h : WAIT_TIMEOUT_loop sched t = some w) (hwf : ResultsWellFormed t) :
    ResultsWellFormed w.2 := by
  induction sched generalizing t with
  | nil => simp [WAIT_TIMEOUT_loop] at h
  | cons r rest ih =>
    have hstep : ResultsWellFormed
        (run_actions { t with timeout_end_time := r.now + t.timeout * G_TIME_SPAN_SECOND }
          r.during) :=
      (frame_run_actions r.during _).wf hwf
    simp only [WAIT_TIMEOUT_loop] at h
    split at h
    · exact ih _ h hstep
    · cases h
      exact hstep

theorem wf_WAIT_TIMEOUT (sched : List WaitRound) (t : Test) (w : Bool × Test)
    (h : WAIT_TIMEOUT sched t = some w) (hwf : ResultsWellFormed t) :
    ResultsWellFormed w.2 := by
  unfold WAIT_TIMEOUT at h
  split at h
  · exact wf_WAIT_TIMEOUT_loop sched t w h hwf
  · split at h
    · simp at h
    · cases h
      exact (frame_run_actions _ t).wf hwf

theorem wf_run_standalone_lifecycle (cb : Callbacks) (load : Option Int)
    (sched : List WaitRound) (t : Test) (w : Bool × Test)
    (h : insanity_test_run_standalone_lifecycle cb load sched t = some w)
    (hwf : ResultsWellFormed t) : ResultsWellFormed w.2 := by
  unfold insanity_test_run_standalone_lifecycle at h
  have h1 := wf_on_setup cb t hwf
  have h2 := wf_on_start cb _ h1
  dsimp only at h
  split at h
  · split at h
    · split at h
      · simp at h
      · rename_i w' hw
        cases h
        exact wf_on_teardown cb load _ (wf_on_stop cb _ (wf_WAIT_TIMEOUT sched _ w' hw h2))
    · cases h
      exact wf_on_teardown cb load _ (wf_on_stop cb _ h2)
  · cases h
    exact h1

/-! ### The wait returns once it is woken -/

theorem WAIT_TIMEOUT_loop_returns (sched : List WaitRound) (t : Test)
    (h : ∃ r, r ∈ sched ∧ r.signalled = true) : (WAIT_TIMEOUT_loop sched t).isSome = true := by
  induction sched generalizing t with
  | nil => simp at h
  | cons r rest ih =>
    simp only [WAIT_TIMEOUT_loop]
    split
    · rename_i hc
      apply ih
      obtain ⟨r', hr', hs⟩ := h
      rcases List.mem_cons.1 hr' with h1 | h1
      · subst h1
        simp [hs] at hc
      · exact ⟨r', h1, hs⟩
    · rfl

theorem WAIT_TIMEOUT_returns (sched : List WaitRound) (t : Test)
    (h : ∃ r, r ∈ sched ∧ r.signalled = true) : (WAIT_TIMEOUT sched t).isSome = true := by
  unfold WAIT_TIMEOUT
  split
  · exact WAIT_TIMEOUT_loop_returns sched t h
  · split
    · simp at h
    · rfl

/-! ### The count of failed items -/

theorem report_zero_iff (t : Test) (verbose : Bool) (hwf : ResultsWellFormed t) :
    (insanity_report_failed_tests t verbose).1 = 0 ↔
      ∀ label, label ∈ g_hash_table_get_keys t.test_checklist →
        g_hash_table_lookup t.checklist_results label = some true := by
  obtain ⟨hn, hs⟩ := hwf
  simp only [insanity_report_failed_tests, Nat.add_eq_zero, List.length_eq_zero,
    List.filter_eq_nil_iff, g_hash_table_lookup_extended]
  constructor
  · rintro ⟨hA, hB⟩ label hl
    obtain ⟨e, he, rfl⟩ := List.mem_map.1 hl
    have h1 := hB e he
    cases hv : g_hash_table_lookup t.checklist_results e.1 with
    | none => simp [hv] at h1
    | some v =>
      have := hA (e.1, v) (mem_of_lookup _ _ _ hv)
      simp at this
      rw [this]
  · intro h
    constructor
    · intro e he
      have hk : e.1 ∈ g_hash_table_get_keys t.checklist_results := List.mem_map.2 ⟨e, he, rfl⟩
      have h1 := h e.1 (hs e.1 hk)
      have h2 := lookup_of_mem t.checklist_results e.1 e.2 hn he
      rw [h1] at h2
      simp at h2
      simp [← h2]
    · intro e he
      have h1 := h e.1 (List.mem_map.2 ⟨e, he, rfl⟩)
      simp [h1]

theorem wf_insanity_test_init (name description : String) (full_description : Option String) :
    ResultsWellFormed (insanity_test_init name description full_description) :=
  ⟨List.nodup_nil, fun _ hk => by cases hk⟩

theorem wf_run_actions (actions : List Action) (t : Test) (hwf : ResultsWellFormed t) :
    ResultsWellFormed (run_actions t actions) :=
  (frame_run_actions actions t).wf hwf


/-! ## The lifecycle state machine -/

/-- C1. Starting from Idle, the sequence `on_setup`, `on_start`, `on_stop`,
`on_teardown` ends in Idle with the exit flag set, whatever the handlers do
and return.  When each signal has a single handler (its callback), the
callbacks recorded during the sequence are exactly setup, start, stop and
teardown, once each and in that order. -/
theorem lifecycle_cycle (cb : Callbacks) (load : Option Int) (t : Test)
    (h : t.runlevel = .rl_idle) :
    (on_teardown cb load (on_stop cb (on_start cb (on_setup cb t).2).2)).runlevel = .rl_idle ∧
      (on_teardown cb load (on_stop cb (on_start cb (on_setup cb t).2).2)).exit = true ∧
      ∀ (hs ht : Handler) (hp hd : VoidHandler),
        cb.setup = [hs] → cb.start = [ht] → cb.stop = [hp] → cb.teardown = [hd] →
        callbacks_of
            (on_teardown cb load (on_stop cb (on_start cb (on_setup cb t).2).2)).events
          = callbacks_of t.events ++ [.setup, .start, .stop, .teardown] := by
  obtain ⟨es1, he1, h1⟩ := on_setup_eq cb t h
  have r1 : (on_setup cb t).2.runlevel = .rl_setup := by rw [h1]
  have h2 := on_start_eq cb (on_setup cb t).2 r1
  have r2 : (on_start cb (on_setup cb t).2).2.runlevel = .rl_started := by rw [h2]
  obtain ⟨es3, he3, h3⟩ := on_stop_eq cb (on_start cb (on_setup cb t).2).2 r2
  have r3 : (on_stop cb (on_start cb (on_setup cb t).2).2).runlevel = .rl_setup := by rw [h3]
  have h4 := on_teardown_eq cb load _ r3
  refine ⟨by rw [h4], by rw [h4], ?_⟩
  intro hs ht hp hd e1 e2 e3 e4
  have c1 : callbacks_of (on_setup cb t).2.events = callbacks_of t.events ++ [.setup] := by
    rw [h1, e1]
    simp only [callbacks_of_append, he1, List.append_nil]
    exact callbacks_emit_boolean_single .setup hs t
  have c2 : callbacks_of (on_start cb (on_setup cb t).2).2.events
      = callbacks_of (on_setup cb t).2.events ++ [.start] := by
    rw [h2, e2]
    exact callbacks_emit_boolean_single .start ht _
  have c3 : callbacks_of (on_stop cb (on_start cb (on_setup cb t).2).2).events
      = callbacks_of (on_start cb (on_setup cb t).2).2.events ++ [.stop] := by
    rw [h3, e3]
    simp only [callbacks_of_append, he3, List.append_nil]
    exact callbacks_emit_void_single .stop hp _
  have c4 : callbacks_of
      (on_teardown cb load (on_stop cb (on_start cb (on_setup cb t).2).2)).events
      = callbacks_of (on_stop cb (on_start cb (on_setup cb t).2).2).events ++ [.teardown] := by
    rw [h4, e4]
    have := callbacks_emit_void_single .teardown hd
      (gather_end_of_test_info (on_stop cb (on_start cb (on_setup cb t).2).2) load)
    rw [(gather_keeps _ load).2.2.1] at this
    exact this
  rw [c4, c3, c2, c1]
  simp

/-- C1, on the blank test with the class handlers: the cycle returns to Idle
with the exit flag set after one call of each callback. -/
theorem lifecycle_cycle_witness :
    blank_test.runlevel = .rl_idle ∧
      (on_teardown insanity_test_class_init none
          (on_stop insanity_test_class_init
            (on_start insanity_test_class_init
              (on_setup insanity_test_class_init blank_test).2).2)).runlevel = .rl_idle ∧
      (on_teardown insanity_test_class_init none
          (on_stop insanity_test_class_init
            (on_start insanity_test_class_init
              (on_setup insanity_test_class_init blank_test).2).2)).exit = true ∧
      callbacks_of
          (on_teardown insanity_test_class_init none
            (on_stop insanity_test_class_init
              (on_start insanity_test_class_init
                (on_setup insanity_test_class_init blank_test).2).2)).events
        = callbacks_of blank_test.events ++ [.setup, .start, .stop, .teardown] :=
  ⟨rfl, (lifecycle_cycle insanity_test_class_init none blank_test rfl).1,
    (lifecycle_cycle insanity_test_class_init none blank_test rfl).2.1,
    (lifecycle_cycle insanity_test_class_init none blank_test rfl).2.2
      insanity_test_setup insanity_test_start insanity_test_stop insanity_test_teardown
      rfl rfl rfl rfl⟩

/-- C2. A lifecycle call made in a state where it is not legal (setup
outside Idle, start outside SetUp, stop outside Started, teardown outside
SetUp) returns the test exactly as it was, record of events included, so no
callback ran and no signal was sent; setup and start return failure. -/
theorem illegal_transition_is_noop (cb : Callbacks) (load : Option Int) (t : Test) :
    (t.runlevel ≠ .rl_idle → on_setup cb t = (false, t)) ∧
      (t.runlevel ≠ .rl_setup → on_start cb t = (false, t)) ∧
      (t.runlevel ≠ .rl_started → on_stop cb t = t) ∧
      (t.runlevel ≠ .rl_setup → on_teardown cb load t = t) := by
  refine ⟨fun h => ?_, fun h => ?_, fun h => ?_, fun h => ?_⟩
  · unfold on_setup
    rw [if_pos (by simp [h])]
  · unfold on_start
    rw [if_pos (by simp [h])]
  · unfold on_stop
    rw [if_pos (by simp [h])]
  · unfold on_teardown
    rw [if_pos (by simp [h])]

/-- C2, on the blank test: start, stop and teardown are refused in Idle, and
a second setup is refused once the first has run. -/
theorem illegal_transition_is_noop_witness :
    on_start passing_callbacks blank_test = (false, blank_test) ∧
      on_stop passing_callbacks blank_test = blank_test ∧
      on_teardown passing_callbacks none blank_test = blank_test ∧
      on_setup passing_callbacks (on_setup passing_callbacks blank_test).2
        = (false, (on_setup passing_callbacks blank_test).2) :=
  ⟨(illegal_transition_is_noop passing_callbacks none blank_test).2.1 (by decide),
    (illegal_transition_is_noop passing_callbacks none blank_test).2.2.1 (by decide),
    (illegal_transition_is_noop passing_callbacks none blank_test).2.2.2 (by decide),
    (illegal_transition_is_noop passing_callbacks none
      (on_setup passing_callbacks blank_test).2).1 (by decide)⟩

/-- C3. Called in Idle, `on_setup` returns the outcome of the setup signal,
which is the return value of the callback when it is the only handler.  On a
test connected to the bus under the object path `path`, what it adds to the
record after the handlers have run is exactly one signal: `remoteReadySignal`
when the outcome is success, `remoteStopSignal` when it is failure.  On
success the state is SetUp. -/
theorem on_setup_from_idle (cb : Callbacks) (t : Test) (path : String)
    (h : t.runlevel = .rl_idle) :
    (on_setup cb t).1 = (g_signal_emit_boolean .setup cb.setup t).1 ∧
      (∀ hs : Handler, cb.setup = [hs] → (on_setup cb t).1 = (hs t).2) ∧
      (t.standalone = false → t.name = some path →
        (on_setup cb t).2.events =
          (g_signal_emit_boolean .setup cb.setup t).2.events ++
            [.send_signal
              (if (g_signal_emit_boolean .setup cb.setup t).1 then "remoteReadySignal"
                else "remoteStopSignal") path []]) ∧
      ((g_signal_emit_boolean .setup cb.setup t).1 = true →
        (on_setup cb t).2.runlevel = .rl_setup) := by
  have hf := frame_emit_boolean .setup cb.setup t
  refine ⟨?_, ?_, ?_, ?_⟩
  · unfold on_setup
    rw [if_neg (by simp [h])]
  · intro hs e
    unfold on_setup
    rw [if_neg (by simp [h]), e]
    simp only [g_signal_emit_boolean, g_signal_emit_accumulate, insanity_signal_stop_accumulator]
    split <;> rfl
  · intro hr hn
    have hr2 : (g_signal_emit_boolean .setup cb.setup t).2.standalone = false := by
      rw [hf.standalone, hr]
    have hn2 : (g_signal_emit_boolean .setup cb.setup t).2.name = some path := by
      rw [hf.name, hn]
    unfold on_setup
    rw [if_neg (by simp [h])]
    simp only [insanity_test_record_start_time, hr2, send_signal, hn2, List.all_nil,
      Bool.not_false, if_true, Test.emit]
    cases (g_signal_emit_boolean .setup cb.setup t).1 <;> rfl
  · intro _
    unfold on_setup
    rw [if_neg (by simp [h])]

/-- C3, on the blank test connected to a bus, with the class handler, which
succeeds: `remoteReadySignal` is the one event added after the callback. -/
theorem on_setup_from_idle_witness :
    remote_blank_test.runlevel = .rl_idle ∧
      (on_setup insanity_test_class_init remote_blank_test).1 = true ∧
      (on_setup insanity_test_class_init remote_blank_test).2.events =
        [.callback .setup, .printf "insanity_test_setup\n",
          .send_signal "remoteReadySignal" "/net/gstreamer/Insanity/Test/Test0001" []] ∧
      (on_setup insanity_test_class_init remote_blank_test).2.runlevel = .rl_setup :=
  ⟨rfl,
    (on_setup_from_idle insanity_test_class_init remote_blank_test
      "/net/gstreamer/Insanity/Test/Test0001" rfl).2.1 insanity_test_setup rfl,
    (on_setup_from_idle insanity_test_class_init remote_blank_test
      "/net/gstreamer/Insanity/Test/Test0001" rfl).2.2.1 rfl rfl,
    (on_setup_from_idle insanity_test_class_init remote_blank_test
      "/net/gstreamer/Insanity/Test/Test0001" rfl).2.2.2 rfl⟩

/-- C4 as stated fails.  On the blank test with a setup callback that
reports failure, `on_setup` returns failure and yet leaves the state at
SetUp, not Idle, and the `on_start` that follows is accepted: it runs the
start callback and moves the state to Started. -/
theorem failed_setup_counterexample :
    (on_setup failing_setup_callbacks blank_test).1 = false ∧
      (on_setup failing_setup_callbacks blank_test).2.runlevel = .rl_setup ∧
      (on_start failing_setup_callbacks (on_setup failing_setup_callbacks blank_test).2).1
        = true ∧
      (on_start failing_setup_callbacks
          (on_setup failing_setup_callbacks blank_test).2).2.runlevel = .rl_started ∧
      callbacks_of
          (on_start failing_setup_callbacks
            (on_setup failing_setup_callbacks blank_test).2).2.events
        = [.setup, .start] := by
  decide

/-- C4, amended.  When the setup signal reports failure, `on_setup` called
in Idle returns failure but still advances the state to SetUp; the
`on_start` that follows is therefore legal: it emits the start signal,
returns its outcome and moves the state to Started. -/
theorem failed_setup_advances (cb : Callbacks) (t : Test) (h : t.runlevel = .rl_idle)
    (hfail : (g_signal_emit_boolean .setup cb.setup t).1 = false) :
    (on_setup cb t).1 = false ∧
      (on_setup cb t).2.runlevel = .rl_setup ∧
      on_start cb (on_setup cb t).2 =
        ((g_signal_emit_boolean .start cb.start (on_setup cb t).2).1,
          { (g_signal_emit_boolean .start cb.start (on_setup cb t).2).2 with
            runlevel := .rl_started }) := by
  obtain ⟨es, _, heq⟩ := on_setup_eq cb t h
  have r1 : (on_setup cb t).2.runlevel = .rl_setup := by rw [heq]
  refine ⟨?_, r1, on_start_eq cb _ r1⟩
  rw [heq]
  exact hfail

/-- C4 amended, on the blank test with a failing setup callback. -/
theorem failed_setup_advances_witness :
    blank_test.runlevel = .rl_idle ∧
      (on_setup failing_setup_callbacks blank_test).1 = false ∧
      (on_setup failing_setup_callbacks blank_test).2.runlevel = .rl_setup :=
  ⟨rfl, (failed_setup_advances failing_setup_callbacks blank_test rfl rfl).1,
    (failed_setup_advances failing_setup_callbacks blank_test rfl rfl).2.1⟩

/-- C5. Called in SetUp, `on_start` moves the state to Started whether the
start signal reports success or failure, and returns the outcome of that
signal, which is the return value of the callback when it is the only
handler. -/
theorem on_start_from_setup (cb : Callbacks) (t : Test) (h : t.runlevel = .rl_setup) :
    (on_start cb t).2.runlevel = .rl_started ∧
      (on_start cb t).1 = (g_signal_emit_boolean .start cb.start t).1 ∧
      ∀ hs : Handler, cb.start = [hs] → (on_start cb t).1 = (hs t).2 := by
  rw [on_start_eq cb t h]
  refine ⟨rfl, rfl, ?_⟩
  intro hs e
  rw [e]
  simp only [g_signal_emit_boolean, g_signal_emit_accumulate, insanity_signal_stop_accumulator]
  split <;> rfl

/-- C5, on the blank test after a failed setup has left it in SetUp. -/
theorem on_start_from_setup_witness :
    (on_setup failing_setup_callbacks blank_test).2.runlevel = .rl_setup ∧
      (on_start failing_setup_callbacks
        (on_setup failing_setup_callbacks blank_test).2).2.runlevel = .rl_started ∧
      (on_start failing_setup_callbacks
        (on_setup failing_setup_callbacks blank_test).2).1 = true :=
  ⟨rfl,
    (on_start_from_setup failing_setup_callbacks
      (on_setup failing_setup_callbacks blank_test).2 rfl).1,
    (on_start_from_setup failing_setup_callbacks
      (on_setup failing_setup_callbacks blank_test).2 rfl).2.2 insanity_test_start rfl⟩

/-! ## The standalone verdict -/

/-- C6. On a test whose recorded results are well formed, the standalone
run returns whenever the wait is eventually woken, and whenever it returns,
it returns success if and only if the wait did not time out (the local
`timeout` is false) and every declared checklist item has a recorded result
that is success.  So one declared item with no recorded result, or with a
failure as its last recorded result, makes the run fail. -/
theorem standalone_verdict (cb : Callbacks) (load : Option Int) (sched : List WaitRound)
    (t : Test) (hwf : ResultsWellFormed t) :
    ((∃ r, r ∈ sched ∧ r.signalled = true) →
        (insanity_test_run_standalone cb load sched t).isSome = true) ∧
      ∀ ret t2, insanity_test_run_standalone cb load sched t = some (ret, t2) →
        ∃ timeout t1,
          insanity_test_run_standalone_lifecycle cb load sched t = some (timeout, t1) ∧
            (ret = true ↔
              timeout = false ∧
                ∀ label, label ∈ g_hash_table_get_keys t2.test_checklist →
                  g_hash_table_lookup t2.checklist_results label = some true) := by
  constructor
  · intro hs
    have hw : ∀ t', (WAIT_TIMEOUT sched t').isSome = true := fun t' =>
      WAIT_TIMEOUT_returns sched t' hs
    unfold insanity_test_run_standalone insanity_test_run_standalone_lifecycle
    dsimp only
    split
    · rename_i hnone
      split at hnone
      · split at hnone
        · split at hnone
          · rename_i hwn
            have := hw (on_start cb (on_setup cb t).2).2
            rw [hwn] at this
            simp at this
          · simp at hnone
        · simp at hnone
      · simp at hnone
    · split <;> rfl
  · intro ret t2 hrun
    unfold insanity_test_run_standalone at hrun
    split at hrun
    · simp at hrun
    · rename_i timeout t1 hl
      refine ⟨timeout, t1, hl, ?_⟩
      have hwf1 : ResultsWellFormed t1 := wf_run_standalone_lifecycle cb load sched t _ hl hwf
      split at hrun
      · rename_i hto
        simp only [Option.some.injEq, Prod.mk.injEq] at hrun
        obtain ⟨hret, ht2⟩ := hrun
        have hzero := report_zero_iff t1 true hwf1
        have e1 : t2.test_checklist = t1.test_checklist := by
          rw [← ht2]; rfl
        have e2 : t2.checklist_results = t1.checklist_results := by
          rw [← ht2]; rfl
        rw [e1, e2, ← hzero, ← hret]
        simp at hto
        simp [hto]
      · rename_i hto
        simp only [Option.some.injEq, Prod.mk.injEq] at hrun
        obtain ⟨hret, _⟩ := hrun
        simp at hto
        simp [← hret, hto]

/-- C6, on the blank test.  The run whose start callback validates both
items as passed, and which is woken before the deadline, returns; it
returns success, with no timeout and a recorded success for every declared
item.  The run with the class handlers, which validate nothing, returns
failure. -/
theorem standalone_verdict_witness :
    ResultsWellFormed blank_test ∧
      (∃ r, r ∈ signalled_wait ∧ r.signalled = true) ∧
      (∃ ret t2,
        insanity_test_run_standalone passing_callbacks none signalled_wait blank_test
            = some (ret, t2) ∧
          ret = true ∧
          ∃ timeout t1,
            insanity_test_run_standalone_lifecycle passing_callbacks none signalled_wait
                blank_test = some (timeout, t1) ∧
              (ret = true ↔
                timeout = false ∧
                  ∀ label, label ∈ g_hash_table_get_keys t2.test_checklist →
                    g_hash_table_lookup t2.checklist_results label = some true)) ∧
      (insanity_test_run_standalone insanity_test_class_init none signalled_wait
        blank_test).map Prod.fst = some false := by
  have hw : ResultsWellFormed blank_test := ⟨by decide, by decide⟩
  have hs : ∃ r, r ∈ signalled_wait ∧ r.signalled = true :=
    ⟨_, List.mem_singleton.2 rfl, rfl⟩
  have hfst : (insanity_test_run_standalone passing_callbacks none signalled_wait
      blank_test).map Prod.fst = some true := by decide
  refine ⟨hw, hs, ?_, by decide⟩
  cases h : insanity_test_run_standalone passing_callbacks none signalled_wait blank_test with
  | none =>
    rw [h] at hfst
    cases hfst
  | some p =>
    obtain ⟨ret, t2⟩ := p
    rw [h] at hfst
    refine ⟨ret, t2, rfl, by simpa using hfst, ?_⟩
    exact (standalone_verdict passing_callbacks none signalled_wait blank_test hw).2 ret t2 h

/-! ## Checklist results -/

/-- C7. `insanity_test_validate_step` with a label that is not a declared
checklist item returns the test exactly as it was: the map of results is
unchanged and nothing is sent or printed. -/
theorem validate_unregistered_step (t : Test) (name : String) (success : Bool)
    (description : Option String) (h : g_hash_table_lookup t.test_checklist name = none) :
    insanity_test_validate_step t name success description = t := by
  unfold insanity_test_validate_step
  split
  · rfl
  · rw [if_pos (by simp [h])]

/-- C7, on the blank test, which declares no item `no-such-step`. -/
theorem validate_unregistered_step_witness :
    g_hash_table_lookup blank_test.test_checklist "no-such-step" = none ∧
      insanity_test_validate_step blank_test "no-such-step" true none = blank_test :=
  ⟨by decide, validate_unregistered_step blank_test "no-such-step" true none (by decide)⟩

/-- C8. After two validations of the same declared checklist item, the map
of results holds exactly one entry for it, with the result of the second
call; the entry of every other item is as it was before the two calls; and
the map has the size it had after the first call. -/
theorem validate_twice_overwrites (t : Test) (name : String) (s1 s2 : Bool)
    (d1 d2 : Option String) (hv : check_valid_label (some name) = true)
    (hreg : (g_hash_table_lookup t.test_checklist name).isSome = true) :
    (insanity_test_validate_step (insanity_test_validate_step t name s1 d1) name s2
          d2).checklist_results.filter (fun e => e.1 == name) = [(name, s2)] ∧
      g_hash_table_lookup
          (insanity_test_validate_step (insanity_test_validate_step t name s1 d1) name s2
            d2).checklist_results name = some s2 ∧
      (∀ k, k ≠ name →
        g_hash_table_lookup
            (insanity_test_validate_step (insanity_test_validate_step t name s1 d1) name s2
              d2).checklist_results k
          = g_hash_table_lookup t.checklist_results k) ∧
      g_hash_table_size
          (insanity_test_validate_step (insanity_test_validate_step t name s1 d1) name s2
            d2).checklist_results
        = g_hash_table_size (insanity_test_validate_step t name s1 d1).checklist_results := by
  obtain ⟨es1, _, h1⟩ := validate_step_eq t name s1 d1 hv hreg
  have hreg1 : (g_hash_table_lookup
      (insanity_test_validate_step t name s1 d1).test_checklist name).isSome = true := by
    rw [h1]
    exact hreg
  obtain ⟨es2, _, h2⟩ := validate_step_eq _ name s2 d2 hv hreg1
  have r1 : (insanity_test_validate_step t name s1 d1).checklist_results
      = g_hash_table_insert t.checklist_results name s1 := by rw [h1]
  have r2 : (insanity_test_validate_step (insanity_test_validate_step t name s1 d1) name s2
      d2).checklist_results = g_hash_table_insert t.checklist_results name s2 := by
    rw [h2]
    show g_hash_table_insert (insanity_test_validate_step t name s1 d1).checklist_results
      name s2 = _
    rw [r1, insert_insert]
  rw [r2, r1]
  refine ⟨filter_key_insert _ _ _, lookup_insert_self _ _ _, ?_, ?_⟩
  · intro k hk
    exact lookup_insert_ne _ _ _ _ hk
  · simp [g_hash_table_size, g_hash_table_insert]

/-- C8, on the blank test: `random-step` validated as failed and then as
passed has the single result passed. -/
theorem validate_twice_overwrites_witness :
    (insanity_test_validate_step
        (insanity_test_validate_step blank_test "random-step" false (some "first"))
        "random-step" true none).checklist_results = [("random-step", true)] ∧
      g_hash_table_lookup
        (insanity_test_validate_step
          (insanity_test_validate_step blank_test "random-step" false (some "first"))
          "random-step" true none).checklist_results "random-step" = some true :=
  ⟨by decide,
    (validate_twice_overwrites blank_test "random-step" false true (some "first") none
      (by decide) (by decide)).2.1⟩

/-! ## Arguments -/

/-- C9. For a key that is a well-formed label, as every declared label is,
and in a state where the argument may be resolved (it is not a declared
per-run argument requested in Idle), `insanity_test_get_argument` returns
the bound value when the key is bound, and otherwise the declared default.
For a key that is neither bound nor declared it returns failure and leaves
the out value untouched. -/
theorem get_argument_resolves (t : Test) (key : String) :
    (check_valid_label (some key) = true →
        (∀ a, g_hash_table_lookup t.test_arguments key = some a → a.global = false →
          t.runlevel ≠ .rl_idle) →
        ∀ v, bound_argument t key = some v → insanity_test_get_argument t key = some v) ∧
      (check_valid_label (some key) = true →
        (∀ a, g_hash_table_lookup t.test_arguments key = some a → a.global = false →
          t.runlevel ≠ .rl_idle) →
        bound_argument t key = none →
        ∀ a, g_hash_table_lookup t.test_arguments key = some a →
          insanity_test_get_argument t key = some a.default_value) ∧
      (bound_argument t key = none → g_hash_table_lookup t.test_arguments key = none →
        insanity_test_get_argument t key = none) := by
  have hblock : (∀ a, g_hash_table_lookup t.test_arguments key = some a → a.global = false →
      t.runlevel ≠ .rl_idle) →
      ∀ a, g_hash_table_lookup t.test_arguments key = some a →
        (!a.global && t.runlevel != .rl_started && t.runlevel != .rl_setup) = false := by
    intro hres a ha
    cases hg : a.global with
    | true => simp
    | false =>
      have := hres a ha hg
      cases hr : t.runlevel <;> simp_all
  refine ⟨fun hv hres v hb => ?_, fun hv hres hb a ha => ?_, fun hb ha => ?_⟩
  · unfold insanity_test_get_argument
    rw [if_neg (by simp [hv])]
    cases ha : g_hash_table_lookup t.test_arguments key with
    | none => simp only [hb, Bool.false_eq_true, if_false]
    | some a => simp only [hblock hres a ha, hb, Bool.false_eq_true, if_false]
  · unfold insanity_test_get_argument
    rw [if_neg (by simp [hv])]
    simp only [ha, hblock hres a ha, hb, Bool.false_eq_true, if_false]
  · unfold insanity_test_get_argument
    split
    · rfl
    · simp only [ha, hb, Bool.false_eq_true, if_false]

/-- C9, on the blank test: the bound `uri` resolves to its binding, the
unbound `uri` to its default, and the undeclared `foo` is not found. -/
theorem get_argument_resolves_witness :
    insanity_test_get_argument bound_blank_test "uri" = some (.string "file:///tmp/a.ogg") ∧
      insanity_test_get_argument blank_test "uri" = some (.string "http://127.0.0.1/") ∧
      insanity_test_get_argument blank_test "foo" = none :=
  ⟨(get_argument_resolves bound_blank_test "uri").1 (by decide) (by decide) _ (by decide),
    (get_argument_resolves blank_test "uri").2.1 (by decide) (by decide) (by decide)
      ⟨true, "URI description", .string "http://127.0.0.1/", some "URI full description"⟩
      (by decide),
    (get_argument_resolves blank_test "foo").2.2 (by decide) (by decide)⟩

/-- C10 as stated fails.  The blank test declares the per-run argument
`test-argument`.  In SetUp, both after `on_setup` and again after `on_stop`,
`insanity_test_get_argument` succeeds for it and yields its default. -/
theorem per_run_argument_counterexample :
    (g_hash_table_lookup blank_test.test_arguments "test-argument").map Argument.global
        = some false ∧
      (on_setup insanity_test_class_init blank_test).2.runlevel = .rl_setup ∧
      insanity_test_get_argument (on_setup insanity_test_class_init blank_test).2
        "test-argument" = some (.string "none") ∧
      (on_stop insanity_test_class_init
        (on_start insanity_test_class_init
          (on_setup insanity_test_class_init blank_test).2).2).runlevel = .rl_setup ∧
      insanity_test_get_argument
        (on_stop insanity_test_class_init
          (on_start insanity_test_class_init
            (on_setup insanity_test_class_init blank_test).2).2)
        "test-argument" = some (.string "none") := by
  decide

/-- C10, amended.  For a declared per-run argument, in Idle, which is also
the state in which the setup callback runs, `insanity_test_get_argument`
returns failure and leaves the out value untouched; in SetUp and in Started
it succeeds, with the bound value when there is one and the declared default
otherwise. -/
theorem per_run_argument_gate (t : Test) (key : String) (a : Argument)
    (hv : check_valid_label (some key) = true)
    (ha : g_hash_table_lookup t.test_arguments key = some a) (hg : a.global = false) :
    (t.runlevel = .rl_idle → insanity_test_get_argument t key = none) ∧
      (t.runlevel ≠ .rl_idle →
        insanity_test_get_argument t key
          = some ((bound_argument t key).getD a.default_value)) := by
  constructor
  · intro hr
    unfold insanity_test_get_argument
    rw [if_neg (by simp [hv])]
    simp [ha, hg, hr]
  · intro hr
    unfold insanity_test_get_argument
    rw [if_neg (by simp [hv])]
    have hb : (!a.global && t.runlevel != .rl_started && t.runlevel != .rl_setup) = false := by
      cases h : t.runlevel <;> simp_all
    simp only [ha, hb, Bool.false_eq_true, if_false]
    cases bound_argument t key <;> rfl

/-- C10 amended, on the blank test: `test-argument` is refused in Idle and
resolved to its default in SetUp. -/
theorem per_run_argument_gate_witness :
    insanity_test_get_argument blank_test "test-argument" = none ∧
      insanity_test_get_argument (on_setup insanity_test_class_init blank_test).2
        "test-argument" = some (.string "none") :=
  ⟨(per_run_argument_gate blank_test "test-argument"
      ⟨false, "Per-run argument", .string "none", none⟩ (by decide) (by decide) rfl).1
      (by decide),
    (per_run_argument_gate (on_setup insanity_test_class_init blank_test).2 "test-argument"
      ⟨false, "Per-run argument", .string "none", none⟩ (by decide) (by decide) rfl).2
      (by decide)⟩

/-! ## Auxiliary facts on the wire format and the endpoint -/

/-! ### Malformed entries -/

theorem value_unsupported_none (v : DBusValue) (h : supported_wire_value v = false) :
    foreach_dbus_array_value v = none := by
  cases v with
  | variant w => cases w <;> simp_all [supported_wire_value, foreach_dbus_array_value]
  | _ => simp_all [supported_wire_value, foreach_dbus_array_value]

theorem offending_entry_none (e : DBusValue) (h : OffendingEntry e) :
    foreach_dbus_array_entry e = none := by
  cases h with
  | not_dict_entry e h =>
    cases e with
    | dict_entry fields => exact absurd rfl (h fields)
    | _ => rfl
  | no_key => rfl
  | key_not_string k rest h =>
    cases k with
    | string s => exact absurd rfl (h s)
    | _ => rfl
  | value_missing key => rfl
  | value_unsupported key value rest h =>
    simp only [foreach_dbus_array_entry, value_unsupported_none value h]

theorem foreach_loop_offending {σ : Type} (f : String → GValue → σ → Int × σ)
    (pre : List DBusValue) (kvs : List (String × GValue)) (bad : DBusValue)
    (post : List DBusValue) (s : σ)
    (hpre : pre.map foreach_dbus_array_entry = kvs.map some)
    (hbad : foreach_dbus_array_entry bad = none) :
    foreach_dbus_array_loop f (pre ++ bad :: post) s =
      (if (callback_run f kvs s).1 = 0 then (-1, (callback_run f kvs s).2)
        else callback_run f kvs s) := by
  induction pre generalizing kvs s with
  | nil =>
    cases kvs with
    | nil => simp [foreach_dbus_array_loop, hbad, callback_run]
    | cons kv rest => simp at hpre
  | cons e pre ih =>
    cases kvs with
    | nil => simp at hpre
    | cons kv kvs =>
      obtain ⟨k, v⟩ := kv
      simp only [List.map_cons, List.cons.injEq] at hpre
      obtain ⟨he, hrest⟩ := hpre
      simp only [List.cons_append, foreach_dbus_array_loop, he, callback_run]
      by_cases hr : (f k v s).1 = 0
      · simp only [hr, ne_eq, not_true_eq_false, if_false]
        have := ih kvs (f k v s).2 hrest
        simp only [List.append_eq]
        cases hp : pre ++ bad :: post with
        | nil => simp at hp
        | cons x xs =>
          rw [hp] at this
          exact this
      · simp [hr]

/-! ### Labels -/

theorem label_char_check (c : Char) :
    (!(c != '-' && c != '.' && (c < '0' || c > '9') && (c < 'A' || c > 'Z') &&
      (c < 'a' || c > 'z'))) = true ↔ is_label_char c := by
  unfold is_label_char is_ascii_letter is_ascii_digit
  simp only [← not_lt]
  simp only [Bool.not_eq_true', Bool.and_eq_false_imp, Bool.and_eq_true, bne_iff_ne, ne_eq,
    Bool.or_eq_true, decide_eq_true_eq, Bool.or_eq_false_iff, decide_eq_false_iff_not, gt_iff_lt]
  tauto

theorem first_char_check (c : Char) :
    ((c < 'A' || c > 'Z') && (c < 'a' || c > 'z')) = false ↔ is_ascii_letter c := by
  unfold is_ascii_letter
  simp only [← not_lt]
  simp only [Bool.and_eq_false_imp, Bool.or_eq_true, decide_eq_true_eq, Bool.or_eq_false_iff,
    decide_eq_false_iff_not, gt_iff_lt]
  tauto

/-! ### What decoding the arguments leaves alone -/

theorem foreach_loop_preserves {σ : Type} (P : σ → Prop) (f : String → GValue → σ → Int × σ)
    (hf : ∀ k v s, P s → P (f k v s).2) (items : List DBusValue) (s : σ) (hs : P s) :
    P (foreach_dbus_array_loop f items s).2 := by
  induction items generalizing s with
  | nil => exact hs
  | cons e rest ih =>
    simp only [foreach_dbus_array_loop]
    split
    · exact hs
    · rename_i key value _
      split
      · exact hf key value s hs
      · cases rest with
        | nil => exact hf key value s hs
        | cons x xs => exact ih _ (hf key value s hs)

theorem foreach_preserves {σ : Type} (P : σ → Prop) (f : String → GValue → σ → Int × σ)
    (hf : ∀ k v s, P s → P (f k v s).2) (iter : List DBusValue) (s : σ) (hs : P s) :
    P (foreach_dbus_array iter f s).2 := by
  unfold foreach_dbus_array
  split
  · exact foreach_loop_preserves P f hf _ s hs
  · exact hs

theorem arg_converter_shape (t : Test) (key : String) (value : GValue) (s : Test)
    (hs : ∃ a c, s = { t with args := a, filename_cache := c }) :
    ∃ a c, (arg_converter key value s).2 = { t with args := a, filename_cache := c } := by
  obtain ⟨a, c, rfl⟩ := hs
  unfold arg_converter
  split
  · exact ⟨a, c, rfl⟩
  · split
    · exact ⟨a, c, rfl⟩
    · split
      · exact ⟨_, c, rfl⟩
      · exact ⟨a, c, rfl⟩

theorem output_filename_converter_shape (t : Test) (key : String) (value : GValue) (s : Test)
    (hs : ∃ a c, s = { t with args := a, filename_cache := c }) :
    ∃ a c, (output_filename_converter key value s).2
      = { t with args := a, filename_cache := c } := by
  obtain ⟨a, c, rfl⟩ := hs
  unfold output_filename_converter
  split
  · exact ⟨a, _, rfl⟩
  · exact ⟨a, c, rfl⟩

theorem set_args_shape (t : Test) (msg : Option DBusMessage) :
    ∃ a c, insanity_test_set_args t msg = { t with args := a, filename_cache := c } := by
  unfold insanity_test_set_args
  cases msg with
  | none => exact ⟨none, [], rfl⟩
  | some m =>
    have h1 : ∃ a c, (foreach_dbus_array m.args arg_converter
        { t with args := some [], filename_cache := g_hash_table_remove_all t.filename_cache }).2
        = { t with args := a, filename_cache := c } :=
      foreach_preserves (fun s => ∃ a c, s = { t with args := a, filename_cache := c })
        arg_converter (fun k v s hs => arg_converter_shape t k v s hs) m.args _
        ⟨some [], [], rfl⟩
    dsimp only
    split
    · exact h1
    · split
      · exact foreach_preserves (fun s => ∃ a c, s = { t with args := a, filename_cache := c })
          output_filename_converter (fun k v s hs => output_filename_converter_shape t k v s hs)
          _ _ h1
      · exact h1

theorem set_args_runlevel (t : Test) (msg : Option DBusMessage) :
    (insanity_test_set_args t msg).runlevel = t.runlevel := by
  obtain ⟨a, c, h⟩ := set_args_shape t msg
  rw [h]

theorem set_args_events (t : Test) (msg : Option DBusMessage) :
    (insanity_test_set_args t msg).events = t.events := by
  obtain ⟨a, c, h⟩ := set_args_shape t msg
  rw [h]

/-! ### No call into the library sends a method return -/

theorem replies_of_append (xs ys : List Event) :
    replies_of (xs ++ ys) = replies_of xs ++ replies_of ys := by
  simp [replies_of, List.filter_append]

theorem replies_emit (t : Test) (e : Event) (h : replies_of [e] = []) :
    replies_of (t.emit e).events = replies_of t.events := by
  simp [Test.emit, replies_of_append, h]

theorem replies_send_signal (t : Test) (signal_name : String) (args : List SignalArg) :
    replies_of (send_signal t signal_name args).2.events = replies_of t.events := by
  unfold send_signal
  split
  · rfl
  · rename_i path_name _
    split
    · exact replies_emit t (.send_signal signal_name path_name args) rfl
    · rfl

theorem replies_validate_step (t : Test) (name : String) (success : Bool)
    (description : Option String) :
    replies_of (insanity_test_validate_step t name success description).events
      = replies_of t.events := by
  unfold insanity_test_validate_step
  split
  · rfl
  · split
    · rfl
    · dsimp only
      split
      · cases description with
        | none => exact replies_emit t (.printf _) rfl
        | some d => exact replies_emit t (.printf _) rfl
      · exact replies_send_signal t _ _

theorem replies_set_extra_info_internal (t : Test) (name : String) (data : GValue)
    (locked : Bool) :
    replies_of (insanity_test_set_extra_info_internal t name data locked).events
      = replies_of t.events := by
  unfold insanity_test_set_extra_info_internal
  split
  · exact replies_emit t (.print_extra_info name data) rfl
  · dsimp only
    split
    · exact replies_send_signal t _ _
    · rfl

theorem replies_set_extra_info (t : Test) (name : String) (data : GValue) :
    replies_of (insanity_test_set_extra_info t name data).events = replies_of t.events := by
  unfold insanity_test_set_extra_info
  split
  · rfl
  · exact replies_set_extra_info_internal t name data false

theorem replies_ping (t : Test) (now : Int) :
    replies_of (insanity_test_ping t now).events = replies_of t.events := by
  unfold insanity_test_ping
  dsimp only
  split
  · exact (replies_send_signal _ _ _).trans (replies_emit t (.printf "insanity_test_ping\n") rfl)
  · exact replies_emit t (.printf "insanity_test_ping\n") rfl

theorem replies_done (t : Test) :
    replies_of (insanity_test_done t).events = replies_of t.events := by
  unfold insanity_test_done
  split
  · exact replies_send_signal t _ _
  · rfl

theorem replies_get_output_filename (t : Test) (key : String) (mkdir mkstemp : Option String) :
    replies_of (insanity_test_get_output_filename t key mkdir mkstemp).2.events
      = replies_of t.events := by
  have h1 : (if t.tmpdir.isNone = true then { t with tmpdir := mkdir } else t).events
      = t.events := by
    split <;> rfl
  unfold insanity_test_get_output_filename
  dsimp only
  generalize (if t.tmpdir.isNone = true then { t with tmpdir := mkdir } else t) = t1 at h1
  split
  · rfl
  · split
    · rfl
    · split
      · split
        · rw [h1]
        · split
          · rw [h1]
          · show replies_of t1.events = _
            rw [h1]
      · rfl

theorem replies_check (t : Test) (step : String) (expr : Bool) (msg : String) :
    replies_of (insanity_test_check t step expr msg).2.events = replies_of t.events := by
  unfold insanity_test_check
  split
  · rfl
  · split
    · rfl
    · split
      · exact replies_validate_step t step false (some msg)
      · rfl

theorem replies_run_action (t : Test) (a : Action) :
    replies_of (run_action t a).events = replies_of t.events := by
  cases a with
  | printf text => exact replies_emit t (.printf text) rfl
  | validate_step name success description =>
    exact replies_validate_step t name success description
  | check step expr msg => exact replies_check t step expr msg
  | set_extra_info name data => exact replies_set_extra_info t name data
  | ping now => exact replies_ping t now
  | done => exact replies_done t
  | get_argument key => rfl
  | get_output_filename key mkdir mkstemp => exact replies_get_output_filename t key mkdir mkstemp
  | add_checklist_item label description error_hint =>
    simp only [run_action, insanity_test_add_checklist_item]
    split <;> rfl
  | add_argument label description full_description global default_value =>
    simp only [run_action, insanity_test_add_argument]
    split <;> rfl
  | add_extra_info label description =>
    simp only [run_action, insanity_test_add_extra_info]
    split <;> rfl
  | add_output_file label description =>
    simp only [run_action, insanity_test_add_output_file]
    split <;> rfl

theorem replies_run_actions (actions : List Action) (t : Test) :
    replies_of (run_actions t actions).events = replies_of t.events := by
  induction actions generalizing t with
  | nil => rfl
  | cons a rest ih =>
    simp only [run_actions, List.foldl_cons]
    exact (ih (run_action t a)).trans (replies_run_action t a)

theorem replies_emit_accumulate (signal : LifecycleSignal) (handlers : List Handler)
    (accu : Bool) (t : Test) :
    replies_of (g_signal_emit_accumulate signal handlers accu t).2.events
      = replies_of t.events := by
  induction handlers generalizing accu t with
  | nil => rfl
  | cons h rest ih =>
    have hstep : replies_of (run_actions (t.emit (.callback signal)) (h t).1).events
        = replies_of t.events :=
      (replies_run_actions _ _).trans (replies_emit t (.callback signal) rfl)
    simp only [g_signal_emit_accumulate]
    split
    · exact (ih _ _).trans hstep
    · exact hstep

theorem replies_emit_void (signal : LifecycleSignal) (handlers : List VoidHandler) (t : Test) :
    replies_of (g_signal_emit_void signal handlers t).events = replies_of t.events := by
  induction handlers generalizing t with
  | nil => rfl
  | cons h rest ih =>
    simp only [g_signal_emit_void]
    exact (ih _).trans ((replies_run_actions _ _).trans (replies_emit t (.callback signal) rfl))

theorem replies_on_setup (cb : Callbacks) (t : Test) :
    replies_of (on_setup cb t).2.events = replies_of t.events := by
  have he := replies_emit_accumulate .setup cb.setup false t
  unfold on_setup
  split
  · rfl
  · dsimp only [insanity_test_record_start_time, g_signal_emit_boolean]
    split
    · split
      · exact (replies_send_signal _ _ _).trans he
      · exact (replies_send_signal _ _ _).trans he
    · exact he

theorem replies_on_start (cb : Callbacks) (t : Test) :
    replies_of (on_start cb t).2.events = replies_of t.events := by
  unfold on_start
  split
  · rfl
  · exact replies_emit_accumulate .start cb.start false t

theorem replies_on_stop (cb : Callbacks) (t : Test) :
    replies_of (on_stop cb t).events = replies_of t.events := by
  have he := replies_emit_void .stop cb.stop t
  unfold on_stop
  split
  · rfl
  · dsimp only
    split
    · exact (replies_send_signal _ _ _).trans he
    · exact he

theorem replies_gather (t : Test) (load : Option Int) :
    replies_of (gather_end_of_test_info t load).events = replies_of t.events := by
  unfold gather_end_of_test_info
  split
  · rfl
  · refine (replies_set_extra_info_internal _ _ _ _).trans ?_
    unfold insanity_test_record_stop_time
    split <;> rfl

theorem replies_on_teardown (cb : Callbacks) (load : Option Int) (t : Test) :
    replies_of (on_teardown cb load t).events = replies_of t.events := by
  unfold on_teardown
  split
  · rfl
  · exact (replies_emit_void .teardown cb.teardown _).trans (replies_gather t load)

theorem replies_handlers (cb : Callbacks) (load : Option Int) (t : Test) (msg : DBusMessage) :
    replies_of (insanity_test_dbus_handler_remoteSetup cb load t msg).2.events
        = replies_of t.events ∧
      replies_of (insanity_test_dbus_handler_remoteStart cb load t msg).2.events
        = replies_of t.events ∧
      replies_of (insanity_test_dbus_handler_remoteStop cb load t msg).2.events
        = replies_of t.events ∧
      replies_of (insanity_test_dbus_handler_remoteTearDown cb load t msg).2.events
        = replies_of t.events := by
  refine ⟨?_, ?_, replies_on_stop cb t, replies_on_teardown cb load t⟩
  · exact (replies_on_setup cb _).trans (by rw [set_args_events])
  · exact (replies_on_start cb _).trans (by rw [set_args_events])

/-! ## Arguments over the bus -/

/-- C11 fails on the code.  `uri` is a global argument of the blank test.
After `remoteSetUp` has bound it, `insanity_test_get_argument` yields that
binding; the `remoteStart` that follows carries another value for `uri`,
and between start and stop `insanity_test_get_argument` yields this other
value. -/
theorem global_argument_rebound :
    (g_hash_table_lookup remote_blank_test.test_arguments "uri").map Argument.global
        = some true ∧
      insanity_test_get_argument
          (insanity_test_dbus_handler_remoteSetup insanity_test_class_init none
            remote_blank_test setup_message).2 "uri"
        = some (.string "file:///tmp/a.ogg") ∧
      (insanity_test_dbus_handler_remoteStart insanity_test_class_init none
          (insanity_test_dbus_handler_remoteSetup insanity_test_class_init none
            remote_blank_test setup_message).2 other_start_message).2.runlevel
        = .rl_started ∧
      insanity_test_get_argument
          (insanity_test_dbus_handler_remoteStart insanity_test_class_init none
            (insanity_test_dbus_handler_remoteSetup insanity_test_class_init none
              remote_blank_test setup_message).2 other_start_message).2 "uri"
        = some (.string "file:///tmp/b.ogg") := by
  decide

/-! ## Decoding the wire format -/

/-- C12. `foreach_dbus_array` returns `-1` without calling the callback when
the iterator does not stand on an array.  When an entry of the array is
malformed (not a dict entry, key not a string, value missing, value of an
unsupported kind) and the entries before it decode, the callback is handed
those earlier entries only: the result is `-1` with the callback's data as
the earlier entries left it, unless the callback itself had returned
non-zero on one of them, which ends the call before the malformed entry is
looked at. -/
theorem foreach_dbus_array_parse_error {σ : Type} (f : String → GValue → σ → Int × σ)
    (s : σ) :
    (∀ iter, (∀ items rest, iter ≠ DBusValue.array items :: rest) →
        foreach_dbus_array iter f s = (-1, s)) ∧
      ∀ pre kvs bad post rest,
        pre.map foreach_dbus_array_entry = kvs.map some → OffendingEntry bad →
        foreach_dbus_array (DBusValue.array (pre ++ bad :: post) :: rest) f s =
          (if (callback_run f kvs s).1 = 0 then (-1, (callback_run f kvs s).2)
            else callback_run f kvs s) := by
  constructor
  · intro iter h
    unfold foreach_dbus_array
    split
    · rename_i items rest
      exact absurd rfl (h items rest)
    · rfl
  · intro pre kvs bad post rest hpre hbad
    exact foreach_loop_offending f pre kvs bad post s hpre (offending_entry_none bad hbad)

/-- C12, on a dictionary whose second entry has a byte for a value: the
first entry is handed to the callback and the call returns `-1`. -/
theorem foreach_dbus_array_parse_error_witness :
    foreach_dbus_array
        [DBusValue.array
          ([.dict_entry [.string "uri", .variant (.string "a")]]
            ++ .dict_entry [.string "level", .variant (.byte 7)]
              :: [.dict_entry [.string "late", .string "b"]])]
        collect []
      = (-1, [("uri", .string "a")]) :=
  (foreach_dbus_array_parse_error collect []).2
    [.dict_entry [.string "uri", .variant (.string "a")]] [("uri", .string "a")]
    (.dict_entry [.string "level", .variant (.byte 7)])
    [.dict_entry [.string "late", .string "b"]] [] rfl
    (OffendingEntry.value_unsupported "level" (.variant (.byte 7)) [] rfl)

/-- C13 as stated fails.  The call `remoteSetUp` of `mistyped_message` hands
an int32 for the argument `uri`, declared as a string: decoding the
arguments returns `-1`, and the call still answers success = true. -/
theorem marshal_error_counterexample :
    (foreach_dbus_array mistyped_message.args arg_converter
        { remote_blank_test with args := some [] }).1 = -1 ∧
      (insanity_test_dbus_handler_remoteSetup insanity_test_class_init none remote_blank_test
        mistyped_message).1 = [.boolean true] := by
  decide

/-- C13, amended.  Whatever the decoding of the dictionaries does,
`remoteSetUp` answers with the result of `on_setup` and `remoteStart` with
the result of `on_start`, run on the test as decoding left it: the outcome
of the callbacks when the transition is legal, so a decoding failure does
not by itself make the answer false. -/
theorem marshal_error_not_propagated (cb : Callbacks) (load : Option Int) (t : Test)
    (msg : DBusMessage) :
    (insanity_test_dbus_handler_remoteSetup cb load t msg).1
        = [.boolean (on_setup cb (insanity_test_set_args t (some msg))).1] ∧
      (insanity_test_dbus_handler_remoteStart cb load t msg).1
        = [.boolean (on_start cb (insanity_test_set_args t (some msg))).1] ∧
      (t.runlevel = .rl_idle →
        (insanity_test_dbus_handler_remoteSetup cb load t msg).1
          = [.boolean
              (g_signal_emit_boolean .setup cb.setup
                (insanity_test_set_args t (some msg))).1]) ∧
      (t.runlevel = .rl_setup →
        (insanity_test_dbus_handler_remoteStart cb load t msg).1
          = [.boolean
              (g_signal_emit_boolean .start cb.start
                (insanity_test_set_args t (some msg))).1]) := by
  refine ⟨rfl, rfl, fun h => ?_, fun h => ?_⟩
  · have hr : (insanity_test_set_args t (some msg)).runlevel = .rl_idle := by
      rw [set_args_runlevel, h]
    obtain ⟨es, _, heq⟩ := on_setup_eq cb _ hr
    show [GValue.boolean (on_setup cb (insanity_test_set_args t (some msg))).1] = _
    rw [heq]
  · have hr : (insanity_test_set_args t (some msg)).runlevel = .rl_setup := by
      rw [set_args_runlevel, h]
    show [GValue.boolean (on_start cb (insanity_test_set_args t (some msg))).1] = _
    rw [on_start_eq cb _ hr]

/-- C13 amended, on the blank test: the mistyped call is answered with the
result of the class handler of setup, which is success. -/
theorem marshal_error_not_propagated_witness :
    remote_blank_test.runlevel = .rl_idle ∧
      (insanity_test_dbus_handler_remoteSetup insanity_test_class_init none remote_blank_test
        mistyped_message).1
        = [.boolean
            (g_signal_emit_boolean .setup insanity_test_class_init.setup
              (insanity_test_set_args remote_blank_test (some mistyped_message))).1] :=
  ⟨rfl,
    (marshal_error_not_propagated insanity_test_class_init none remote_blank_test
      mistyped_message).2.2.1 rfl⟩

/-- C14 fails on the code.  `dummy-output-file` is a declared output file
of the blank test and the call names `/tmp/out.log` for it.  With an empty
arguments dictionary the file name is not found afterwards; with the same
output files and one argument bound it is. -/
theorem empty_arguments_lose_output_files :
    (g_hash_table_lookup remote_blank_test.test_output_files "dummy-output-file").isSome
        = true ∧
      (insanity_test_get_output_filename
          (insanity_test_dbus_handler_remoteSetup insanity_test_class_init none
            remote_blank_test empty_arguments_message).2
          "dummy-output-file" none none).1 = none ∧
      (insanity_test_get_output_filename
          (insanity_test_dbus_handler_remoteSetup insanity_test_class_init none
            remote_blank_test setup_message).2
          "dummy-output-file" none none).1 = some "/tmp/out.log" := by
  decide

/-- C15 as stated fails.  On a test connected to the bus, an extra info of
kind uint32 is not encoded: nothing is sent. -/
theorem extra_info_counterexample :
    insanity_test_set_extra_info_internal remote_blank_test "count" (.uint 5) false
      = remote_blank_test := by
  decide

/-- C15, amended.  On a test connected to the bus, a string and an int32 are
encoded, as variants of signature `s` and `i`, and decoding what was written
gives back the same kind and payload.  A uint32, a uint64, a double and a
boolean are not encoded: nothing is sent for them. -/
theorem extra_info_round_trip (t : Test) (name path : String) (locked : Bool)
    (hr : t.standalone = false) (hn : t.name = some path) :
    (∀ s : String,
        (insanity_test_set_extra_info_internal t name (.string s) locked).events
            = t.events ++ [.send_signal "remoteExtraInfoSignal" path
                [.basic 's' (.string name), .variant "s" (.string s)]] ∧
          ∃ w, send_signal_arg_wire (.variant "s" (.string s)) = some w ∧
            foreach_dbus_array [DBusValue.array [.dict_entry [.string name, w]]] collect []
              = (0, [(name, .string s)])) ∧
      (∀ n : Int,
        (insanity_test_set_extra_info_internal t name (.int n) locked).events
            = t.events ++ [.send_signal "remoteExtraInfoSignal" path
                [.basic 's' (.string name), .variant "i" (.int n)]] ∧
          ∃ w, send_signal_arg_wire (.variant "i" (.int n)) = some w ∧
            foreach_dbus_array [DBusValue.array [.dict_entry [.string name, w]]] collect []
              = (0, [(name, .int n)])) ∧
      ∀ data,
        G_VALUE_TYPE data = .G_TYPE_UINT ∨ G_VALUE_TYPE data = .G_TYPE_UINT64 ∨
          G_VALUE_TYPE data = .G_TYPE_DOUBLE ∨ G_VALUE_TYPE data = .G_TYPE_BOOLEAN →
        insanity_test_set_extra_info_internal t name data locked = t := by
  refine ⟨fun s => ⟨?_, .variant (.string s), rfl, rfl⟩,
    fun n => ⟨?_, .variant (.int32 n), rfl, rfl⟩, ?_⟩
  · simp [insanity_test_set_extra_info_internal, hr, G_VALUE_TYPE, send_signal, hn,
      send_signal_arg_ok, dbus_type_is_basic, Test.emit]
  · simp [insanity_test_set_extra_info_internal, hr, G_VALUE_TYPE, send_signal, hn,
      send_signal_arg_ok, dbus_type_is_basic, Test.emit]
  · intro data hd
    unfold insanity_test_set_extra_info_internal
    rw [if_neg (by simp [hr])]
    rcases hd with h | h | h | h <;> simp [h]

/-- C15 amended, on the blank test connected to the bus: the cpu load, an
int32, is sent as a variant `i` that decodes to the same value. -/
theorem extra_info_round_trip_witness :
    (insanity_test_set_extra_info_internal remote_blank_test "cpu-load" (.int 42) true).events
        = remote_blank_test.events ++ [.send_signal "remoteExtraInfoSignal"
            "/net/gstreamer/Insanity/Test/Test0001"
            [.basic 's' (.string "cpu-load"), .variant "i" (.int 42)]] ∧
      foreach_dbus_array
          [DBusValue.array [.dict_entry [.string "cpu-load", .variant (.int32 42)]]] collect []
        = (0, [("cpu-load", .int 42)]) :=
  ⟨((extra_info_round_trip remote_blank_test "cpu-load"
      "/net/gstreamer/Insanity/Test/Test0001" true rfl rfl).2.1 42).1, by decide⟩

/-! ## Calls on the control interface -/

/-- C16 fails on the code.  The test is Started, with `uri` bound and the
output file named by the calls that set it up.  A further `remoteStart`,
illegal in that state, is answered with success = false, and yet the
binding of `uri` is now the one this call carried and the name of the
output file is gone. -/
theorem illegal_remote_start_rebinds :
    started_remote_test.runlevel = .rl_started ∧
      bound_argument started_remote_test "uri" = some (.string "file:///tmp/a.ogg") ∧
      g_hash_table_lookup started_remote_test.filename_cache "dummy-output-file"
        = some "/tmp/out.log" ∧
      (insanity_test_dbus_handler_remoteStart insanity_test_class_init none
        started_remote_test other_start_message).1 = [.boolean false] ∧
      bound_argument
          (insanity_test_dbus_handler_remoteStart insanity_test_class_init none
            started_remote_test other_start_message).2 "uri"
        = some (.string "file:///tmp/b.ogg") ∧
      g_hash_table_lookup
          (insanity_test_dbus_handler_remoteStart insanity_test_class_init none
            started_remote_test other_start_message).2.filename_cache "dummy-output-file"
        = none := by
  decide

/-- C17 as stated fails.  A call of the member `remoteInfo`, which is not in
the table of handlers, gets no reply: `insanity_call_interface` returns
`FALSE` and leaves the test, record of events included, as it was. -/
theorem unknown_member_counterexample :
    insanity_call_interface insanity_test_class_init none remote_blank_test
      unknown_member_message = (false, remote_blank_test) := by
  decide

/-- C17, amended.  For the members `remoteSetUp`, `remoteStart`,
`remoteStop` and `remoteTearDown`, in every state of the test,
`insanity_call_interface` returns `TRUE` and sends exactly one method
return for the message.  For any other member it returns `FALSE` and sends
nothing. -/
theorem call_interface_replies (cb : Callbacks) (load : Option Int) (t : Test)
    (msg : DBusMessage) :
    (msg.member ∈ ["remoteSetUp", "remoteStart", "remoteStop", "remoteTearDown"] →
        (insanity_call_interface cb load t msg).1 = true ∧
          ∃ args,
            replies_of (insanity_call_interface cb load t msg).2.events
              = replies_of t.events ++ [.method_return msg.member args]) ∧
      (msg.member ∉ ["remoteSetUp", "remoteStart", "remoteStop", "remoteTearDown"] →
        insanity_call_interface cb load t msg = (false, t)) := by
  have hh := replies_handlers cb load t msg
  constructor
  · intro hm
    simp only [List.mem_cons, List.mem_singleton, List.not_mem_nil, or_false] at hm
    rcases hm with h | h | h | h
    · refine ⟨by simp [insanity_call_interface, dbus_test_handlers, h], ?_⟩
      refine ⟨(insanity_test_dbus_handler_remoteSetup cb load t msg).1, ?_⟩
      simp only [insanity_call_interface, dbus_test_handlers, h, List.find?, beq_self_eq_true,
        Test.emit, replies_of_append]
      rw [hh.1]
      rfl
    · refine ⟨by simp [insanity_call_interface, dbus_test_handlers, h], ?_⟩
      refine ⟨(insanity_test_dbus_handler_remoteStart cb load t msg).1, ?_⟩
      have e1 : ("remoteSetUp" == "remoteStart") = false := by decide
      simp only [insanity_call_interface, dbus_test_handlers, h, List.find?, e1,
        beq_self_eq_true, Test.emit, replies_of_append]
      rw [hh.2.1]
      rfl
    · refine ⟨by simp [insanity_call_interface, dbus_test_handlers, h], ?_⟩
      refine ⟨(insanity_test_dbus_handler_remoteStop cb load t msg).1, ?_⟩
      have e1 : ("remoteSetUp" == "remoteStop") = false := by decide
      have e2 : ("remoteStart" == "remoteStop") = false := by decide
      simp only [insanity_call_interface, dbus_test_handlers, h, List.find?, e1, e2,
        beq_self_eq_true, Test.emit, replies_of_append]
      rw [hh.2.2.1]
      rfl
    · refine ⟨by simp [insanity_call_interface, dbus_test_handlers, h], ?_⟩
      refine ⟨(insanity_test_dbus_handler_remoteTearDown cb load t msg).1, ?_⟩
      have e1 : ("remoteSetUp" == "remoteTearDown") = false := by decide
      have e2 : ("remoteStart" == "remoteTearDown") = false := by decide
      have e3 : ("remoteStop" == "remoteTearDown") = false := by decide
      simp only [insanity_call_interface, dbus_test_handlers, h, List.find?, e1, e2, e3,
        beq_self_eq_true, Test.emit, replies_of_append]
      rw [hh.2.2.2]
      rfl
  · intro hm
    simp only [List.mem_cons, List.mem_singleton, List.not_mem_nil, or_false, not_or] at hm
    obtain ⟨h1, h2, h3, h4⟩ := hm
    have e1 : ("remoteSetUp" == msg.member) = false := by
      simpa using fun h => h1 h.symm
    have e2 : ("remoteStart" == msg.member) = false := by
      simpa using fun h => h2 h.symm
    have e3 : ("remoteStop" == msg.member) = false := by
      simpa using fun h => h3 h.symm
    have e4 : ("remoteTearDown" == msg.member) = false := by
      simpa using fun h => h4 h.symm
    simp only [insanity_call_interface, dbus_test_handlers, List.find?, e1, e2, e3, e4]

/-- C17 amended, on the blank test connected to the bus: the call of
`remoteSetUp` is answered once, after the ready signal. -/
theorem call_interface_replies_witness :
    (insanity_call_interface insanity_test_class_init none remote_blank_test
        setup_message).1 = true ∧
      (∃ args,
        replies_of
            (insanity_call_interface insanity_test_class_init none remote_blank_test
              setup_message).2.events
          = replies_of remote_blank_test.events
            ++ [.method_return setup_message.member args]) ∧
      replies_of
          (insanity_call_interface insanity_test_class_init none remote_blank_test
            setup_message).2.events
        = [.method_return "remoteSetUp" [.boolean true]] :=
  ⟨((call_interface_replies insanity_test_class_init none remote_blank_test
      setup_message).1 (by decide)).1,
    ((call_interface_replies insanity_test_class_init none remote_blank_test
      setup_message).1 (by decide)).2,
    by decide⟩

/-! ## Registration -/

/-- C18. `check_valid_label` returns false for the null label, and for a
string it returns true exactly when the string is not empty, its first
character is an ASCII letter and all of its characters are ASCII letters,
ASCII digits, `-` or `.`. -/
theorem check_valid_label_iff :
    check_valid_label none = false ∧
      ∀ s : String, check_valid_label (some s) = true ↔ ValidLabel s := by
  refine ⟨rfl, fun s => ?_⟩
  unfold ValidLabel
  cases hd : s.data with
  | nil =>
    have : check_valid_label (some s) = false := by
      unfold check_valid_label
      simp only [hd]
      decide
    simp [this]
  | cons c rest =>
    have hne : s ≠ "" := by
      intro h
      rw [h] at hd
      cases hd
    unfold check_valid_label
    simp only [hd, List.headD_cons]
    by_cases hf : ((c < 'A' || c > 'Z') && (c < 'a' || c > 'z')) = true
    · have hnl : ¬ is_ascii_letter c := by
        rw [← first_char_check]
        simp [hf]
      simp only [hf, if_true]
      constructor
      · intro h
        cases h
      · rintro ⟨_, ⟨c', rest', he, hl⟩, _⟩
        cases he
        exact absurd hl hnl
    · have hl : is_ascii_letter c := by
        rw [← first_char_check]
        simpa using hf
      simp only [hf, Bool.false_eq_true, if_false]
      rw [List.all_eq_true]
      constructor
      · intro h
        exact ⟨hne, ⟨c, rest, rfl, hl⟩, fun d hd' => (label_char_check d).1 (h d hd')⟩
      · rintro ⟨_, _, h⟩ d hd'
        exact (label_char_check d).2 (h d hd')

/-- C19 as stated fails.  The blank test declares the checklist item
`random-step` and the global string argument `uri`.  Registering them again
is not refused: the description of the item and the scope and default of
the argument are afterwards those of the second registration. -/
theorem duplicate_registration_counterexample :
    g_hash_table_lookup blank_test.test_checklist "random-step"
        = some ⟨"Some random step, nothing much", none⟩ ∧
      g_hash_table_lookup
          (insanity_test_add_checklist_item blank_test "random-step" "Replaced"
            (some "hint")).test_checklist "random-step"
        = some ⟨"Replaced", some "hint"⟩ ∧
      g_hash_table_lookup blank_test.test_arguments "uri"
        = some ⟨true, "URI description", .string "http://127.0.0.1/",
            some "URI full description"⟩ ∧
      g_hash_table_lookup
          (insanity_test_add_argument blank_test "uri" "Replaced" none false
            (.int 0)).test_arguments "uri"
        = some ⟨false, "Replaced", .int 0, none⟩ := by
  decide

/-- C19, amended.  Registering a checklist item, an argument, an extra info
or an output file under a valid label is accepted whether or not the label
is already present: afterwards the registry holds exactly one entry for the
label, and it is the one just registered. -/
theorem duplicate_registration_replaces (t : Test) (label description : String)
    (error_hint full_description : Option String) (global : Bool) (default_value : GValue)
    (hv : check_valid_label (some label) = true) :
    (insanity_test_add_checklist_item t label description error_hint).test_checklist.filter
          (fun e => e.1 == label) = [(label, ⟨description, error_hint⟩)] ∧
      (insanity_test_add_argument t label description full_description global
          default_value).test_arguments.filter (fun e => e.1 == label)
        = [(label, ⟨global, description, default_value, full_description⟩)] ∧
      (insanity_test_add_extra_info t label description).test_extra_infos.filter
          (fun e => e.1 == label) = [(label, description)] ∧
      (insanity_test_add_output_file t label description).test_output_files.filter
          (fun e => e.1 == label) = [(label, description)] ∧
      g_hash_table_lookup
          (insanity_test_add_checklist_item t label description error_hint).test_checklist
          label = some ⟨description, error_hint⟩ ∧
      g_hash_table_lookup
          (insanity_test_add_argument t label description full_description global
            default_value).test_arguments label
        = some ⟨global, description, default_value, full_description⟩ ∧
      g_hash_table_lookup (insanity_test_add_extra_info t label description).test_extra_infos
          label = some description ∧
      g_hash_table_lookup (insanity_test_add_output_file t label description).test_output_files
          label = some description := by
  have hn : (!check_valid_label (some label)) = false := by simp [hv]
  simp only [insanity_test_add_checklist_item, insanity_test_add_argument,
    insanity_test_add_extra_info, insanity_test_add_output_file, insanity_add_metadata_entry,
    hn, Bool.false_eq_true, if_false]
  exact ⟨filter_key_insert _ _ _, filter_key_insert _ _ _, filter_key_insert _ _ _,
    filter_key_insert _ _ _, lookup_insert_self _ _ _, lookup_insert_self _ _ _,
    lookup_insert_self _ _ _, lookup_insert_self _ _ _⟩

/-- C19 amended, on the blank test: `random-step` registered again has one
entry, the new one. -/
theorem duplicate_registration_replaces_witness :
    check_valid_label (some "random-step") = true ∧
      (insanity_test_add_checklist_item blank_test "random-step" "Replaced"
          (some "hint")).test_checklist.filter (fun e => e.1 == "random-step")
        = [("random-step", ⟨"Replaced", some "hint"⟩)] :=
  ⟨by decide,
    (duplicate_registration_replaces blank_test "random-step" "Replaced" (some "hint") none
      false (.int 0) (by decide)).1⟩

/-- C20 as stated fails.  After `on_setup`, and again after `on_start`, the
blank test still accepts a new checklist item and a new argument: the
registries change. -/
theorem late_registration_counterexample :
    (on_setup insanity_test_class_init blank_test).2.runlevel = .rl_setup ∧
      g_hash_table_lookup (on_setup insanity_test_class_init blank_test).2.test_checklist
        "late-step" = none ∧
      g_hash_table_lookup
          (insanity_test_add_checklist_item (on_setup insanity_test_class_init blank_test).2
            "late-step" "Added after setup" none).test_checklist "late-step"
        = some ⟨"Added after setup", none⟩ ∧
      (on_start insanity_test_class_init
        (on_setup insanity_test_class_init blank_test).2).2.runlevel = .rl_started ∧
      g_hash_table_lookup
          (insanity_test_add_argument
            (on_start insanity_test_class_init
              (on_setup insanity_test_class_init blank_test).2).2
            "late-argument" "Added after start" none false (.int 1)).test_arguments
          "late-argument"
        = some ⟨false, "Added after start", .int 1, none⟩ := by
  decide

/-- C20, amended.  The four registration calls do not look at the lifecycle
state: in whatever run level the test is, a registration does what it does
in any other run level, and with a valid label it is accepted and enters
its registry. -/
theorem registration_ignores_runlevel (t : Test) (r : RunLevel) (label description : String)
    (error_hint full_description : Option String) (global : Bool) (default_value : GValue) :
    insanity_test_add_checklist_item { t with runlevel := r } label description error_hint
        = { insanity_test_add_checklist_item t label description error_hint with
            runlevel := r } ∧
      insanity_test_add_argument { t with runlevel := r } label description full_description
          global default_value
        = { insanity_test_add_argument t label description full_description global
              default_value with runlevel := r } ∧
      insanity_test_add_extra_info { t with runlevel := r } label description
        = { insanity_test_add_extra_info t label description with runlevel := r } ∧
      insanity_test_add_output_file { t with runlevel := r } label description
        = { insanity_test_add_output_file t label description with runlevel := r } ∧
      (check_valid_label (some label) = true →
        g_hash_table_lookup
            (insanity_test_add_checklist_item { t with runlevel := r } label description
              error_hint).test_checklist label = some ⟨description, error_hint⟩ ∧
          g_hash_table_lookup
              (insanity_test_add_argument { t with runlevel := r } label description
                full_description global default_value).test_arguments label
            = some ⟨global, description, default_value, full_description⟩ ∧
          g_hash_table_lookup
              (insanity_test_add_extra_info { t with runlevel := r } label
                description).test_extra_infos label = some description ∧
          g_hash_table_lookup
              (insanity_test_add_output_file { t with runlevel := r } label
                description).test_output_files label = some description) := by
  refine ⟨?_, ?_, ?_, ?_, fun hv => ?_⟩
  · unfold insanity_test_add_checklist_item
    split <;> rfl
  · unfold insanity_test_add_argument
    split <;> rfl
  · unfold insanity_test_add_extra_info
    split <;> rfl
  · unfold insanity_test_add_output_file
    split <;> rfl
  · have hn : (!check_valid_label (some label)) = false := by simp [hv]
    simp only [insanity_test_add_checklist_item, insanity_test_add_argument,
      insanity_test_add_extra_info, insanity_test_add_output_file, insanity_add_metadata_entry,
      hn, Bool.false_eq_true, if_false]
    exact ⟨lookup_insert_self _ _ _, lookup_insert_self _ _ _, lookup_insert_self _ _ _,
      lookup_insert_self _ _ _⟩

/-- C20 amended, on the blank test in Started: a checklist item registered
then is in the registry. -/
theorem registration_ignores_runlevel_witness :
    check_valid_label (some "late-step") = true ∧
      g_hash_table_lookup
          (insanity_test_add_checklist_item { blank_test with runlevel := .rl_started }
            "late-step" "Added while started" none).test_checklist "late-step"
        = some ⟨"Added while started", none⟩ :=
  ⟨by decide,
    ((registration_ignores_runlevel blank_test .rl_started "late-step" "Added while started"
      none none false (.int 0)).2.2.2.2 (by decide)).1⟩

/-! ## Auxiliary facts on the wait and the command line -/

/-! ### The deadline moves only with a ping -/

theorem deadline_send_signal (t : Test) (signal_name : String) (args : List SignalArg) :
    (send_signal t signal_name args).2.timeout_end_time = t.timeout_end_time := by
  obtain ⟨es, _, h⟩ := send_signal_events t signal_name args
  rw [h]

theorem deadline_validate_step (t : Test) (name : String) (success : Bool)
    (description : Option String) :
    (insanity_test_validate_step t name success description).timeout_end_time
      = t.timeout_end_time := by
  unfold insanity_test_validate_step
  split
  · rfl
  · split
    · rfl
    · dsimp only
      split
      · cases description <;> rfl
      · exact deadline_send_signal t _ _

theorem deadline_set_extra_info (t : Test) (name : String) (data : GValue) :
    (insanity_test_set_extra_info t name data).timeout_end_time = t.timeout_end_time := by
  unfold insanity_test_set_extra_info insanity_test_set_extra_info_internal
  split
  · rfl
  · split
    · rfl
    · dsimp only
      split
      · exact deadline_send_signal t _ _
      · rfl

theorem deadline_get_output_filename (t : Test) (key : String)
    (mkdir mkstemp : Option String) :
    (insanity_test_get_output_filename t key mkdir mkstemp).2.timeout_end_time
      = t.timeout_end_time := by
  have h1 : (if t.tmpdir.isNone = true then { t with tmpdir := mkdir } else t).timeout_end_time
      = t.timeout_end_time := by
    split <;> rfl
  unfold insanity_test_get_output_filename
  dsimp only
  generalize (if t.tmpdir.isNone = true then { t with tmpdir := mkdir } else t) = t1 at h1
  split
  · rfl
  · split
    · rfl
    · split
      · split
        · rw [h1]
        · split
          · rw [h1]
          · show t1.timeout_end_time = _
            rw [h1]
      · rfl

theorem deadline_run_action (t : Test) (a : Action) (h : ∀ now, a ≠ Action.ping now) :
    (run_action t a).timeout_end_time = t.timeout_end_time := by
  cases a with
  | printf text => rfl
  | validate_step name success description =>
    exact deadline_validate_step t name success description
  | check step expr msg =>
    simp only [run_action, insanity_test_check]
    split
    · rfl
    · split
      · rfl
      · split
        · exact deadline_validate_step t step false (some msg)
        · rfl
  | set_extra_info name data => exact deadline_set_extra_info t name data
  | ping now => exact absurd rfl (h now)
  | done =>
    simp only [run_action, insanity_test_done]
    split
    · exact deadline_send_signal t _ _
    · rfl
  | get_argument key => rfl
  | get_output_filename key mkdir mkstemp => exact deadline_get_output_filename t key mkdir mkstemp
  | add_checklist_item label description error_hint =>
    simp only [run_action, insanity_test_add_checklist_item]
    split <;> rfl
  | add_argument label description full_description global default_value =>
    simp only [run_action, insanity_test_add_argument]
    split <;> rfl
  | add_extra_info label description =>
    simp only [run_action, insanity_test_add_extra_info]
    split <;> rfl
  | add_output_file label description =>
    simp only [run_action, insanity_test_add_output_file]
    split <;> rfl

theorem deadline_run_actions (actions : List Action) (t : Test)
    (h : ∀ now, Action.ping now ∉ actions) :
    (run_actions t actions).timeout_end_time = t.timeout_end_time := by
  induction actions generalizing t with
  | nil => rfl
  | cons a rest ih =>
    simp only [run_actions, List.foldl_cons]
    have h1 : ∀ now, a ≠ Action.ping now := fun now e => h now (by simp [e])
    have h2 : ∀ now, Action.ping now ∉ rest := fun now hm => h now (List.mem_cons_of_mem _ hm)
    exact (ih (run_action t a) h2).trans (deadline_run_action t a h1)

theorem deadline_ping (t : Test) (now : Int) (hs : t.standalone = true) :
    (insanity_test_ping t now).timeout_end_time = now + t.timeout * G_TIME_SPAN_SECOND := by
  simp [insanity_test_ping, Test.emit, hs]

theorem run_actions_append (t : Test) (xs ys : List Action) :
    run_actions t (xs ++ ys) = run_actions (run_actions t xs) ys := by
  simp [run_actions, List.foldl_append]

theorem deadline_after_ping (t : Test) (pre post : List Action) (p : Int)
    (hs : t.standalone = true) (hpost : ∀ now, Action.ping now ∉ post) :
    (run_actions t (pre ++ Action.ping p :: post)).timeout_end_time
      = p + t.timeout * G_TIME_SPAN_SECOND := by
  rw [run_actions_append]
  have hf := frame_run_actions pre t
  have h1 : run_actions (run_actions t pre) (Action.ping p :: post)
      = run_actions (insanity_test_ping (run_actions t pre) p) post := rfl
  rw [h1, deadline_run_actions post _ hpost, deadline_ping _ _ (hf.standalone.trans hs),
    hf.timeout]

/-! ### What the wait leaves alone -/

theorem frame_WAIT_TIMEOUT_loop (sched : List WaitRound) (t : Test) (w : Bool × Test)
    (h : WAIT_TIMEOUT_loop sched t = some w) : Frame t w.2 := by
  induction sched generalizing t with
  | nil => simp [WAIT_TIMEOUT_loop] at h
  | cons r rest ih =>
    have hstep : Frame t
        (run_actions { t with timeout_end_time := r.now + t.timeout * G_TIME_SPAN_SECOND }
          r.during) :=
      Frame.followedBy
        (b := { t with timeout_end_time := r.now + t.timeout * G_TIME_SPAN_SECOND })
        ⟨rfl, rfl, rfl, rfl, rfl, rfl, rfl, rfl, id⟩
        (frame_run_actions r.during _).toFrame
    simp only [WAIT_TIMEOUT_loop] at h
    split at h
    · exact hstep.followedBy (ih _ h)
    · cases h
      exact hstep

theorem frame_WAIT_TIMEOUT (sched : List WaitRound) (t : Test) (w : Bool × Test)
    (h : WAIT_TIMEOUT sched t = some w) : Frame t w.2 := by
  unfold WAIT_TIMEOUT at h
  split at h
  · exact frame_WAIT_TIMEOUT_loop sched t w h
  · split at h
    · simp at h
    · cases h
      exact (frame_run_actions _ t).toFrame

theorem frame_on_setup (cb : Callbacks) (t : Test) :
    (on_setup cb t).2.timeout = t.timeout ∧ (on_setup cb t).2.standalone = t.standalone ∧
      (on_setup cb t).2.exit = t.exit := by
  by_cases h : t.runlevel = .rl_idle
  · obtain ⟨es, _, heq⟩ := on_setup_eq cb t h
    have hf := frame_emit_boolean .setup cb.setup t
    rw [heq]
    exact ⟨hf.timeout, hf.standalone, hf.exit⟩
  · unfold on_setup
    rw [if_pos (by simp [h])]
    exact ⟨rfl, rfl, rfl⟩

theorem frame_on_start (cb : Callbacks) (t : Test) :
    (on_start cb t).2.timeout = t.timeout ∧ (on_start cb t).2.standalone = t.standalone ∧
      (on_start cb t).2.exit = t.exit := by
  by_cases h : t.runlevel = .rl_setup
  · have hf := frame_emit_boolean .start cb.start t
    rw [on_start_eq cb t h]
    exact ⟨hf.timeout, hf.standalone, hf.exit⟩
  · unfold on_start
    rw [if_pos (by simp [h])]
    exact ⟨rfl, rfl, rfl⟩

/-! ### One round of the wait -/

theorem wait_quiet_round (r : WaitRound) (rest : List WaitRound) (t : Test)
    (hT : t.timeout > 0) (hnp : ∀ now, Action.ping now ∉ r.during)
    (hns : r.signalled = false)
    (hdl : r.now + t.timeout * G_TIME_SPAN_SECOND ≤ r.current_time) :
    WAIT_TIMEOUT (r :: rest) t =
      some (true,
        run_actions { t with timeout_end_time := r.now + t.timeout * G_TIME_SPAN_SECOND }
          r.during) := by
  have hd := deadline_run_actions r.during
    { t with timeout_end_time := r.now + t.timeout * G_TIME_SPAN_SECOND } hnp
  unfold WAIT_TIMEOUT
  rw [if_pos hT]
  simp only [WAIT_TIMEOUT_loop, hns, hd, Bool.not_false, Bool.true_and, decide_eq_true_eq]
  rw [if_neg (not_lt.2 hdl)]

theorem wait_rearms (r : WaitRound) (rest : List WaitRound) (t : Test)
    (hT : t.timeout > 0) (hns : r.signalled = false)
    (hlt : r.current_time <
      (run_actions { t with timeout_end_time := r.now + t.timeout * G_TIME_SPAN_SECOND }
        r.during).timeout_end_time) :
    WAIT_TIMEOUT (r :: rest) t =
      WAIT_TIMEOUT_loop rest
        (run_actions { t with timeout_end_time := r.now + t.timeout * G_TIME_SPAN_SECOND }
          r.during) := by
  unfold WAIT_TIMEOUT
  rw [if_pos hT]
  simp only [WAIT_TIMEOUT_loop, hns, Bool.not_false, Bool.true_and, decide_eq_true_eq]
  rw [if_pos hlt]

/-! ### Handlers with given results -/

theorem callbacks_handler_run (signal : LifecycleSignal) (actions : List Action) (t : Test) :
    callbacks_of (run_actions (t.emit (.callback signal)) actions).events
      = callbacks_of t.events ++ [signal] := by
  have hc := (frame_run_actions actions (t.emit (.callback signal))).callbacks
  have he : callbacks_of (t.emit (.callback signal)).events = callbacks_of t.events ++ [signal] := by
    simp [Test.emit, callbacks_of_append, callbacks_of]
  exact hc.trans he

theorem emit_accumulate_results (signal : LifecycleSignal) (handlers : List Handler)
    (results : List Bool) (hres : List.Forall₂ (fun h b => ∀ s, (h s).2 = b) handlers results)
    (accu : Bool) (t : Test) :
    (g_signal_emit_accumulate signal handlers accu t).1
        = (if results.isEmpty then accu else results.all id) ∧
      callbacks_of (g_signal_emit_accumulate signal handlers accu t).2.events
        = callbacks_of t.events ++
          List.replicate (min results.length ((results.takeWhile id).length + 1)) signal := by
  induction hres generalizing accu t with
  | nil => simp [g_signal_emit_accumulate]
  | @cons h b hs bs hb _ ih =>
    simp only [g_signal_emit_accumulate, insanity_signal_stop_accumulator, hb t]
    cases b with
    | false =>
      simp only [Bool.false_eq_true, if_false, List.isEmpty_cons, List.all_cons, id,
        Bool.false_and, List.takeWhile_cons, List.length_nil, List.length_cons]
      refine ⟨trivial, ?_⟩
      rw [callbacks_handler_run]
      simp
    | true =>
      obtain ⟨i1, i2⟩ := ih true (run_actions (t.emit (.callback signal)) (h t).1)
      simp only [if_true, List.isEmpty_cons, List.all_cons, id, Bool.true_and,
        List.takeWhile_cons, List.length_cons, Bool.false_eq_true, if_false]
      constructor
      · rw [i1]
        cases bs <;> simp
      · rw [i2, callbacks_handler_run, List.append_assoc]
        congr 1
        rw [Nat.add_min_add_right, List.replicate_succ]
        rfl

/-! ### Reports of the CPU load and the end of a run -/

theorem cpu_load_reports_append (xs ys : List Event) :
    cpu_load_reports (xs ++ ys) = cpu_load_reports xs ++ cpu_load_reports ys := by
  simp [cpu_load_reports, List.filter_append]

theorem report_keeps (t : Test) (verbose : Bool) :
    (insanity_report_failed_tests t verbose).2.runlevel = t.runlevel ∧
      (insanity_report_failed_tests t verbose).2.exit = t.exit := by
  unfold insanity_report_failed_tests
  cases verbose <;> exact ⟨rfl, rfl⟩

theorem stop_teardown_idle (cb : Callbacks) (load : Option Int) (t : Test)
    (h : t.runlevel = .rl_started) :
    (on_teardown cb load (on_stop cb t)).runlevel = .rl_idle ∧
      (on_teardown cb load (on_stop cb t)).exit = true := by
  obtain ⟨es3, _, h3⟩ := on_stop_eq cb t h
  have r3 : (on_stop cb t).runlevel = .rl_setup := by rw [h3]
  rw [on_teardown_eq cb load _ r3]
  exact ⟨rfl, rfl⟩

/-! ## The standalone wait -/

/-- C21 fails on the code when the condition wait wakes spuriously.  On the
blank test run with a timeout of two seconds, whose start callback validates
both checklist items as passed, nobody calls `insanity_test_ping` or
`insanity_test_done`.  When the condition wait returns at its deadline the
wait reports a timeout and the run returns failure, as the claim says.  When
the condition wait returns `TRUE` one millisecond into the wait, the loop
takes that for a call of `insanity_test_done`: the wait ends with no
timeout, long before the deadline, and the run returns success. -/
theorem spurious_wakeup_ends_wait :
    (insanity_test_run_standalone passing_callbacks none quiet_wait two_second_test).map
        Prod.fst = some false ∧
      spurious_round.during = [] ∧
      (WAIT_TIMEOUT [spurious_round]
          (on_start passing_callbacks (on_setup passing_callbacks two_second_test).2).2).map
        Prod.fst = some false ∧
      (insanity_test_run_standalone_lifecycle passing_callbacks none [spurious_round]
        two_second_test).map Prod.fst = some false ∧
      (insanity_test_run_standalone passing_callbacks none [spurious_round]
        two_second_test).map Prod.fst = some true := by
  decide

/-- C22 as stated fails.  On the blank test with a timeout of two seconds,
a ping at 1.5 seconds stores the deadline 3.5 seconds and the wait does not
end at the original deadline.  Yet the wait then arms a new deadline from
the clock, 4 seconds: when 3.5 seconds have passed the thread is still
waiting, and the timeout is reported once 4 seconds have passed. -/
theorem ping_deadline_counterexample :
    (run_actions { two_second_test with timeout_end_time := 2000000 }
        pinged_round.during).timeout_end_time = 3500000 ∧
      WAIT_TIMEOUT [pinged_round] two_second_test = none ∧
      WAIT_TIMEOUT [pinged_round, early_round] two_second_test = none ∧
      (WAIT_TIMEOUT [pinged_round, rearmed_round] two_second_test).map
        (fun w => (w.1, w.2.timeout_end_time)) = some (true, 4000000) := by
  decide

/-- C22, amended.  With a positive timeout, in standalone mode, a ping made
during a round of the wait, at clock reading `p`, stores the deadline `p`
plus the timeout.  If the condition wait of that round then returns `FALSE`
while the clock is before that deadline, the wait does not report a
timeout: it goes on to the next round, which arms the deadline anew from
the clock.  If no ping is made in that next round and its condition wait
returns `FALSE` with the clock at or past the deadline armed at its start,
the wait reports the timeout then, with that deadline. -/
theorem ping_rearms_wait (t : Test) (r1 r2 : WaitRound) (rest : List WaitRound)
    (pre post : List Action) (p : Int) (hT : t.timeout > 0) (hs : t.standalone = true)
    (hd1 : r1.during = pre ++ Action.ping p :: post)
    (hpost : ∀ now, Action.ping now ∉ post) (hns1 : r1.signalled = false)
    (hc1 : r1.current_time < p + t.timeout * G_TIME_SPAN_SECOND)
    (hnp2 : ∀ now, Action.ping now ∉ r2.during) (hns2 : r2.signalled = false)
    (hc2 : r2.now + t.timeout * G_TIME_SPAN_SECOND ≤ r2.current_time) :
    (run_actions { t with timeout_end_time := r1.now + t.timeout * G_TIME_SPAN_SECOND }
        r1.during).timeout_end_time = p + t.timeout * G_TIME_SPAN_SECOND ∧
      WAIT_TIMEOUT [r1] t = none ∧
      ∃ t2, WAIT_TIMEOUT (r1 :: r2 :: rest) t = some (true, t2) ∧
        t2.timeout_end_time = r2.now + t.timeout * G_TIME_SPAN_SECOND := by
  have hdl : (run_actions
      { t with timeout_end_time := r1.now + t.timeout * G_TIME_SPAN_SECOND }
      r1.during).timeout_end_time = p + t.timeout * G_TIME_SPAN_SECOND := by
    rw [hd1]
    exact deadline_after_ping
      { t with timeout_end_time := r1.now + t.timeout * G_TIME_SPAN_SECOND } pre post p hs hpost
  have hlt : r1.current_time < (run_actions
      { t with timeout_end_time := r1.now + t.timeout * G_TIME_SPAN_SECOND }
      r1.during).timeout_end_time := by rw [hdl]; exact hc1
  have hto : (run_actions
      { t with timeout_end_time := r1.now + t.timeout * G_TIME_SPAN_SECOND }
      r1.during).timeout = t.timeout := (frame_run_actions r1.during _).timeout
  refine ⟨hdl, ?_, ?_⟩
  · rw [wait_rearms r1 [] t hT hns1 hlt]
    rfl
  · rw [wait_rearms r1 (r2 :: rest) t hT hns1 hlt]
    have h2 := wait_quiet_round r2 rest _ (by rw [hto]; exact hT) hnp2 hns2
      (by rw [hto]; exact hc2)
    unfold WAIT_TIMEOUT at h2
    rw [if_pos (by rw [hto]; exact hT)] at h2
    refine ⟨_, h2, ?_⟩
    rw [deadline_run_actions r2.during _ hnp2, hto]

/-- C22 amended, on the blank test with a timeout of two seconds, a ping at
1.5 seconds and no call after it: the round armed at 2 seconds reports the
timeout, with the deadline 4 seconds. -/
theorem ping_rearms_wait_witness :
    two_second_test.timeout > 0 ∧
      pinged_round.current_time < 1500000 + two_second_test.timeout * G_TIME_SPAN_SECOND ∧
      rearmed_round.now + two_second_test.timeout * G_TIME_SPAN_SECOND
        ≤ rearmed_round.current_time ∧
      WAIT_TIMEOUT [pinged_round] two_second_test = none ∧
      ∃ t2, WAIT_TIMEOUT [pinged_round, rearmed_round] two_second_test = some (true, t2) ∧
        t2.timeout_end_time = 2000000 + 2 * G_TIME_SPAN_SECOND :=
  ⟨by decide, by decide, by decide,
    (ping_rearms_wait two_second_test pinged_round rearmed_round [] [] [] 1500000
      (by decide) rfl rfl (fun _ => List.not_mem_nil _) rfl (by decide)
      (fun _ => List.not_mem_nil _) rfl (by decide)).2.1,
    (ping_rearms_wait two_second_test pinged_round rearmed_round [] [] [] 1500000
      (by decide) rfl rfl (fun _ => List.not_mem_nil _) rfl (by decide)
      (fun _ => List.not_mem_nil _) rfl (by decide)).2.2⟩

/-- C29 fails on the code.  On the blank test with the default timeout, the
start callback validates both checklist items as passed and then calls
`insanity_test_done`, before the runner waits.  The call leaves the test as
it was.  Nothing wakes the wait that follows: its condition wait returns
`FALSE` at the deadline, fifteen seconds later, the wait reports a timeout,
and the run returns failure although no item has failed.  The same run
succeeds when the call comes from another thread during the wait. -/
theorem done_in_start_is_lost :
    insanity_test_done blank_test = blank_test ∧
      (insanity_test_run_standalone_lifecycle done_in_start_callbacks none unwoken_wait
        blank_test).map (fun w => (w.1, (insanity_report_failed_tests w.2 false).1))
        = some (true, 0) ∧
      (insanity_test_run_standalone done_in_start_callbacks none unwoken_wait
        blank_test).map Prod.fst = some false ∧
      (insanity_test_run_standalone passing_callbacks none signalled_wait
        blank_test).map Prod.fst = some true := by
  decide

/-! ## The check helper -/

/-- C23. On a step with a valid label that is a declared checklist item,
`insanity_test_check` returns the value of `expr`.  When `expr` is false it
does what `insanity_test_validate_step` does for a failure with the
message, after which the recorded result of the step is failure.  When
`expr` is true the test is left as it was: no result is recorded and
nothing is printed or sent. -/
theorem check_returns_expr (t : Test) (step : String) (expr : Bool) (msg : String)
    (hv : check_valid_label (some step) = true)
    (hreg : (g_hash_table_lookup t.test_checklist step).isSome = true) :
    (insanity_test_check t step expr msg).1 = expr ∧
      (expr = false →
        (insanity_test_check t step expr msg).2
            = insanity_test_validate_step t step false (some msg) ∧
          g_hash_table_lookup (insanity_test_check t step expr msg).2.checklist_results step
            = some false) ∧
      (expr = true → (insanity_test_check t step expr msg).2 = t) := by
  have hreg2 : (g_hash_table_lookup t.test_checklist step).isNone = false := by
    cases h : g_hash_table_lookup t.test_checklist step with
    | none => rw [h] at hreg; cases hreg
    | some _ => rfl
  unfold insanity_test_check
  rw [if_neg (by simp [hv]), if_neg (by simp [hreg2])]
  cases expr with
  | true =>
    refine ⟨rfl, ?_, fun _ => rfl⟩
    intro h
    cases h
  | false =>
    refine ⟨rfl, fun _ => ⟨rfl, ?_⟩, ?_⟩
    swap
    · intro h
      cases h
    obtain ⟨es, _, heq⟩ := validate_step_eq t step false (some msg) hv hreg
    simp only [Bool.not_false, if_true]
    rw [heq]
    exact lookup_insert_self _ _ _

/-- C23, on the blank test: a check of `random-step` that fails records a
failure and prints the step, a check that holds changes nothing. -/
theorem check_returns_expr_witness :
    check_valid_label (some "random-step") = true ∧
      (g_hash_table_lookup blank_test.test_checklist "random-step").isSome = true ∧
      (insanity_test_check blank_test "random-step" false "no data").1 = false ∧
      g_hash_table_lookup
        (insanity_test_check blank_test "random-step" false "no data").2.checklist_results
        "random-step" = some false ∧
      (insanity_test_check blank_test "random-step" true "no data").2 = blank_test :=
  ⟨by decide, by decide,
    (check_returns_expr blank_test "random-step" false "no data" (by decide) (by decide)).1,
    ((check_returns_expr blank_test "random-step" false "no data" (by decide)
      (by decide)).2.1 rfl).2,
    (check_returns_expr blank_test "random-step" true "no data" (by decide) (by decide)).2.2 rfl⟩

/-! ## Names on the bus -/

/-- C24. For every UUID string `u`, `insanity_test_connect` stores the
object path `/net/gstreamer/Insanity/Test/Test` followed by `u`, and a
signal sent afterwards carries that path; the well-known name that `listen`
requests is `net.gstreamer.Insanity.Test.Test` followed by `u`; and the
introspection XML that `listen` returns is the document type declaration,
then the opening of the `node` element with that object path as its `name`
attribute, then the rest of the template, which closes the attribute and
the tag and does not depend on `u`. -/
theorem names_from_uuid (t : Test) (conn u : String) :
    (insanity_test_connect t conn u).name = some ("/net/gstreamer/Insanity/Test/Test" ++ u) ∧
      (∀ signal_name args, args.all send_signal_arg_ok = true →
        (send_signal (insanity_test_connect t conn u) signal_name args).2.events
          = t.events ++
            [.send_signal signal_name ("/net/gstreamer/Insanity/Test/Test" ++ u) args]) ∧
      listen_object_name u = "net.gstreamer.Insanity.Test.Test" ++ u ∧
      listen_introspect_response u =
        "<!DOCTYPE node PUBLIC \"-//freedesktop//DTD D-BUS Object Introspection 1.0//EN\" "
          ++ "\"http://www.freedesktop.org/standards/dbus/1.0/introspect.dtd\">\n"
          ++ "<node name=\"" ++ ("/net/gstreamer/Insanity/Test/Test" ++ u)
          ++ introspect_response_template.2 ∧
      introspect_response_template.2.data.take 3 = "\">\n".data := by
  refine ⟨rfl, ?_, ?_, ?_, rfl⟩
  · intro signal_name args hargs
    simp only [send_signal, insanity_test_connect, hargs, if_true, Test.emit]
  · have h : INSANITY_TEST_INTERFACE ++ ".Test" = "net.gstreamer.Insanity.Test.Test" := by
      decide
    unfold listen_object_name
    rw [h]
  · have h1 : introspect_response_template.1 =
        "<!DOCTYPE node PUBLIC \"-//freedesktop//DTD D-BUS Object Introspection 1.0//EN\" "
          ++ "\"http://www.freedesktop.org/standards/dbus/1.0/introspect.dtd\">\n"
          ++ "<node name=\"" ++ "/net/gstreamer/Insanity/Test/Test" := by
      rfl
    unfold listen_introspect_response
    rw [h1]
    simp only [String.append_assoc]

/-- C24, on the blank test connected under the UUID `0001`: the ping signal
carries the object path that ends in `Test0001`. -/
theorem names_from_uuid_witness :
    [].all send_signal_arg_ok = true ∧
      (send_signal (insanity_test_connect blank_test "unix:path=/tmp/insanity" "0001")
        "remotePingSignal" []).2.events
        = blank_test.events ++
          [.send_signal "remotePingSignal" ("/net/gstreamer/Insanity/Test/Test" ++ "0001") []] ∧
      listen_object_name "0001" = "net.gstreamer.Insanity.Test.Test" ++ "0001" :=
  ⟨rfl,
    (names_from_uuid blank_test "unix:path=/tmp/insanity" "0001").2.1 "remotePingSignal" [] rfl,
    (names_from_uuid blank_test "unix:path=/tmp/insanity" "0001").2.2.1⟩

/-! ## Several handlers on one signal -/

/-- C25 as stated fails.  With a handler that reports failure connected
before the class handler of `setup`, which reports success, `on_setup` on
the blank test returns failure although the last handler would return
success, and the last handler is not invoked: one callback has run. -/
theorem last_handler_counterexample :
    (on_setup failing_then_passing_callbacks blank_test).1 = false ∧
      failing_then_passing_callbacks.setup.getLast?.map (fun h => (h blank_test).2)
        = some true ∧
      callbacks_of (on_setup failing_then_passing_callbacks blank_test).2.events = [.setup] := by
  decide

/-- C25, amended.  The emission of `setup` or `start` stops at the first
handler that returns failure.  For handlers that return the given results,
`on_setup` called in Idle and `on_start` called in SetUp return the
conjunction of the results when there is at least one handler, failure when
there is none, and the handlers invoked are those up to and including the
first that returns failure. -/
theorem emission_stops_at_first_failure (cb : Callbacks) (t : Test) (results : List Bool) :
    (t.runlevel = .rl_idle →
        List.Forall₂ (fun h b => ∀ s, (h s).2 = b) cb.setup results →
        (on_setup cb t).1 = (!results.isEmpty && results.all id)) ∧
      (t.runlevel = .rl_setup →
        List.Forall₂ (fun h b => ∀ s, (h s).2 = b) cb.start results →
        (on_start cb t).1 = (!results.isEmpty && results.all id)) ∧
      ∀ signal handlers, List.Forall₂ (fun h b => ∀ s, (h s).2 = b) handlers results →
        callbacks_of (g_signal_emit_boolean signal handlers t).2.events
          = callbacks_of t.events ++
            List.replicate (min results.length ((results.takeWhile id).length + 1)) signal := by
  have hval : ∀ signal handlers s,
      List.Forall₂ (fun h b => ∀ s, (h s).2 = b) handlers results →
      (g_signal_emit_boolean signal handlers s).1 = (!results.isEmpty && results.all id) := by
    intro signal handlers s hres
    have h := (emit_accumulate_results signal handlers results hres false s).1
    unfold g_signal_emit_boolean
    rw [h]
    cases results <;> simp
  refine ⟨?_, ?_, ?_⟩
  · intro hr hres
    obtain ⟨es, _, heq⟩ := on_setup_eq cb t hr
    rw [heq]
    exact hval .setup cb.setup t hres
  · intro hr hres
    rw [on_start_eq cb t hr]
    exact hval .start cb.start t hres
  · intro signal handlers hres
    exact (emit_accumulate_results signal handlers results hres false t).2

/-- C25 amended, on the blank test with a failing handler before the class
handler of `setup`: the result is failure and one handler is invoked. -/
theorem emission_stops_at_first_failure_witness :
    blank_test.runlevel = .rl_idle ∧
      (on_setup failing_then_passing_callbacks blank_test).1 = false ∧
      callbacks_of
        (g_signal_emit_boolean .setup failing_then_passing_callbacks.setup blank_test).2.events
        = [.setup] :=
  ⟨rfl,
    (emission_stops_at_first_failure failing_then_passing_callbacks blank_test
      [false, true]).1 rfl
      (List.Forall₂.cons (fun _ => rfl) (List.Forall₂.cons (fun _ => rfl) List.Forall₂.nil)),
    (emission_stops_at_first_failure failing_then_passing_callbacks blank_test
      [false, true]).2.2 .setup failing_then_passing_callbacks.setup
      (List.Forall₂.cons (fun _ => rfl) (List.Forall₂.cons (fun _ => rfl) List.Forall₂.nil))⟩

/-! ## The CPU load -/

/-- C26 as stated fails.  On the blank test in Started, `on_stop` reports no
`cpu-load` and leaves the stored load at its initial `-1`; it is the
`on_teardown` that follows which takes the sample and reports it. -/
theorem cpu_load_at_stop_counterexample :
    started_blank_test.runlevel = .rl_started ∧
      cpu_load_reports (on_stop insanity_test_class_init started_blank_test).events = [] ∧
      (on_stop insanity_test_class_init started_blank_test).cpu_load = -1 ∧
      cpu_load_reports
        (on_teardown insanity_test_class_init (some 7)
          (on_stop insanity_test_class_init started_blank_test)).events
        = [.print_extra_info "cpu-load" (.int 7)] := by
  decide

/-- C26, amended.  A legal `on_stop` neither samples nor reports the CPU
load: the stored load is unchanged and the only reports of `cpu-load` in
the record are those the stop handlers made themselves.  A legal
`on_teardown` runs `gather_end_of_test_info` before the teardown handlers.
While the stored load is negative, that function stores the sample and
reports `cpu-load` once, printed in standalone mode and sent as
`remoteExtraInfoSignal` on a connected test; once the stored load is not
negative it does nothing. -/
theorem cpu_load_reported_at_teardown (cb : Callbacks) (load : Option Int) (t : Test)
    (path : String) :
    (t.runlevel = .rl_started →
        (on_stop cb t).cpu_load = t.cpu_load ∧
          cpu_load_reports (on_stop cb t).events
            = cpu_load_reports (g_signal_emit_void .stop cb.stop t).events) ∧
      (t.runlevel = .rl_setup →
        (on_teardown cb load t).events
          = (g_signal_emit_void .teardown cb.teardown (gather_end_of_test_info t load)).events) ∧
      (t.cpu_load < 0 → t.standalone = true →
        (gather_end_of_test_info t load).cpu_load = load.getD t.cpu_load ∧
          (gather_end_of_test_info t load).events
            = t.events ++ [.print_extra_info "cpu-load" (.int (load.getD t.cpu_load))]) ∧
      (t.cpu_load < 0 → t.standalone = false → t.name = some path →
        (gather_end_of_test_info t load).cpu_load = load.getD t.cpu_load ∧
          (gather_end_of_test_info t load).events
            = t.events ++ [.send_signal "remoteExtraInfoSignal" path
                [.basic 's' (.string "cpu-load"), .variant "i" (.int (load.getD t.cpu_load))]]) ∧
      (0 ≤ t.cpu_load → gather_end_of_test_info t load = t) := by
  refine ⟨?_, ?_, ?_, ?_, ?_⟩
  · intro h
    have hf := frame_emit_void .stop cb.stop t
    unfold on_stop
    rw [if_neg (by simp [h])]
    dsimp only
    constructor
    · split
      · exact ((frame_send_signal _ _ _).cpu_load).trans hf.cpu_load
      · exact hf.cpu_load
    · split
      · unfold send_signal
        split
        · rfl
        · split
          · simp [Test.emit, cpu_load_reports_append, cpu_load_reports]
          · rfl
      · rfl
  · intro h
    rw [on_teardown_eq cb load t h]
  · intro hneg hs
    unfold gather_end_of_test_info
    rw [if_neg (not_le.2 hneg)]
    cases load with
    | none =>
      simp only [insanity_test_record_stop_time, insanity_test_set_extra_info_internal, hs,
        if_true, Test.emit, Option.getD_none]
      exact ⟨trivial, trivial⟩
    | some l =>
      simp only [insanity_test_record_stop_time, insanity_test_set_extra_info_internal, hs,
        if_true, Test.emit, Option.getD_some]
      exact ⟨trivial, trivial⟩
  · intro hneg hs hn
    unfold gather_end_of_test_info
    rw [if_neg (not_le.2 hneg)]
    cases load with
    | none =>
      simp [insanity_test_record_stop_time, insanity_test_set_extra_info_internal, hs,
        Test.emit, send_signal, hn, G_VALUE_TYPE, send_signal_arg_ok, dbus_type_is_basic]
    | some l =>
      simp [insanity_test_record_stop_time, insanity_test_set_extra_info_internal, hs,
        Test.emit, send_signal, hn, G_VALUE_TYPE, send_signal_arg_ok, dbus_type_is_basic]
  · intro h
    unfold gather_end_of_test_info
    rw [if_pos h]

/-- C26 amended, on the blank test in Started with the class handlers:
nothing is reported at stop, and the teardown that follows reports the
sample once. -/
theorem cpu_load_reported_at_teardown_witness :
    started_blank_test.runlevel = .rl_started ∧
      (on_stop insanity_test_class_init started_blank_test).cpu_load = -1 ∧
      cpu_load_reports (on_stop insanity_test_class_init started_blank_test).events = [] ∧
      (gather_end_of_test_info (on_stop insanity_test_class_init started_blank_test)
        (some 7)).events
        = (on_stop insanity_test_class_init started_blank_test).events ++
            [.print_extra_info "cpu-load" (.int 7)] :=
  ⟨rfl,
    ((cpu_load_reported_at_teardown insanity_test_class_init (some 7) started_blank_test
      "").1 rfl).1,
    ((cpu_load_reported_at_teardown insanity_test_class_init (some 7) started_blank_test
      "").1 rfl).2,
    ((cpu_load_reported_at_teardown insanity_test_class_init (some 7)
      (on_stop insanity_test_class_init started_blank_test) "").2.2.1
      (by decide) rfl).2⟩

/-! ## The state a standalone run ends in -/

/-- C28 as stated fails.  On the blank test with a setup callback that
reports failure, the standalone run returns with the state at SetUp: start,
stop and teardown are skipped. -/
theorem failed_setup_run_counterexample :
    blank_test.runlevel = .rl_idle ∧
      (insanity_test_run_standalone failing_setup_callbacks none signalled_wait blank_test).map
        (fun r => r.2.runlevel) = some .rl_setup ∧
      (insanity_test_run_standalone failing_setup_callbacks none signalled_wait blank_test).map
        (fun r => callbacks_of r.2.events) = some [.setup] := by
  decide

/-- C28, amended.  A standalone run begun in Idle whose setup reports
success leaves the state at Idle, with the exit flag set, whenever it
returns, and it does return when start reports failure.  When setup reports
failure the run returns with the state at SetUp, having called neither
start, stop nor teardown. -/
theorem run_final_runlevel (cb : Callbacks) (load : Option Int) (sched : List WaitRound)
    (t : Test) (h : t.runlevel = .rl_idle) :
    ((on_setup cb t).1 = true → ∀ ret t1,
        insanity_test_run_standalone cb load sched t = some (ret, t1) →
        t1.runlevel = .rl_idle ∧ t1.exit = true) ∧
      ((on_setup cb t).1 = true → (on_start cb (on_setup cb t).2).1 = false →
        ∃ ret t1, insanity_test_run_standalone cb load sched t = some (ret, t1) ∧
          t1.runlevel = .rl_idle) ∧
      ((on_setup cb t).1 = false →
        ∃ ret, insanity_test_run_standalone cb load sched t
            = some (ret, (insanity_report_failed_tests (on_setup cb t).2 true).2) ∧
          (insanity_report_failed_tests (on_setup cb t).2 true).2.runlevel = .rl_setup) := by
  obtain ⟨es1, _, h1⟩ := on_setup_eq cb t h
  have r1 : (on_setup cb t).2.runlevel = .rl_setup := by rw [h1]
  have r2 : (on_start cb (on_setup cb t).2).2.runlevel = .rl_started := by
    rw [on_start_eq cb (on_setup cb t).2 r1]
  refine ⟨?_, ?_, ?_⟩
  · intro hs ret t1 hrun
    unfold insanity_test_run_standalone insanity_test_run_standalone_lifecycle at hrun
    simp only [hs, if_true] at hrun
    split at hrun
    · cases hrun
    · rename_i timeout t0 hl
      have h0 : t0.runlevel = .rl_idle ∧ t0.exit = true := by
        split at hl
        · split at hl
          · cases hl
          · rename_i w hw
            cases hl
            have hf := frame_WAIT_TIMEOUT sched _ w hw
            exact stop_teardown_idle cb load w.2 (hf.runlevel.trans r2)
        · cases hl
          exact stop_teardown_idle cb load _ r2
      split at hrun
      · cases hrun
        exact ⟨(report_keeps t0 true).1.trans h0.1, (report_keeps t0 true).2.trans h0.2⟩
      · cases hrun
        exact h0
  · intro hs hf
    unfold insanity_test_run_standalone insanity_test_run_standalone_lifecycle
    simp only [hs, hf, if_true, Bool.false_eq_true, if_false, Bool.not_false]
    exact ⟨_, _, rfl, (report_keeps _ true).1.trans (stop_teardown_idle cb load _ r2).1⟩
  · intro hs
    unfold insanity_test_run_standalone insanity_test_run_standalone_lifecycle
    simp only [hs, Bool.false_eq_true, if_false, Bool.not_false, if_true]
    exact ⟨_, rfl, (report_keeps _ true).1.trans r1⟩

/-- C28 amended, on the blank test: with the class handlers a run woken by
`insanity_test_done` ends in Idle with the exit flag set, and with a setup
callback that reports failure the run ends in SetUp. -/
theorem run_final_runlevel_witness :
    blank_test.runlevel = .rl_idle ∧
      (∃ ret t1,
        insanity_test_run_standalone insanity_test_class_init none signalled_wait blank_test
          = some (ret, t1) ∧ t1.runlevel = .rl_idle ∧ t1.exit = true) ∧
      (insanity_report_failed_tests (on_setup failing_setup_callbacks blank_test).2
        true).2.runlevel = .rl_setup :=
  ⟨rfl,
    (Option.isSome_iff_exists.1
      (by decide :
        (insanity_test_run_standalone insanity_test_class_init none signalled_wait
          blank_test).isSome = true)).elim
      fun r hr => ⟨r.1, r.2, hr,
        (run_final_runlevel insanity_test_class_init none signalled_wait blank_test rfl).1 rfl
          r.1 r.2 hr⟩,
    ((run_final_runlevel failing_setup_callbacks none signalled_wait blank_test rfl).2.2
      rfl).elim fun _ h => h.2⟩

/-! ### Reading decimal digits -/

theorem digit_value_of_digit (c : Char) (h : is_decimal_digit c) :
    digit_value c = some (c.toNat - 48) := by
  unfold is_decimal_digit at h
  unfold digit_value
  rw [if_pos h]

theorem digit_value_of_other (c : Char) (h : ¬ is_decimal_digit c) : digit_value c = none := by
  unfold is_decimal_digit at h
  unfold digit_value
  rw [if_neg h]

theorem read_digits_all (ds : List Char) (acc : Nat) (h : ∀ c ∈ ds, is_decimal_digit c) :
    read_digits ds acc = (ds.foldl (fun a c => a * 10 + (c.toNat - 48)) acc, []) := by
  induction ds generalizing acc with
  | nil => rfl
  | cons d rest ih =>
    simp only [read_digits, digit_value_of_digit d (h d (List.mem_cons_self _ _)),
      List.foldl_cons]
    exact ih _ (fun c hc => h c (List.mem_cons_of_mem _ hc))

theorem read_digits_stop (ds : List Char) (c : Char) (rest : List Char) (acc : Nat)
    (h : ∀ x ∈ ds, is_decimal_digit x) (hc : ¬ is_decimal_digit c) :
    (read_digits (ds ++ c :: rest) acc).2 = c :: rest := by
  induction ds generalizing acc with
  | nil => simp only [List.nil_append, read_digits, digit_value_of_other c hc]
  | cons d more ih =>
    simp only [List.cons_append, read_digits,
      digit_value_of_digit d (h d (List.mem_cons_self _ _))]
    exact ih _ (fun x hx => h x (List.mem_cons_of_mem _ hx))

theorem digit_of_digit_value (c : Char) (n : Nat) (h : digit_value c = some n) :
    is_decimal_digit c := by
  unfold digit_value at h
  split at h
  · rename_i hc
    exact hc
  · cases h

theorem read_digits_consumed (l : List Char) (acc : Nat) (h : (read_digits l acc).2 = []) :
    ∀ c ∈ l, is_decimal_digit c := by
  induction l generalizing acc with
  | nil => intro c hc; cases hc
  | cons x rest ih =>
    cases hx : digit_value x with
    | none =>
      simp only [read_digits, hx] at h
      cases h
    | some n =>
      simp only [read_digits, hx] at h
      intro c hc
      rcases List.mem_cons.1 hc with rfl | hc
      · exact digit_of_digit_value c n hx
      · exact ih _ h c hc

theorem digit_plain (c : Char) (h : is_decimal_digit c) :
    isspace c = false ∧ c ≠ '-' ∧ c ≠ '+' := by
  unfold is_decimal_digit at h
  simp only [List.mem_cons, List.mem_singleton, List.not_mem_nil, or_false] at h
  rcases h with rfl | rfl | rfl | rfl | rfl | rfl | rfl | rfl | rfl | rfl <;> decide

theorem dropWhile_spaces (ws l : List Char) (c : Char) (hws : ∀ x ∈ ws, isspace x = true)
    (hc : isspace c = false) : (ws ++ c :: l).dropWhile isspace = c :: l := by
  induction ws with
  | nil => simp [List.dropWhile, hc]
  | cons x rest ih =>
    simp only [List.cons_append, List.dropWhile, hws x (List.mem_cons_self _ _)]
    exact ih (fun y hy => hws y (List.mem_cons_of_mem _ hy))

theorem scan_integer_numeral (nptr : String) (ws sign : List Char) (d : Char) (ds : List Char)
    (hws : ∀ c ∈ ws, isspace c = true) (hsign : sign = [] ∨ sign = ['+'] ∨ sign = ['-'])
    (hd : ∀ c ∈ d :: ds, is_decimal_digit c) (htext : nptr.data = ws ++ sign ++ d :: ds) :
    scan_integer nptr = (decide (sign = ['-']), decimal_value (d :: ds), []) := by
  have hr : read_digits (d :: ds) 0 = (decimal_value (d :: ds), []) := read_digits_all _ 0 hd
  obtain ⟨hsp, hm, hp⟩ := digit_plain d (hd d (List.mem_cons_self _ _))
  have hdv : (digit_value d).isSome = true := by
    rw [digit_value_of_digit d (hd d (List.mem_cons_self _ _))]
    rfl
  unfold scan_integer
  rcases hsign with rfl | rfl | rfl
  · have hs : nptr.data.dropWhile isspace = d :: ds := by
      rw [htext, List.append_nil]
      exact dropWhile_spaces ws ds d hws hsp
    rw [hs]
    refine Eq.trans (b := (false, (read_digits (d :: ds) 0).1, (read_digits (d :: ds) 0).2))
      ?_ (by rw [hr]; rfl)
    have hd0 := hd d (List.mem_cons_self _ _)
    unfold is_decimal_digit at hd0
    simp only [List.mem_cons, List.mem_singleton, List.not_mem_nil, or_false] at hd0
    rcases hd0 with rfl | rfl | rfl | rfl | rfl | rfl | rfl | rfl | rfl | rfl <;> rfl
  · have hs : nptr.data.dropWhile isspace = '+' :: d :: ds := by
      rw [htext, List.append_assoc]
      exact dropWhile_spaces ws (d :: ds) '+' hws (by decide)
    rw [hs]
    simp only [hdv, if_true, hr]
    rfl
  · have hs : nptr.data.dropWhile isspace = '-' :: d :: ds := by
      rw [htext, List.append_assoc]
      exact dropWhile_spaces ws (d :: ds) '-' hws (by decide)
    rw [hs]
    simp only [hdv, if_true, hr]
    rfl


theorem scan_integer_consumed (nptr : String) (hne : nptr.data ≠ [])
    (h : (scan_integer nptr).2.2 = []) :
    ∃ ws sign d ds, (∀ c ∈ ws, isspace c = true) ∧
      (sign = [] ∨ sign = ['+'] ∨ sign = ['-']) ∧
      (∀ c ∈ d :: ds, is_decimal_digit c) ∧ nptr.data = ws ++ sign ++ d :: ds := by
  have hsplit : nptr.data = nptr.data.takeWhile isspace ++ nptr.data.dropWhile isspace :=
    (List.takeWhile_append_dropWhile _ _).symm
  have hws : ∀ c ∈ nptr.data.takeWhile isspace, isspace c = true := fun c hc =>
    List.mem_takeWhile_imp hc
  unfold scan_integer at h
  generalize hs : nptr.data.dropWhile isspace = s at h hsplit
  dsimp only at h
  split at h
  · exact absurd h hne
  · rename_i c tl heq
    split at h
    · rw [heq] at h
      have hd := read_digits_consumed (c :: tl) 0 h
      split at heq
      · rename_i rest
        dsimp only at heq
        subst heq
        refine ⟨_, ['-'], c, tl, hws, Or.inr (Or.inr rfl), hd, ?_⟩
        exact hsplit.trans (by simp)
      · rename_i rest
        dsimp only at heq
        subst heq
        refine ⟨_, ['+'], c, tl, hws, Or.inr (Or.inl rfl), hd, ?_⟩
        exact hsplit.trans (by simp)
      · dsimp only at heq
        subst heq
        refine ⟨_, [], c, tl, hws, Or.inl rfl, hd, ?_⟩
        exact hsplit.trans (by simp)
    · exact absurd h hne

theorem numeral_last_digit (l ws sign : List Char) (d : Char) (ds : List Char)
    (hd : ∀ c ∈ d :: ds, is_decimal_digit c) (h : l = ws ++ sign ++ d :: ds) :
    ∃ x, l.getLast? = some x ∧ is_decimal_digit x := by
  refine ⟨(d :: ds).getLast (List.cons_ne_nil _ _), ?_, hd _ (List.getLast_mem _)⟩
  rw [h, List.getLast?_append_of_ne_nil _ (List.cons_ne_nil _ _),
    List.getLast?_eq_getLast _ (List.cons_ne_nil _ _)]

/-! ### Bindings keep the declared type -/

theorem parse_value_typed (strtof_end : String → List Char) (t : Test) (key text : String)
    (v : GValue) (h : parse_value strtof_end t key text = some v) :
    ∃ arg, g_hash_table_lookup t.test_arguments key = some arg ∧
      G_VALUE_TYPE v = G_VALUE_TYPE arg.default_value := by
  unfold parse_value at h
  split at h
  · cases h
  · rename_i arg harg
    refine ⟨arg, harg, ?_⟩
    split at h
    · rename_i hty
      cases h
      rw [hty]
      rfl
    · rename_i hty
      dsimp only at h
      split at h
      · cases h
        rw [hty]
        rfl
      · cases h
    · rename_i hty
      dsimp only at h
      split at h
      · cases h
        rw [hty]
        rfl
      · cases h
    · rename_i hty
      dsimp only at h
      split at h
      · cases h
        rw [hty]
        rfl
      · cases h
    · rename_i hty
      dsimp only at h
      split at h
      · cases h
        rw [hty]
        rfl
      · cases h
    · rename_i hty
      split at h
      · cases h
        rw [hty]
        rfl
      · cases h
    · rename_i hty
      split at h
      · cases h
        rw [hty]
        rfl
      · split at h
        · cases h
          rw [hty]
          rfl
        · cases h
    · cases h

theorem bindings_typed_insert (t : Test) (args : GHashTable GValue) (key : String) (v : GValue)
    (arg : Argument) (ht : BindingsTyped t)
    (ha : t.args = some args)
    (hk : g_hash_table_lookup t.test_arguments key = some arg)
    (hv : G_VALUE_TYPE v = G_VALUE_TYPE arg.default_value) :
    BindingsTyped { t with args := some (g_hash_table_insert args key v) } := by
  intro k w hw
  simp only [bound_argument] at hw
  by_cases hkk : k = key
  · subst hkk
    rw [lookup_insert_self] at hw
    cases hw
    exact ⟨arg, hk, hv⟩
  · rw [lookup_insert_ne _ _ _ _ hkk] at hw
    apply ht k w
    simp only [bound_argument, ha]
    exact hw

theorem bindings_typed_cache (t : Test) (c : GHashTable String) (ht : BindingsTyped t) :
    BindingsTyped { t with filename_cache := c } := ht

theorem arg_converter_typed (key : String) (value : GValue) (s : Test) (hs : BindingsTyped s) :
    BindingsTyped (arg_converter key value s).2 := by
  unfold arg_converter
  split
  · exact hs
  · rename_i arg harg
    split
    · exact hs
    · rename_i hty
      split
      · rename_i args ha
        exact bindings_typed_insert s args key value arg hs ha harg (not_not.1 hty)
      · exact hs

theorem output_filename_converter_typed (key : String) (value : GValue) (s : Test)
    (hs : BindingsTyped s) : BindingsTyped (output_filename_converter key value s).2 := by
  unfold output_filename_converter
  split
  · exact bindings_typed_cache s _ hs
  · exact hs

theorem set_args_typed (t : Test) (msg : DBusMessage) :
    BindingsTyped (insanity_test_set_args t (some msg)) := by
  have h0 : BindingsTyped
      { t with args := some [], filename_cache := g_hash_table_remove_all t.filename_cache } := by
    intro k w hw
    simp [bound_argument, g_hash_table_lookup] at hw
  have h1 := foreach_preserves BindingsTyped arg_converter arg_converter_typed msg.args _ h0
  unfold insanity_test_set_args
  dsimp only
  split
  · exact h1
  · split
    · exact foreach_preserves BindingsTyped output_filename_converter
        output_filename_converter_typed _ _ h1
    · exact h1

theorem load_one_typed (strtof_end : String → List Char) (t t1 : Test) (word : String)
    (ht : BindingsTyped t) (h : insanity_test_run_load_one strtof_end t word = some t1) :
    BindingsTyped t1 := by
  unfold insanity_test_run_load_one at h
  split at h
  · cases h
  · rename_i key text _
    split at h
    · cases h
      exact bindings_typed_cache t _ ht
    · split at h
      · rename_i value hv
        obtain ⟨arg, hk, hty⟩ := parse_value_typed strtof_end t key text value hv
        split at h
        · rename_i args ha
          cases h
          exact bindings_typed_insert t args key value arg ht ha hk hty
        · cases h
          exact ht
      · cases h
        exact ht

theorem load_words_typed (strtof_end : String → List Char) (argv : List String) (t t1 : Test)
    (ht : BindingsTyped t) (h : insanity_test_run_load_words strtof_end argv t = some t1) :
    BindingsTyped t1 := by
  induction argv generalizing t with
  | nil =>
    simp only [insanity_test_run_load_words] at h
    cases h
    exact ht
  | cons word rest ih =>
    simp only [insanity_test_run_load_words] at h
    split at h
    · cases h
    · rename_i t2 h2
      exact ih t2 (load_one_typed strtof_end t t2 word ht h2) h


/-! ## Binding of arguments -/

/-- C27. After `insanity_test_set_args` has decoded the dictionaries of a
message, and after `insanity_test_run` has loaded the command line of a
standalone run, every binding is for a declared argument and holds a value
of the type of that argument's default.  A key that is not a declared
argument is passed over: `arg_converter` returns `0` and leaves the test as
it was, and the command line loader goes on to the next word with the
bindings as they were. -/
theorem bindings_follow_declarations (strtof_end : String → List Char) (t : Test) :
    (∀ msg, BindingsTyped (insanity_test_set_args t (some msg))) ∧
      (∀ opt_timeout argv t1,
        insanity_test_run_load_arguments strtof_end t opt_timeout argv = some t1 →
        BindingsTyped t1) ∧
      (∀ key value, g_hash_table_lookup t.test_arguments key = none →
        arg_converter key value t = (0, t)) ∧
      (∀ word key text, split_at_equals word = some (key, text) →
        g_hash_table_lookup t.test_arguments key = none →
        ∃ t1, insanity_test_run_load_one strtof_end t word = some t1 ∧ t1.args = t.args) := by
  refine ⟨fun msg => set_args_typed t msg, ?_, ?_, ?_⟩
  · intro opt_timeout argv t1 h
    unfold insanity_test_run_load_arguments at h
    refine load_words_typed strtof_end argv _ t1 ?_ h
    intro k w hw
    simp [bound_argument, g_hash_table_lookup] at hw
  · intro key value hk
    unfold arg_converter
    rw [hk]
  · intro word key text hw hk
    have hp : parse_value strtof_end t key text = none := by
      unfold parse_value
      rw [hk]
    unfold insanity_test_run_load_one
    rw [hw]
    dsimp only
    split
    · exact ⟨_, rfl, rfl⟩
    · rw [hp]
      exact ⟨_, rfl, rfl⟩

/-- C27, on the blank test with the arguments `count` and `size` declared:
the command line `count=3 bogus=1` binds `count` to the int32 `3` and
nothing else, and `arg_converter` passes over the key `bogus`. -/
theorem bindings_follow_declarations_witness :
    (∃ t1, insanity_test_run_load_arguments strtof_no_conversion counting_test 15
        ["count=3", "bogus=1"] = some t1 ∧ BindingsTyped t1) ∧
      (insanity_test_run_load_arguments strtof_no_conversion counting_test 15
        ["count=3", "bogus=1"]).map (fun t1 => t1.args) = some (some [("count", .int 3)]) ∧
      g_hash_table_lookup counting_test.test_arguments "bogus" = none ∧
      arg_converter "bogus" (.int 1) counting_test = (0, counting_test) :=
  ⟨(Option.isSome_iff_exists.1
      (by decide :
        (insanity_test_run_load_arguments strtof_no_conversion counting_test 15
          ["count=3", "bogus=1"]).isSome = true)).elim
      fun t1 h1 => ⟨t1, h1,
        (bindings_follow_declarations strtof_no_conversion counting_test).2.1 15
          ["count=3", "bogus=1"] t1 h1⟩,
    by decide, by decide,
    (bindings_follow_declarations strtof_no_conversion counting_test).2.2.1 "bogus" (.int 1)
      (by decide)⟩

/-! ## Numbers on the command line -/

/-- C30 as stated fails.  For the int32 argument `count`, `parse_value`
accepts the empty text and binds `0`; it accepts `4294967296` and
`2147483648`, which lie beyond the range, and binds `0` and `-2147483648`;
it accepts ` +12`, which starts with a blank.  For the uint32 argument
`size` it accepts `-1` and binds `4294967295`.  The command line
`count=4294967296` leaves `count` bound to `0`. -/
theorem parse_value_range_counterexample :
    parse_value strtof_no_conversion counting_test "count" "" = some (.int 0) ∧
      parse_value strtof_no_conversion counting_test "count" "4294967296" = some (.int 0) ∧
      parse_value strtof_no_conversion counting_test "count" "2147483648"
        = some (.int (-2147483648)) ∧
      parse_value strtof_no_conversion counting_test "count" " +12" = some (.int 12) ∧
      parse_value strtof_no_conversion counting_test "size" "-1" = some (.uint 4294967295) ∧
      (insanity_test_run_load_arguments strtof_no_conversion counting_test 15
        ["count=4294967296"]).map (fun t => bound_argument t "count")
        = some (some (.int 0)) := by
  decide

/-- C30, amended.  For an argument declared with an int32 or a uint32
default, `parse_value` accepts a text that is not empty exactly when it is
a numeral as `strtol` and `strtoul` read one in base 10: white space, which
may be absent, then an optional sign, then one or more decimal digits, and
nothing after them.  No range check is made.  For an int32 the signed
number is clamped to the range of `long` and then reduced to 32 bits, so the
bound value is the number written when that lies in the range of an int32.
For a uint32 the number is clamped to the range of `unsigned long`, negated
within it after a minus sign, and then reduced to 32 bits, so the bound
value is the number written when it has no minus sign and lies in the range
of a uint32.  Any other text that is not empty is rejected, and a rejected
text for a key that names no output file leaves the test as it was. -/
theorem parse_value_numeral (strtof_end : String → List Char) (t : Test) (key : String)
    (arg : Argument) (text : String)
    (hkey : g_hash_table_lookup t.test_arguments key = some arg)
    (hty : G_VALUE_TYPE arg.default_value = .G_TYPE_INT ∨
      G_VALUE_TYPE arg.default_value = .G_TYPE_UINT)
    (hne : text.data ≠ []) :
    ((parse_value strtof_end t key text).isSome = true ↔
        ∃ ws sign d ds, (∀ c ∈ ws, isspace c = true) ∧
          (sign = [] ∨ sign = ['+'] ∨ sign = ['-']) ∧
          (∀ c ∈ d :: ds, is_decimal_digit c) ∧ text.data = ws ++ sign ++ d :: ds) ∧
      (∀ ws sign d ds, (∀ c ∈ ws, isspace c = true) →
        (sign = [] ∨ sign = ['+'] ∨ sign = ['-']) →
        (∀ c ∈ d :: ds, is_decimal_digit c) → text.data = ws ++ sign ++ d :: ds →
        (G_VALUE_TYPE arg.default_value = .G_TYPE_INT →
          parse_value strtof_end t key text
              = some (.int (long_to_gint (max (-(2 ^ 63 : Int))
                  (min (if sign = ['-'] then -(decimal_value (d :: ds) : Int)
                    else (decimal_value (d :: ds) : Int)) (2 ^ 63 - 1))))) ∧
            (-(2 ^ 31 : Int) ≤ (if sign = ['-'] then -(decimal_value (d :: ds) : Int)
                else (decimal_value (d :: ds) : Int)) →
              (if sign = ['-'] then -(decimal_value (d :: ds) : Int)
                else (decimal_value (d :: ds) : Int)) < 2 ^ 31 →
              parse_value strtof_end t key text
                = some (.int (if sign = ['-'] then -(decimal_value (d :: ds) : Int)
                    else (decimal_value (d :: ds) : Int))))) ∧
        (G_VALUE_TYPE arg.default_value = .G_TYPE_UINT →
          parse_value strtof_end t key text
              = some (.uint (ulong_to_guint
                  (if decimal_value (d :: ds) ≥ 2 ^ 64 then 2 ^ 64 - 1
                    else if sign = ['-'] then (2 ^ 64 - decimal_value (d :: ds)) % 2 ^ 64
                    else decimal_value (d :: ds)))) ∧
            (sign ≠ ['-'] → decimal_value (d :: ds) < 2 ^ 32 →
              parse_value strtof_end t key text = some (.uint (decimal_value (d :: ds)))))) ∧
      (∀ word, split_at_equals word = some (key, text) →
        g_hash_table_lookup t.test_output_files key = none →
        parse_value strtof_end t key text = none →
        insanity_test_run_load_one strtof_end t word = some t) := by
  have hint : G_VALUE_TYPE arg.default_value = .G_TYPE_INT →
      parse_value strtof_end t key text =
        if (strtol text).2.isEmpty then some (.int (long_to_gint (strtol text).1)) else none := by
    intro h
    unfold parse_value
    simp only [hkey, h]
  have huint : G_VALUE_TYPE arg.default_value = .G_TYPE_UINT →
      parse_value strtof_end t key text =
        if (strtoul text).2.isEmpty then some (.uint (ulong_to_guint (strtoul text).1))
        else none := by
    intro h
    unfold parse_value
    simp only [hkey, h]
  have hsome : (parse_value strtof_end t key text).isSome = true ↔
      (scan_integer text).2.2 = [] := by
    rcases hty with h | h
    · rw [hint h]
      have e : (strtol text).2 = (scan_integer text).2.2 := rfl
      rw [e]
      cases hr : (scan_integer text).2.2 <;> simp
    · rw [huint h]
      have e : (strtoul text).2 = (scan_integer text).2.2 := rfl
      rw [e]
      cases hr : (scan_integer text).2.2 <;> simp
  refine ⟨?_, ?_, ?_⟩
  · rw [hsome]
    constructor
    · exact scan_integer_consumed text hne
    · rintro ⟨ws, sign, d, ds, hws, hsign, hd, htext⟩
      rw [scan_integer_numeral text ws sign d ds hws hsign hd htext]
  · intro ws sign d ds hws hsign hd htext
    have hscan := scan_integer_numeral text ws sign d ds hws hsign hd htext
    have h0 : (0 : Int) ≤ (decimal_value (d :: ds) : Nat) := Int.ofNat_nonneg _
    constructor
    · intro h
      have h1 : parse_value strtof_end t key text
          = some (.int (long_to_gint (max (-(2 ^ 63 : Int))
              (min (if sign = ['-'] then -(decimal_value (d :: ds) : Int)
                else (decimal_value (d :: ds) : Int)) (2 ^ 63 - 1))))) := by
        rw [hint h]
        unfold strtol strto_signed LONG_BITS
        rw [hscan]
        by_cases hs : sign = ['-'] <;> simp [hs]
      refine ⟨h1, ?_⟩
      intro hlo hhi
      rw [h1]
      generalize (if sign = ['-'] then -(decimal_value (d :: ds) : Int)
        else (decimal_value (d :: ds) : Int)) = v at hlo hhi
      have e : long_to_gint (max (-(2 ^ 63 : Int)) (min v (2 ^ 63 - 1))) = v := by
        rw [min_eq_left (by omega), max_eq_right (by omega)]
        unfold long_to_gint
        omega
      rw [e]
    · intro h
      have h1 : parse_value strtof_end t key text
          = some (.uint (ulong_to_guint
              (if decimal_value (d :: ds) ≥ 2 ^ 64 then 2 ^ 64 - 1
                else if sign = ['-'] then (2 ^ 64 - decimal_value (d :: ds)) % 2 ^ 64
                else decimal_value (d :: ds)))) := by
        rw [huint h]
        unfold strtoul strto_unsigned LONG_BITS
        rw [hscan]
        by_cases hs : sign = ['-'] <;> simp [hs]
      refine ⟨h1, ?_⟩
      intro hs hlt
      rw [h1, if_neg (by omega), if_neg hs]
      have e : ulong_to_guint (decimal_value (d :: ds)) = decimal_value (d :: ds) := by
        unfold ulong_to_guint
        omega
      rw [e]
  · intro word hw hout hp
    unfold insanity_test_run_load_one
    rw [hw]
    dsimp only
    rw [hout, hp]
    rfl


/-- C30 amended, on the blank test with the arguments `count` and `size`
declared: for `count` the text ` -7`, a blank, a minus sign and a digit, is
accepted and binds the int32 `-7`, and the text `abc`, which is not a
numeral, is rejected. -/
theorem parse_value_numeral_witness :
    g_hash_table_lookup counting_test.test_arguments "count"
        = some { global := true, description := "Number of rounds",
                 default_value := .int 1, full_description := none } ∧
      " -7".data = [' '] ++ ['-'] ++ '7' :: [] ∧
      parse_value strtof_no_conversion counting_test "count" " -7" = some (.int (-7)) ∧
      parse_value strtof_no_conversion counting_test "count" "abc" = none :=
  ⟨rfl, rfl,
    (((parse_value_numeral strtof_no_conversion counting_test "count"
        { global := true, description := "Number of rounds", default_value := .int 1,
          full_description := none } " -7" rfl (Or.inl rfl) (by decide)).2.1
      [' '] ['-'] '7' [] (by decide) (Or.inr (Or.inr rfl)) (by simp [is_decimal_digit])
      rfl).1 rfl).2 (by decide) (by decide),
    Option.not_isSome_iff_eq_none.1 fun h =>
      ((parse_value_numeral strtof_no_conversion counting_test "count"
        { global := true, description := "Number of rounds", default_value := .int 1,
          full_description := none } "abc" rfl (Or.inl rfl) (by decide)).1.1 h).elim
        fun ws hex => hex.elim fun sign hex => hex.elim fun d hex => hex.elim fun ds hex =>
          (numeral_last_digit "abc".data ws sign d ds hex.2.2.1 hex.2.2.2).elim fun x hx =>
            absurd
              (Option.some.inj (hx.1.symm.trans (rfl : "abc".data.getLast? = some 'c')) ▸ hx.2)
              (by simp [is_decimal_digit])⟩

end Insanity
